import Mathlib

/-!
The program `dist_jpl`: distance between two solar-system bodies.

A shallow embedding of `src/dist_jpl.cpp` and a verification of its time
conversion (`jst2utc`, `gc2jd`), its distance computation (`calc_dist`) and the
control flow of `main`.

Modelling conventions.

* `int` and `long` values are integers (`Int`); an arithmetic step on them whose
  result leaves the range of the type has no defined result, and the embedding
  returns `none` there.
* `unsigned int` values are naturals below `2^32`; every conversion to
  `unsigned int` and every unsigned operation is reduced modulo `2^32`.
* `double` values are modelled twice. In `gc2jd` and in `calc_dist` over `ℝ`
  they are elements of an ordered field `α` with a floor function (`ℚ`, `ℝ`)
  and arithmetic on them is exact. In `gc2jd_rounded`, `gc2jd_binary64` and
  `calc_dist` over `Binary64` every operation is followed by the rounding of
  IEEE 754 binary64 (to nearest, ties to even). What the program does in exact
  arithmetic only is proved on the first model and refuted on the second.
* Library and collaborator calls (`localtime_r`, `timespec_get`, `atoi`,
  `atof`, `std::sqrt`, the ephemeris class `Jpl`) are parameters.
-/

namespace dist_jpl

/-! ## Machine integers -/

/-- Smallest value of `int`. -/
def INT_MIN : Int := -2147483648

/-- Largest value of `int`. -/
def INT_MAX : Int := 2147483647

/-- Smallest value of `long` (64 bits). -/
def LONG_MIN : Int := -9223372036854775808

/-- Largest value of `long` (64 bits). -/
def LONG_MAX : Int := 9223372036854775807

/-- Result of an `int` computation: defined only inside the range of `int`. -/
def toInt (z : Int) : Option Int :=
  if INT_MIN ≤ z ∧ z ≤ INT_MAX then some z else none

/-- Result of a `long` computation: defined only inside the range of `long`. -/
def toLong (z : Int) : Option Int :=
  if LONG_MIN ≤ z ∧ z ≤ LONG_MAX then some z else none

/-- Conversion to `unsigned int`, and result of an `unsigned int` computation:
reduction modulo `2^32`. -/
def toUInt (z : Int) : Nat := (z % 4294967296).toNat

/-- The conversion `static_cast<int>(x)` of a `double`: truncation toward zero,
defined only when the truncated value is in the range of `int`. -/
def castInt {α : Type} [LinearOrderedField α] [FloorRing α] (x : α) : Option Int :=
  toInt (if 0 ≤ x then ⌊x⌋ else ⌈x⌉)

/-! ## Data -/

/-- The C structure `timespec`: seconds (`time_t`, a `long`) and nanoseconds
(`long`). -/
structure Timespec where
  tv_sec : Int
  tv_nsec : Int
deriving DecidableEq, Repr

/-- The fields of the C structure `tm` that the program reads (all `int`). -/
structure Tm where
  tm_sec : Int
  tm_min : Int
  tm_hour : Int
  tm_mday : Int
  tm_mon : Int
  tm_year : Int
deriving DecidableEq, Repr

/-- Names of the bodies (`kAstrs`, 13 entries). -/
def kAstrs : List String :=
  ["Mercury", "Venus", "Earth", "Mars", "Jupiter",
   "Saturn", "Uranus", "Neptune", "Pluto", "Moon", "Sun",
   "Solar system Barycenter", "Earth-Moon barycenter"]

/-- Offset of JST from UTC in seconds (`unsigned int`). -/
def kJstOffset : Nat := 32400

/-- Unit flag passed to the ephemeris: `false` is AU. -/
def kFlgKm : Bool := false

/-- Origin flag passed to the ephemeris: `true` is the solar-system barycentre. -/
def kFlgBary : Bool := true

/-- Unit string. -/
def kKm : String := "km"

/-- Unit string. -/
def kAu : String := "AU"

/-! ## Time conversion -/

/-- Conversion JST -> UTC. `ts_jst.tv_sec - kJstOffset` is evaluated in `long`
(the `unsigned int` constant is converted to `long`, which holds all its
values). -/
def jst2utc (ts_jst : Timespec) : Option Timespec := do
  let tv_sec ← toLong (ts_jst.tv_sec - (kJstOffset : Int))
  let tv_nsec := ts_jst.tv_nsec
  some { tv_sec := tv_sec, tv_nsec := tv_nsec }

/-- Gregorian calendar -> Julian Day. `localtime_r` is the C library's
decomposition of a `time_t` in the process's time zone. The operations on
`double` are exact here (`α` is an ordered field); `gc2jd_rounded` is the
same function with a rounding after each of them. -/
def gc2jd {α : Type} [LinearOrderedField α] [FloorRing α]
    (localtime_r : Int → Tm) (ts : Timespec) : Option α := do
  let t := localtime_r ts.tv_sec
  let year : Nat := toUInt (← toInt (t.tm_year + 1900))
  let month : Nat := toUInt (← toInt (t.tm_mon + 1))
  let day : Nat := toUInt t.tm_mday
  let hour : Nat := toUInt t.tm_hour
  let min : Nat := toUInt t.tm_min
  let sec : Nat := toUInt t.tm_sec
  -- January and February are months 13 and 14 of the previous year
  let year : Nat := if month < 3 then toUInt ((year : Int) - 1) else year
  let month : Nat := if month < 3 then toUInt ((month : Int) + 12) else month
  -- date (integer) part
  let a ← castInt ((365.25 : α) * (year : α))
  let b ← castInt ((year : α) / 400.0)
  let c ← castInt ((year : α) / 100.0)
  let e ← castInt ((30.59 : α) * ((toUInt ((month : Int) - 2) : Nat) : α))
  let s1 ← toInt (a + b)
  let s2 ← toInt (s1 - c)
  let s3 ← toInt (s2 + e)
  let s4 : Nat := toUInt (s3 + (day : Int))
  let jd : α := (s4 : α) + 1721088.5
  -- time (fraction) part
  let jd : α := jd + ((sec : α) / 3600.0 + (min : α) / 60.0 + (hour : α)) / 24.0
  -- nanosecond part
  let jd : α := jd + (ts.tv_nsec : α) / 1000000000.0 / 3600.0 / 24.0
  some jd

/-- Output of `std::setfill('0') << std::setw(w) << s`: padding on the left with
`0` up to the width `w`; longer text is not cut. -/
def setw0 (w : Nat) (s : String) : String :=
  String.mk (List.replicate (w - s.length) '0') ++ s

/-- Date and time as text, `YYYY-MM-DD HH:MM:SS.mmm`. -/
def gen_time_str (localtime_r : Int → Tm) (ts : Timespec) : Option String := do
  let t := localtime_r ts.tv_sec
  let year ← toInt (t.tm_year + 1900)
  let month ← toInt (t.tm_mon + 1)
  some (setw0 4 (toString year) ++ "-"
    ++ setw0 2 (toString month) ++ "-"
    ++ setw0 2 (toString t.tm_mday) ++ " "
    ++ setw0 2 (toString t.tm_hour) ++ ":"
    ++ setw0 2 (toString t.tm_min) ++ ":"
    ++ setw0 2 (toString t.tm_sec) ++ "."
    ++ setw0 3 (toString (Int.tdiv ts.tv_nsec 1000000)))

/-! ## Distance -/

/-- The loop `for (i = 0; i < 3; ++i) { d += ps[i] * ps[i]; }`, entered with
the counter `i` and the accumulator `d`. -/
def calc_dist.loop {α : Type} [Add α] [Mul α] (ps : Fin 3 → α) (i : Nat) (d : α) : α :=
  if h : i < 3 then calc_dist.loop ps (i + 1) (d + ps ⟨i, h⟩ * ps ⟨i, h⟩) else d
termination_by 3 - i

/-- Distance: the square root (`std::sqrt`, a parameter) of the sum of the
squares of the three coordinates. The arithmetic is that of the number type
`α`: exact over `ℝ`, rounded after every operation over `Binary64`. -/
def calc_dist {α : Type} [Zero α] [Add α] [Mul α] (sqrt : α → α) (ps : Fin 3 → α) : α :=
  sqrt (calc_dist.loop ps 0 0)

/-! ## The program -/

/-- Exit status of a successful run. -/
def EXIT_SUCCESS : Int := 0

/-- Exit status of a failed run. -/
def EXIT_FAILURE : Int := 1

/-- What `main` calls and does not define: the C library (`atoi`, `atof`,
`timespec_get`, `localtime_r`, `std::sqrt`) and the ephemeris class `Jpl` of
`jpl.hpp`, whose object has the state type `σ`. A `Jpl` operation that throws
returns `none`. -/
structure Env (α σ : Type) where
  /-- The function `atoi`: the `int` read from a string. -/
  atoi : String → Int
  /-- The function `atof`: the `double` read from a string. -/
  atof : String → α
  /-- The call `timespec_get(&jst, TIME_UTC)`: its return value and the time
  it stores. -/
  timespec_get : Int × Timespec
  /-- The function `localtime_r`. -/
  localtime_r : Int → Tm
  /-- The function `std::sqrt`. -/
  sqrt : α → α
  /-- The constructor `Jpl(jd, flg_km, flg_bary)`. -/
  jpl_new : α → Bool → Bool → Option σ
  /-- The method `read_bin()`. -/
  read_bin : σ → Option σ
  /-- The method `calc_pv(astr_t, astr_c)`. -/
  calc_pv : σ → Nat → Nat → Option σ
  /-- The member `pos`. -/
  pos : σ → Fin 3 → α
  /-- The member `au`. -/
  au : σ → α

/-- What a run of `main` does, in order. -/
inductive Event (α : Type) where
  /-- A line written to `std::cout` and ended by `std::endl`. -/
  | cout (line : String)
  /-- A line written to `std::cerr` and ended by `std::endl`. -/
  | cerr (line : String)
  /-- The clock is read (`timespec_get`). -/
  | clock
  /-- The Julian Day `jd` has been obtained. -/
  | julian (jd : α)
  /-- The ephemeris object is constructed. -/
  | jpl_new (jd : α) (flg_km flg_bary : Bool)
  /-- The ephemeris file is read. -/
  | read_bin
  /-- The ephemeris computes position and velocity. -/
  | calc_pv (astr_t astr_c : Nat)
  /-- The distance is computed (`calc_dist`), with result `d`. -/
  | calc_dist (d : α)

/-- How a run of `main` ends: with an exit status, or in an operation without
defined behaviour. -/
inductive Status where
  | exit (code : Int)
  | undefined
deriving DecidableEq, Repr

/-- A run of `main`: its events and how it ends. -/
structure Run (α : Type) where
  events : List (Event α)
  status : Status

/-- Output of a `double` under `std::fixed << std::setprecision(8)`: the
decimal expansion rounded to 8 places, ties to even. -/
def fixed8 {α : Type} [LinearOrderedField α] [FloorRing α] (x : α) : String :=
  let y : α := |x| * 100000000
  let f : Nat := ⌊y⌋₊
  let r : α := y - (f : α)
  let n : Nat :=
    if r < 1 / 2 then f else if 1 / 2 < r then f + 1 else if f % 2 = 0 then f else f + 1
  (if x < 0 then "-" else "") ++ toString (n / 100000000) ++ "."
    ++ setw0 8 (toString (n % 100000000))

/-- The part of `main` after the Julian Day `jd` has been obtained: the
ephemeris, the distance and the report. `pre` holds the events so far. -/
def main.report {α σ : Type} [LinearOrderedField α] [FloorRing α] (env : Env α σ)
    (astr_t astr_c : Nat) (jd : α) (pre : List (Event α)) : Run α :=
  let ev := pre ++ [Event.julian jd, Event.jpl_new jd kFlgKm kFlgBary]
  match env.jpl_new jd kFlgKm kFlgBary with
  | none => ⟨ev ++ [Event.cerr "EXCEPTION!"], Status.exit EXIT_FAILURE⟩
  | some o =>
    let ev := ev ++ [Event.read_bin]
    match env.read_bin o with
    | none => ⟨ev ++ [Event.cerr "EXCEPTION!"], Status.exit EXIT_FAILURE⟩
    | some o =>
      let ev := ev ++ [Event.calc_pv astr_t astr_c]
      match env.calc_pv o astr_t astr_c with
      | none => ⟨ev ++ [Event.cerr "EXCEPTION!"], Status.exit EXIT_FAILURE⟩
      | some o =>
        let d := calc_dist env.sqrt (env.pos o)
        let ev := ev ++ [Event.calc_dist d]
        match kAstrs[toUInt ((astr_t : Int) - 1)]?, kAstrs[toUInt ((astr_c : Int) - 1)]? with
        | some name_t, some name_c =>
          ⟨ev ++ [Event.cout ("DISTANCE [ " ++ name_t ++ " <=> " ++ name_c ++ " ] (JD: "
                    ++ fixed8 jd ++ ")"),
                  Event.cout ("= " ++ fixed8 d ++ " " ++ kAu),
                  Event.cout ("= " ++ fixed8 (d * env.au o) ++ " " ++ kKm)],
            Status.exit EXIT_SUCCESS⟩
        | _, _ => ⟨ev, Status.undefined⟩

/-- The program. `argv` is the argument vector, program name included, so
that `argc` is its length. -/
def main {α σ : Type} [LinearOrderedField α] [FloorRing α] (env : Env α σ)
    (argv : List String) : Run α :=
  let argc : Int := argv.length
  if argc < 3 then
    ⟨[Event.cout "[USAGE] ./jpl_calc_430 TARGET_NO CENTER_NO [JULIAN_DAY]"],
      Status.exit EXIT_FAILURE⟩
  else
    let astr_t : Nat := toUInt (env.atoi (argv.getD 1 ""))
    if astr_t < 1 ∨ astr_t > 15 then
      ⟨[Event.cout "[ERROR\x7d !!! TARGET_NO must be between 1 and 15 !!!"],
        Status.exit EXIT_FAILURE⟩
    else
      let astr_c : Nat := toUInt (env.atoi (argv.getD 2 ""))
      if astr_c < 0 ∨ astr_c > 13 then
        ⟨[Event.cout "[ERROR\x7d !!! CENTER_NO must be between 0 and 13 !!!"],
          Status.exit EXIT_FAILURE⟩
      else if argc > 3 then
        main.report env astr_t astr_c (env.atof (argv.getD 3 "")) []
      else
        let ret := env.timespec_get.1
        let jst := env.timespec_get.2
        if ret ≠ 1 then
          ⟨[Event.clock, Event.cout "[ERROR] Could not get now time!"],
            Status.exit EXIT_FAILURE⟩
        else
          let ev := [Event.clock,
            Event.cout (toString jst.tv_sec ++ "." ++ toString jst.tv_nsec)]
          match (jst2utc jst).bind (gc2jd env.localtime_r) with
          | none => ⟨ev, Status.undefined⟩
          | some jd => main.report env astr_t astr_c jd ev

/-! ## Reference calendar

The definitions below are not taken from the program: they state, in the
words of the specification, what the program is compared with. -/

/-- A civil timestamp: the decomposed fields of a date and a time of day. -/
structure Civil where
  year : Nat
  month : Nat
  day : Nat
  hour : Nat
  min : Nat
  sec : Nat
  nsec : Nat
deriving DecidableEq, Repr

/-- The structure `tm` that holds a civil timestamp: months count from 0 and
years from 1900. -/
def Civil.tm (c : Civil) : Tm :=
  { tm_sec := c.sec, tm_min := c.min, tm_hour := c.hour, tm_mday := c.day,
    tm_mon := (c.month : Int) - 1, tm_year := (c.year : Int) - 1900 }

/-- Gregorian leap years: every fourth year, except the centuries not
divisible by 400. -/
def isLeapYear (y : Nat) : Bool :=
  (y % 4 == 0 && y % 100 != 0) || y % 400 == 0

/-- Number of days of the month `m` of the year `y`. -/
def daysInMonth (y m : Nat) : Nat :=
  if m = 2 then (if isLeapYear y then 29 else 28)
  else if m = 4 ∨ m = 6 ∨ m = 9 ∨ m = 11 then 30
  else 31

/-- Number of days of the year `y`. -/
def daysInYear (y : Nat) : Nat := if isLeapYear y then 366 else 365

/-- Number of days in the years `1, ..., y - 1`. -/
def daysBeforeYear : Nat → Nat
  | 0 => 0
  | y + 1 => if y = 0 then 0 else daysBeforeYear y + daysInYear y

/-- Number of days in the months `1, ..., m - 1` of the year `y`. -/
def daysBeforeMonth (y : Nat) : Nat → Nat
  | 0 => 0
  | m + 1 => if m = 0 then 0 else daysBeforeMonth y m + daysInMonth y m

/-- Julian Day Number of a Gregorian date, as a count of days: the day
0001-01-01 has the number 1721426 and every later day one more than the day
before it. -/
def julianDayNumber (y m d : Nat) : Nat :=
  1721425 + daysBeforeYear y + daysBeforeMonth y m + d

/-- Fraction of the day elapsed at a time of day. -/
def dayFraction {α : Type} [LinearOrderedField α] (c : Civil) : α :=
  (((c.hour : α) * 3600 + (c.min : α) * 60 + (c.sec : α)) + (c.nsec : α) / 1000000000) / 86400

/-- Julian Day of a civil timestamp: at 0h it is the Julian Day Number minus
one half, and it grows by the elapsed fraction of the day. -/
def julianDay {α : Type} [LinearOrderedField α] (c : Civil) : α :=
  (julianDayNumber c.year c.month c.day : α) - 1 / 2 + dayFraction c

/-- A valid Gregorian date: year 1 to 9999, month 1 to 12, day within the
length of the month. -/
def ValidDate (c : Civil) : Prop :=
  1 ≤ c.year ∧ c.year ≤ 9999 ∧ 1 ≤ c.month ∧ c.month ≤ 12 ∧
    1 ≤ c.day ∧ c.day ≤ daysInMonth c.year c.month

/-- A valid time of day: hour below 24, minute and second below 60,
nanoseconds below `10^9`. -/
def ValidTime (c : Civil) : Prop :=
  c.hour < 24 ∧ c.min < 60 ∧ c.sec < 60 ∧ c.nsec < 1000000000

instance (c : Civil) : Decidable (ValidDate c) := by
  unfold ValidDate; infer_instance

instance (c : Civil) : Decidable (ValidTime c) := by
  unfold ValidTime; infer_instance

/-- The same time of day on the next calendar day. -/
def nextDay (c : Civil) : Civil :=
  if c.day < daysInMonth c.year c.month then { c with day := c.day + 1 }
  else if c.month < 12 then { c with month := c.month + 1, day := 1 }
  else { c with year := c.year + 1, month := 1, day := 1 }

/-- The order of civil timestamps: lexicographic on year, month, day, hour,
minute, second, nanosecond. -/
def Civil.le (a b : Civil) : Prop :=
  a.year < b.year ∨ (a.year = b.year ∧ (a.month < b.month ∨ (a.month = b.month ∧
    (a.day < b.day ∨ (a.day = b.day ∧ (a.hour < b.hour ∨ (a.hour = b.hour ∧
      (a.min < b.min ∨ (a.min = b.min ∧ (a.sec < b.sec ∨ (a.sec = b.sec ∧
        a.nsec ≤ b.nsec)))))))))))

instance (a b : Civil) : Decidable (Civil.le a b) := by
  unfold Civil.le; infer_instance

/-- Truncation toward zero of a real number. -/
def trunc {α : Type} [LinearOrderedField α] [FloorRing α] (x : α) : Int :=
  if 0 ≤ x then ⌊x⌋ else ⌈x⌉

/-- The Julian Day formula of the specification on the decomposed fields:
January and February count as months 13 and 14 of the year before. -/
def jdFormula {α : Type} [LinearOrderedField α] [FloorRing α]
    (year month day hour min sec : Nat) (nsec : Int) : α :=
  let Y : Int := if month < 3 then (year : Int) - 1 else year
  let M : Int := if month < 3 then (month : Int) + 12 else month
  ((trunc ((365.25 : α) * (Y : α)) + trunc ((Y : α) / 400) - trunc ((Y : α) / 100)
      + trunc ((30.59 : α) * ((M : α) - 2)) : Int) : α)
    + (day : α) + 1721088.5
    + ((sec : α) / 3600 + (min : α) / 60 + (hour : α)) / 24
    + (nsec : α) / 1000000000 / 3600 / 24

/-- The day count of `gc2jd` on fields that are small enough for its integer
steps to stay in range. -/
def dayCount (year month day : Nat) : Nat :=
  let Y := if month < 3 then year - 1 else year
  let M := if month < 3 then month + 12 else month
  1461 * Y / 4 + Y / 400 - Y / 100 + 3059 * (M - 2) / 100 + day

/-- Nanoseconds elapsed since the start of the day. -/
def nanoOfDay (c : Civil) : Nat :=
  ((c.hour * 60 + c.min) * 60 + c.sec) * 1000000000 + c.nsec

/-! ## What a run of `main` achieves -/

/-- The three calls of `main` to the ephemeris in sequence: construction,
`read_bin` and `calc_pv`; `none` when one of them throws. -/
def Env.provider {α σ : Type} (env : Env α σ) (jd : α) (astr_t astr_c : Nat) : Option σ :=
  (env.jpl_new jd kFlgKm kFlgBary).bind fun o =>
    (env.read_bin o).bind fun o => env.calc_pv o astr_t astr_c

/-- The run prints the report block: a line on `std::cout` starts with
`DISTANCE [ `. -/
def Run.reportPrinted {α : Type} (r : Run α) : Prop :=
  ∃ x : String, Event.cout ("DISTANCE [ " ++ x) ∈ r.events

/-- The Julian Day that `main` works with: the third argument when there is
one, else the conversion of the clock reading. -/
def main.julian_day {α σ : Type} [LinearOrderedField α] [FloorRing α] (env : Env α σ)
    (argv : List String) : Option α :=
  if (argv.length : Int) > 3 then some (env.atof (argv.getD 3 ""))
  else (jst2utc env.timespec_get.2).bind (gc2jd env.localtime_r)

/-- All checks of a run of `main` pass: there are at least two arguments, both
ids are accepted, the clock read succeeds when there is no third argument,
and the ephemeris does not throw on the Julian Day of the run. -/
def main.succeeds {α σ : Type} [LinearOrderedField α] [FloorRing α] (env : Env α σ)
    (argv : List String) : Prop :=
  3 ≤ argv.length ∧
    (1 ≤ env.atoi (argv.getD 1 "") ∧ env.atoi (argv.getD 1 "") ≤ 15) ∧
    (0 ≤ env.atoi (argv.getD 2 "") ∧ env.atoi (argv.getD 2 "") ≤ 13) ∧
    (3 < argv.length ∨ env.timespec_get.1 = 1) ∧
    ∃ jd, main.julian_day env argv = some jd ∧
      env.provider jd (toUInt (env.atoi (argv.getD 1 ""))) (toUInt (env.atoi (argv.getD 2 "")))
        ≠ none

/-! ## A stand-in environment -/

/-- The number written by the leading decimal digits of `cs`, after the digits
already read as `acc`. -/
def readDigits : List Char → Nat → Nat
  | [], acc => acc
  | c :: cs, acc => if c.isDigit then readDigits cs (10 * acc + (c.toNat - 48)) else acc

/-- A stand-in for `atoi`: an optional minus sign and decimal digits. -/
def stubAtoi (s : String) : Int :=
  match s.data with
  | '-' :: cs => -((readDigits cs 0 : Nat) : Int)
  | cs => ((readDigits cs 0 : Nat) : Int)

/-- A stand-in environment: the clock reads 2000-01-01 12:00:00 UTC, which the
local time zone shows as 21:00:00, and the ephemeris answers every request
with the position `(3, 4, 0)`. -/
def stubEnv : Env ℚ Unit where
  atoi := stubAtoi
  atof := fun _ => 2451545
  timespec_get := (1, { tv_sec := 946728000, tv_nsec := 0 })
  localtime_r := fun _ => Civil.tm ⟨2000, 1, 1, 12, 0, 0, 0⟩
  sqrt := fun x => ((Nat.sqrt x.num.toNat : Nat) : ℚ) / ((Nat.sqrt x.den : Nat) : ℚ)
  jpl_new := fun _ _ _ => some ()
  read_bin := fun _ => some ()
  calc_pv := fun _ _ _ => some ()
  pos := fun _ => ![3, 4, 0]
  au := fun _ => 149597870.7

/-! ## The steps and the parts of `gc2jd` -/

/-- The year after the adjustment of January and February in `gc2jd`:
`if (month < 3) --year;` on `unsigned int`. -/
def gc2jd.adjust_year (year month : Nat) : Nat :=
  if month < 3 then toUInt ((year : Int) - 1) else year

/-- The month after the adjustment of January and February in `gc2jd`:
`if (month < 3) month += 12;` on `unsigned int`. -/
def gc2jd.adjust_month (month : Nat) : Nat :=
  if month < 3 then toUInt ((month : Int) + 12) else month

/-- The term `static_cast<int>(30.59 * (month - 2))` of `gc2jd`, with the
unsigned `month - 2`. -/
def gc2jd.month_term (α : Type) [LinearOrderedField α] [FloorRing α] (month : Nat) :
    Option Int :=
  castInt ((30.59 : α) * ((toUInt ((month : Int) - 2) : Nat) : α))

/-- The part that `gc2jd` adds for the time of day:
`(sec / 3600.0 + min / 60.0 + hour) / 24.0 + tv_nsec / 1000000000.0 / 3600.0 / 24.0`. -/
def timeOfDayPart {α : Type} [LinearOrderedField α] (c : Civil) : α :=
  ((c.sec : α) / 3600 + (c.min : α) / 60 + (c.hour : α)) / 24
    + (c.nsec : α) / 1000000000 / 3600 / 24

/-- The part of `gc2jd` for the date: the day count plus `1721088.5`. -/
def datePart {α : Type} [LinearOrderedField α] (c : Civil) : α :=
  ((dayCount c.year c.month c.day : Nat) : α) + 1721088.5

/-! ## A time zone with a fixed offset -/

/-- The proleptic Gregorian date of the day `n` days after 1970-01-01, for the
days from 0001-01-01 on: the date reached from 0001-01-01 by `n + 719162`
steps to the next day. -/
def civilOfDays (n : Int) : Civil :=
  Nat.iterate nextDay (n + 719162).toNat ⟨1, 1, 1, 0, 0, 0, 0⟩

/-- A model of `localtime_r` in a time zone with a fixed offset of `offset`
seconds east of UTC: the proleptic Gregorian date and the time of day of
`sec + offset` seconds after 1970-01-01 00:00:00. -/
def localtime_fixed (offset : Int) (sec : Int) : Tm :=
  let loc := sec + offset
  let c := civilOfDays (loc / 86400)
  let r := loc % 86400
  { tm_sec := r % 60, tm_min := r / 60 % 60, tm_hour := r / 3600, tm_mday := c.day,
    tm_mon := (c.month : Int) - 1, tm_year := (c.year : Int) - 1900 }

/-- A date of the calendar, without a bound on the year. -/
def CalendarDate (c : Civil) : Prop :=
  1 ≤ c.year ∧ 1 ≤ c.month ∧ c.month ≤ 12 ∧ 1 ≤ c.day ∧ c.day ≤ daysInMonth c.year c.month

/-! ## Time text -/

/-- Re-parsing of a time string: the numbers written by the seven digit groups
at the places of `YYYY-MM-DD HH:MM:SS.mmm`. -/
def parse_time_str (s : String) : List Nat :=
  [readDigits (s.data.take 4) 0, readDigits ((s.data.drop 5).take 2) 0,
    readDigits ((s.data.drop 8).take 2) 0, readDigits ((s.data.drop 11).take 2) 0,
    readDigits ((s.data.drop 14).take 2) 0, readDigits ((s.data.drop 17).take 2) 0,
    readDigits ((s.data.drop 20).take 3) 0]

/-- The decimal digits of `n` in a field of `w` places, highest place first. -/
def fieldDigits : Nat → Nat → List Char
  | 0, _ => []
  | w + 1, n => fieldDigits w (n / 10) ++ [Nat.digitChar (n % 10)]

/-- The civil fields that `localtime_r` returns for a year from 0 to 9999:
month 1 to 12, day 1 to 31, hour below 24, minute below 60, second at most 60
(leap second), with nanoseconds below `10^9`. -/
def CivilFields (c : Civil) : Prop :=
  c.year ≤ 9999 ∧ 1 ≤ c.month ∧ c.month ≤ 12 ∧ 1 ≤ c.day ∧ c.day ≤ 31 ∧
    c.hour < 24 ∧ c.min < 60 ∧ c.sec ≤ 60 ∧ c.nsec < 1000000000

instance (c : Civil) : Decidable (CivilFields c) := by
  unfold CivilFields; infer_instance

/-! ## Binary64 arithmetic

The `double` of the program is the binary64 format of IEEE 754. The
definitions of this section add the rounding that the exact model leaves out:
every operation on `double` returns the binary64 number nearest to its exact
result (ties to the even one), and each operation is rounded by itself (no
fused multiply-add). Binary64 numbers are kept as the rational numbers they
stand for; infinities and NaN are not modelled. -/

/-- Rounding of a rational number to the nearest integer, ties to the even
one. -/
def roundEven (q : ℚ) : Int :=
  if q - ⌊q⌋ < 1 / 2 then ⌊q⌋
  else if 1 / 2 < q - ⌊q⌋ then ⌊q⌋ + 1
  else if ⌊q⌋ % 2 = 0 then ⌊q⌋ else ⌊q⌋ + 1

/-- The exponent of the unit in the last place of the binary64 numbers of the
size of `q`: 52 below the binary exponent of `q`, and `-1074` for the
subnormal numbers. -/
def ulpExp (q : ℚ) : Int := max (Int.log 2 |q| - 52) (-1074)

/-- Rounding to binary64 (IEEE 754 double, round to nearest, ties to even):
the multiple of the unit in the last place that is nearest to `q`. Values
beyond the largest binary64 number (overflow to infinity) are not modelled. -/
def roundBinary64 (q : ℚ) : ℚ := (roundEven (q / 2 ^ ulpExp q) : ℚ) * 2 ^ ulpExp q

/-- The function `gc2jd` with every operation on `double` followed by the
rounding `rnd`: the products, quotients and sums, the constant `30.59` (the
other constants are binary64 numbers) and the conversion of the `long`
nanoseconds (an `unsigned int` converts to `double` without rounding). With
`rnd` the identity this is `gc2jd`. -/
def gc2jd_rounded {α : Type} [LinearOrderedField α] [FloorRing α] (rnd : α → α)
    (localtime_r : Int → Tm) (ts : Timespec) : Option α := do
  let t := localtime_r ts.tv_sec
  let year : Nat := toUInt (← toInt (t.tm_year + 1900))
  let month : Nat := toUInt (← toInt (t.tm_mon + 1))
  let day : Nat := toUInt t.tm_mday
  let hour : Nat := toUInt t.tm_hour
  let min : Nat := toUInt t.tm_min
  let sec : Nat := toUInt t.tm_sec
  -- January and February are months 13 and 14 of the previous year
  let year : Nat := if month < 3 then toUInt ((year : Int) - 1) else year
  let month : Nat := if month < 3 then toUInt ((month : Int) + 12) else month
  -- date (integer) part
  let a ← castInt (rnd ((365.25 : α) * (year : α)))
  let b ← castInt (rnd ((year : α) / 400.0))
  let c ← castInt (rnd ((year : α) / 100.0))
  let e ← castInt (rnd (rnd (30.59 : α) * ((toUInt ((month : Int) - 2) : Nat) : α)))
  let s1 ← toInt (a + b)
  let s2 ← toInt (s1 - c)
  let s3 ← toInt (s2 + e)
  let s4 : Nat := toUInt (s3 + (day : Int))
  let jd : α := rnd ((s4 : α) + 1721088.5)
  -- time (fraction) part
  let jd : α := rnd (jd
    + rnd (rnd (rnd (rnd ((sec : α) / 3600.0) + rnd ((min : α) / 60.0)) + (hour : α)) / 24.0))
  -- nanosecond part
  let jd : α := rnd (jd
    + rnd (rnd (rnd (rnd (ts.tv_nsec : α) / 1000000000.0) / 3600.0) / 24.0))
  some jd

/-- The function `gc2jd` in binary64 arithmetic. -/
def gc2jd_binary64 (localtime_r : Int → Tm) (ts : Timespec) : Option ℚ :=
  gc2jd_rounded roundBinary64 localtime_r ts

/-- A binary64 number, kept as the rational number it stands for. -/
structure Binary64 where
  /-- The value of the number. -/
  val : ℚ
deriving DecidableEq

instance : Zero Binary64 := ⟨⟨0⟩⟩

/-- Binary64 addition: the exact sum, rounded. -/
instance : Add Binary64 := ⟨fun a b => ⟨roundBinary64 (a.val + b.val)⟩⟩

/-- Binary64 multiplication: the exact product, rounded. -/
instance : Mul Binary64 := ⟨fun a b => ⟨roundBinary64 (a.val * b.val)⟩⟩

/-- The binary64 number nearest to a rational number: the value of a literal
such as `0.1`. -/
def Binary64.ofRat (q : ℚ) : Binary64 := ⟨roundBinary64 q⟩

/-- The correctly rounded binary64 square root of a binary64 number `x`, the
result that IEEE 754 requires of `std::sqrt`. With `k` the exponent of the
unit in the last place of the root and `t = x / 4 ^ k`, the root is `2 ^ k`
times the integer nearest to the square root of `t`; that integer is
`(⌊√(4 t)⌋ + 1) / 2` rounded down, and no tie occurs, since the square root of
a binary64 number is never half way between two binary64 numbers. Negative
arguments (NaN in the program) and subnormal results are not modelled. -/
def sqrtBinary64 (x : ℚ) : ℚ :=
  if x ≤ 0 then 0
  else
    let k : Int := Int.log 2 x / 2 - 52
    (((Nat.sqrt ⌊4 * x / 2 ^ (2 * k)⌋₊ + 1) / 2 : Nat) : ℚ) * 2 ^ k

/-- The function `std::sqrt` on binary64 numbers. With it, `calc_dist
Binary64.sqrt` is `calc_dist` in binary64 arithmetic. -/
def Binary64.sqrt (a : Binary64) : Binary64 := ⟨sqrtBinary64 a.val⟩

/-! ## Machine integers: basic facts -/

theorem toInt_of_mem {z : Int} (h1 : -2147483648 ≤ z) (h2 : z ≤ 2147483647) :
    toInt z = some z := by
  simp [toInt, INT_MIN, INT_MAX, h1, h2]

theorem toUInt_natCast {n : Nat} (h : n < 4294967296) : toUInt (n : Int) = n := by
  unfold toUInt
  omega

theorem toUInt_of_nonneg {z : Int} (h0 : 0 ≤ z) (h : z < 4294967296) :
    toUInt z = z.toNat := by
  unfold toUInt
  omega

/-- Floor of a quotient of naturals in an ordered field. -/
theorem floor_natCast_div {α : Type} [LinearOrderedField α] [FloorRing α] (m n : Nat) :
    ⌊(m : α) / (n : α)⌋ = ((m / n : Nat) : Int) := by
  have h0 : (0 : α) ≤ (m : α) / (n : α) := by positivity
  rw [← Int.natCast_floor_eq_floor h0, Nat.floor_div_eq_div]

theorem castInt_natCast_div {α : Type} [LinearOrderedField α] [FloorRing α] (m n : Nat) :
    castInt ((m : α) / (n : α)) = toInt ((m / n : Nat) : Int) := by
  have h0 : (0 : α) ≤ (m : α) / (n : α) := by positivity
  simp only [castInt, h0, if_true, floor_natCast_div]

theorem castInt_year_days {α : Type} [LinearOrderedField α] [FloorRing α] (y : Nat) :
    castInt ((365.25 : α) * (y : α)) = toInt ((1461 * y / 4 : Nat) : Int) := by
  rw [← @castInt_natCast_div α _ _ (1461 * y) 4]
  congr 1
  push_cast
  norm_num
  ring

theorem castInt_div_400 {α : Type} [LinearOrderedField α] [FloorRing α] (y : Nat) :
    castInt ((y : α) / 400.0) = toInt ((y / 400 : Nat) : Int) := by
  rw [← @castInt_natCast_div α _ _ y 400]
  congr 1
  norm_num

theorem castInt_div_100 {α : Type} [LinearOrderedField α] [FloorRing α] (y : Nat) :
    castInt ((y : α) / 100.0) = toInt ((y / 100 : Nat) : Int) := by
  rw [← @castInt_natCast_div α _ _ y 100]
  congr 1
  norm_num

theorem castInt_month_days {α : Type} [LinearOrderedField α] [FloorRing α] (k : Nat) :
    castInt ((30.59 : α) * (k : α)) = toInt ((3059 * k / 100 : Nat) : Int) := by
  rw [← @castInt_natCast_div α _ _ (3059 * k) 100]
  congr 1
  push_cast
  norm_num
  ring

/-- The result of `gc2jd` when no integer step leaves the range of its type. -/
theorem gc2jd_of_bounds {α : Type} [LinearOrderedField α] [FloorRing α]
    (lt : Int → Tm) (ts : Timespec) (year month day : Nat)
    (hy : (lt ts.tv_sec).tm_year = (year : Int) - 1900)
    (hm : (lt ts.tv_sec).tm_mon = (month : Int) - 1)
    (hd : (lt ts.tv_sec).tm_mday = (day : Int))
    (h1 : 3 ≤ month ∨ 1 ≤ year) (h2 : year ≤ 5800000) (h3 : month ≤ 900000)
    (h4 : day < 2147483648) :
    gc2jd lt ts = some (((dayCount year month day : Nat) : α) + 1721088.5
      + ((toUInt (lt ts.tv_sec).tm_sec : α) / 3600 + (toUInt (lt ts.tv_sec).tm_min : α) / 60
          + (toUInt (lt ts.tv_sec).tm_hour : α)) / 24
      + (ts.tv_nsec : α) / 1000000000 / 3600 / 24) := by
  unfold gc2jd
  simp only [hy, hm, hd]
  have e1 : (year : Int) - 1900 + 1900 = year := by ring
  have e2 : (month : Int) - 1 + 1 = month := by ring
  rw [e1, e2, toInt_of_mem (by omega) (by omega), toInt_of_mem (by omega) (by omega)]
  simp only [Option.bind_eq_bind, Option.some_bind, Option.pure_def]
  rw [toUInt_natCast (by omega : year < 4294967296), toUInt_natCast (by omega : month < 4294967296),
    toUInt_natCast (by omega : day < 4294967296)]
  by_cases hlt : month < 3
  · simp only [hlt, if_true]
    have hy1 : 1 ≤ year := by omega
    rw [toUInt_of_nonneg (by omega : (0:Int) ≤ (year : Int) - 1) (by omega),
      toUInt_of_nonneg (by omega : (0:Int) ≤ (month : Int) + 12) (by omega)]
    have e3 : ((year : Int) - 1).toNat = year - 1 := by omega
    have e4 : ((month : Int) + 12).toNat = month + 12 := by omega
    rw [e3, e4]
    have e5 : (((month + 12 : Nat) : Int) - 2) = ((month + 10 : Nat) : Int) := by omega
    rw [e5, toUInt_natCast (by omega : month + 10 < 4294967296)]
    rw [castInt_year_days, castInt_div_400, castInt_div_100, castInt_month_days]
    rw [toInt_of_mem (by omega) (by omega), toInt_of_mem (by omega) (by omega),
      toInt_of_mem (by omega) (by omega), toInt_of_mem (by omega) (by omega)]
    simp only [Option.some_bind]
    rw [toInt_of_mem (by omega) (by omega)]
    simp only [Option.some_bind]
    rw [toInt_of_mem (by omega) (by omega)]
    simp only [Option.some_bind]
    rw [toInt_of_mem (by omega) (by omega)]
    simp only [Option.some_bind]
    rw [toUInt_of_nonneg (by omega) (by omega)]
    have e6 : ((((1461 * (year - 1) / 4 : Nat) : Int) + (((year - 1) / 400 : Nat) : Int)
        - (((year - 1) / 100 : Nat) : Int) + ((3059 * (month + 10) / 100 : Nat) : Int)
        + (day : Int)).toNat) = dayCount year month day := by
      simp only [dayCount, hlt, if_true]
      have h100 : (year - 1) / 100 ≤ 1461 * (year - 1) / 4 := by omega
      omega
    rw [e6]
    congr 1
    norm_num
  · simp only [hlt, if_false]
    have e5 : ((month : Int) - 2) = ((month - 2 : Nat) : Int) := by omega
    rw [e5, toUInt_natCast (by omega : month - 2 < 4294967296)]
    rw [castInt_year_days, castInt_div_400, castInt_div_100, castInt_month_days]
    rw [toInt_of_mem (by omega) (by omega), toInt_of_mem (by omega) (by omega),
      toInt_of_mem (by omega) (by omega), toInt_of_mem (by omega) (by omega)]
    simp only [Option.some_bind]
    rw [toInt_of_mem (by omega) (by omega)]
    simp only [Option.some_bind]
    rw [toInt_of_mem (by omega) (by omega)]
    simp only [Option.some_bind]
    rw [toInt_of_mem (by omega) (by omega)]
    simp only [Option.some_bind]
    rw [toUInt_of_nonneg (by omega) (by omega)]
    have e6 : ((((1461 * year / 4 : Nat) : Int) + ((year / 400 : Nat) : Int)
        - ((year / 100 : Nat) : Int) + ((3059 * (month - 2) / 100 : Nat) : Int)
        + (day : Int)).toNat) = dayCount year month day := by
      simp only [dayCount, hlt, if_false]
      have h100 : year / 100 ≤ 1461 * year / 4 := by omega
      omega
    rw [e6]
    congr 1
    norm_num

/-! ## The reference calendar and the day count of the program -/

theorem daysBeforeYear_succ (y : Nat) :
    daysBeforeYear (y + 1) = 365 * y + y / 4 - y / 100 + y / 400 := by
  induction y with
  | zero => simp [daysBeforeYear]
  | succ n ih =>
    rw [daysBeforeYear, if_neg (by omega), ih]
    simp only [daysInYear, isLeapYear, Bool.or_eq_true, Bool.and_eq_true, beq_iff_eq,
      bne_iff_ne, ne_eq]
    have h100 : n / 100 ≤ n / 4 := by omega
    split_ifs with h <;> omega

theorem isLeapYear_iff (y : Nat) :
    isLeapYear y = true ↔ (y % 4 = 0 ∧ y % 100 ≠ 0) ∨ y % 400 = 0 := by
  simp [isLeapYear]

theorem leap_count (n : Nat) :
    (n + 1) / 4 + (n + 1) / 400 + n / 100
      = n / 4 + n / 400 + (n + 1) / 100 + (if isLeapYear (n + 1) = true then 1 else 0) := by
  by_cases hl : isLeapYear (n + 1) = true
  · have hl2 := (isLeapYear_iff (n + 1)).1 hl
    simp only [hl, if_true]
    omega
  · have hl2 := (not_congr (isLeapYear_iff (n + 1))).1 hl
    rw [if_neg hl]
    omega

theorem julianDayNumber_eq_dayCount (y m d : Nat) (hy : 1 ≤ y) (h1 : 1 ≤ m) (h12 : m ≤ 12) :
    julianDayNumber y m d = dayCount y m d + 1721089 := by
  obtain ⟨n, rfl⟩ : ∃ n, y = n + 1 := ⟨y - 1, by omega⟩
  unfold julianDayNumber
  rw [daysBeforeYear_succ]
  have h100 : n / 100 ≤ n / 4 := by omega
  have h100b : (n + 1) / 100 ≤ (n + 1) / 4 := by omega
  have e1 : 1461 * n / 4 = 365 * n + n / 4 := by omega
  have e2 : 1461 * (n + 1) / 4 = 365 * n + 365 + (n + 1) / 4 := by omega
  have hc := leap_count n
  by_cases hl : isLeapYear (n + 1) = true
  · simp only [hl, if_true] at hc
    interval_cases m <;> simp [daysBeforeMonth, daysInMonth, dayCount, hl, e1, e2] <;> omega
  · rw [if_neg hl] at hc
    interval_cases m <;> simp [daysBeforeMonth, daysInMonth, dayCount, hl, e1, e2] <;> omega

/-- `gc2jd` on the fields of a civil timestamp with a valid date and time. -/
theorem gc2jd_civil {α : Type} [LinearOrderedField α] [FloorRing α]
    (lt : Int → Tm) (ts : Timespec) (c : Civil)
    (hy : 1 ≤ c.year) (hy2 : c.year ≤ 5800000) (hm1 : 1 ≤ c.month) (hm : c.month ≤ 12)
    (hd : c.day ≤ 31) (ht : ValidTime c)
    (hlt : lt ts.tv_sec = c.tm) (hns : ts.tv_nsec = (c.nsec : Int)) :
    gc2jd lt ts = some (julianDay c : α) := by
  obtain ⟨hh, hmi, hs, hn⟩ := ht
  have h := @gc2jd_of_bounds α _ _ lt ts c.year c.month c.day
    (by rw [hlt]; rfl) (by rw [hlt]; rfl) (by rw [hlt]; rfl) (Or.inr hy) hy2 (by omega) (by omega)
  rw [h, hlt, hns]
  simp only [Civil.tm]
  rw [toUInt_natCast (by omega), toUInt_natCast (by omega), toUInt_natCast (by omega)]
  congr 1
  simp only [julianDay, dayFraction, julianDayNumber_eq_dayCount c.year c.month c.day hy hm1 hm]
  push_cast
  ring

theorem daysInMonth_le (y m : Nat) : daysInMonth y m ≤ 31 := by
  unfold daysInMonth
  split_ifs <;> omega

theorem daysInMonth_pos (y m : Nat) : 28 ≤ daysInMonth y m := by
  unfold daysInMonth
  split_ifs <;> omega

theorem daysBeforeMonth_succ (y m : Nat) (hm : 1 ≤ m) :
    daysBeforeMonth y (m + 1) = daysBeforeMonth y m + daysInMonth y m := by
  rw [daysBeforeMonth, if_neg (by omega)]

theorem daysBeforeYear_succ_eq (y : Nat) (hy : 1 ≤ y) :
    daysBeforeYear (y + 1) = daysBeforeYear y + daysInYear y := by
  rw [daysBeforeYear, if_neg (by omega)]

theorem daysBeforeMonth_december (y : Nat) : daysBeforeMonth y 12 + 31 = daysInYear y := by
  by_cases hl : isLeapYear y = true <;> simp [daysBeforeMonth, daysInMonth, daysInYear, hl]

/-- The day after a valid date has the next Julian Day Number. -/
theorem julianDayNumber_nextDay (c : Civil) (hy : 1 ≤ c.year) (hm1 : 1 ≤ c.month)
    (hm : c.month ≤ 12) (hd : c.day ≤ daysInMonth c.year c.month) :
    julianDayNumber (nextDay c).year (nextDay c).month (nextDay c).day
      = julianDayNumber c.year c.month c.day + 1 := by
  unfold nextDay
  by_cases h1 : c.day < daysInMonth c.year c.month
  · simp only [h1, if_true, julianDayNumber]
    omega
  · have hde : c.day = daysInMonth c.year c.month := by omega
    by_cases h2 : c.month < 12
    · simp only [h1, h2, if_true, if_false, julianDayNumber]
      rw [daysBeforeMonth_succ _ _ hm1, hde]
      omega
    · have hme : c.month = 12 := by omega
      simp only [h1, h2, if_false, julianDayNumber]
      rw [daysBeforeYear_succ_eq _ hy, ← daysBeforeMonth_december, hme]
      have h31 : daysInMonth c.year 12 = 31 := by simp [daysInMonth]
      rw [hme, h31] at hde
      simp [daysBeforeMonth, hde]
      omega

theorem nextDay_time (c : Civil) :
    (nextDay c).hour = c.hour ∧ (nextDay c).min = c.min ∧ (nextDay c).sec = c.sec
      ∧ (nextDay c).nsec = c.nsec := by
  unfold nextDay
  split_ifs <;> simp

theorem nextDay_bounds (c : Civil) (hy : 1 ≤ c.year) (hm1 : 1 ≤ c.month) (hm : c.month ≤ 12) :
    1 ≤ (nextDay c).year ∧ (nextDay c).year ≤ c.year + 1 ∧ 1 ≤ (nextDay c).month
      ∧ (nextDay c).month ≤ 12 ∧ (nextDay c).day ≤ 31 := by
  have := daysInMonth_le c.year c.month
  unfold nextDay
  split_ifs <;> simp <;> omega

theorem julianDay_nextDay {α : Type} [LinearOrderedField α] (c : Civil) (hy : 1 ≤ c.year)
    (hm1 : 1 ≤ c.month) (hm : c.month ≤ 12) (hd : c.day ≤ daysInMonth c.year c.month) :
    (julianDay (nextDay c) : α) = julianDay c + 1 := by
  obtain ⟨e1, e2, e3, e4⟩ := nextDay_time c
  simp only [julianDay, dayFraction, julianDayNumber_nextDay c hy hm1 hm hd, e1, e2, e3, e4]
  push_cast
  ring

theorem daysBeforeMonth_mono (y : Nat) {m n : Nat} (h : m ≤ n) :
    daysBeforeMonth y m ≤ daysBeforeMonth y n := by
  induction n, h using Nat.le_induction with
  | base => exact le_refl _
  | succ k _ ih =>
    by_cases hk : k = 0
    · subst hk
      have hm0 : m = 0 := by omega
      subst hm0
      simp [daysBeforeMonth]
    · rw [daysBeforeMonth_succ y k (by omega)]
      omega

theorem daysBeforeYear_mono {y z : Nat} (h : y ≤ z) : daysBeforeYear y ≤ daysBeforeYear z := by
  induction z, h using Nat.le_induction with
  | base => exact le_refl _
  | succ k _ ih =>
    by_cases hk : k = 0
    · subst hk
      have hy0 : y = 0 := by omega
      subst hy0
      simp [daysBeforeYear]
    · rw [daysBeforeYear_succ_eq k (by omega)]
      omega

theorem daysBeforeMonth_thirteen (y : Nat) : daysBeforeMonth y 13 = daysInYear y := by
  rw [daysBeforeMonth_succ y 12 (by omega), ← daysBeforeMonth_december]
  simp [daysInMonth]

/-- The Julian Day Number grows strictly along the lexicographic order of
valid dates. -/
theorem julianDayNumber_lt (y m d z n e : Nat) (hy : 1 ≤ y) (hm1 : 1 ≤ m) (hm : m ≤ 12)
    (hd : d ≤ daysInMonth y m) (hn : n ≤ 12) (he : 1 ≤ e)
    (h : y < z ∨ (y = z ∧ (m < n ∨ (m = n ∧ d < e)))) :
    julianDayNumber y m d < julianDayNumber z n e := by
  unfold julianDayNumber
  have hstep := daysBeforeMonth_succ y m hm1
  rcases h with h | ⟨rfl, h | ⟨rfl, h⟩⟩
  · have h1 := daysBeforeMonth_mono y (by omega : m + 1 ≤ 13)
    rw [daysBeforeMonth_thirteen] at h1
    have h2 := @daysBeforeYear_mono (y + 1) z (by omega)
    rw [daysBeforeYear_succ_eq y hy] at h2
    omega
  · have h1 := daysBeforeMonth_mono y (by omega : m + 1 ≤ n)
    omega
  · omega

theorem julianDay_eq_nano {α : Type} [LinearOrderedField α] (c : Civil) :
    (julianDay c : α)
      = ((julianDayNumber c.year c.month c.day * 86400000000000 + nanoOfDay c : Nat) : α)
          / 86400000000000 - 1 / 2 := by
  simp only [julianDay, dayFraction, nanoOfDay]
  push_cast
  ring

/-- The reference Julian Day is monotone along the lexicographic order of
valid civil timestamps. -/
theorem julianDay_mono {α : Type} [LinearOrderedField α] (a b : Civil)
    (ha : ValidDate a) (hta : ValidTime a) (hb : ValidDate b) (htb : ValidTime b)
    (h : Civil.le a b) : (julianDay a : α) ≤ julianDay b := by
  rw [julianDay_eq_nano, julianDay_eq_nano]
  have hN : julianDayNumber a.year a.month a.day * 86400000000000 + nanoOfDay a
      ≤ julianDayNumber b.year b.month b.day * 86400000000000 + nanoOfDay b := by
    obtain ⟨ha1, ha2, ha3, ha4, ha5, ha6⟩ := ha
    obtain ⟨hb1, hb2, hb3, hb4, hb5, hb6⟩ := hb
    obtain ⟨hta1, hta2, hta3, hta4⟩ := hta
    obtain ⟨htb1, htb2, htb3, htb4⟩ := htb
    unfold Civil.le at h
    by_cases hdate : a.year < b.year ∨ (a.year = b.year ∧ (a.month < b.month ∨
        (a.month = b.month ∧ a.day < b.day)))
    · have hlt := julianDayNumber_lt a.year a.month a.day b.year b.month b.day ha1 ha3 ha4 ha6
        hb4 hb5 hdate
      unfold nanoOfDay
      omega
    · have hy : a.year = b.year := by omega
      have hm : a.month = b.month := by omega
      have hd : a.day = b.day := by omega
      rw [hy, hm, hd]
      unfold nanoOfDay
      omega
  have hN2 : ((julianDayNumber a.year a.month a.day * 86400000000000 + nanoOfDay a : Nat) : α)
      ≤ ((julianDayNumber b.year b.month b.day * 86400000000000 + nanoOfDay b : Nat) : α) :=
    Nat.cast_le.mpr hN
  have hpos : (0 : α) < 86400000000000 := by norm_num
  have := div_le_div_of_nonneg_right hN2 hpos.le
  linarith

/-! ## Julian Day: the claims on `gc2jd` and `jst2utc` -/

/-- C1, as amended: in exact arithmetic (the operations on `double` without
rounding), for every valid Gregorian date (year 1 to 9999) and time of day,
`gc2jd` on the fields of that civil timestamp returns the astronomical Julian
Day: the Julian Day Number of the date, counted in days from 0001-01-01 =
1721426, minus one half, plus the elapsed fraction of the day. -/
theorem gc2jd_eq_julianDay {α : Type} [LinearOrderedField α] [FloorRing α]
    (lt : Int → Tm) (ts : Timespec) (c : Civil) (hd : ValidDate c) (ht : ValidTime c)
    (hlt : lt ts.tv_sec = c.tm) (hns : ts.tv_nsec = (c.nsec : Int)) :
    gc2jd lt ts = some (julianDay c : α) := by
  obtain ⟨h1, h2, h3, h4, _, h6⟩ := hd
  have h31 := daysInMonth_le c.year c.month
  exact gc2jd_civil lt ts c h1 (by omega) h3 h4 (by omega) ht hlt hns

theorem gc2jd_eq_julianDay_witness :
    ValidDate ⟨2000, 1, 1, 12, 0, 0, 0⟩ ∧ ValidTime ⟨2000, 1, 1, 12, 0, 0, 0⟩ ∧
      (gc2jd (fun _ => Civil.tm ⟨2000, 1, 1, 12, 0, 0, 0⟩) ⟨946728000, 0⟩ : Option ℚ)
        = some 2451545 :=
  ⟨by decide, by decide,
    (gc2jd_eq_julianDay (fun _ => Civil.tm ⟨2000, 1, 1, 12, 0, 0, 0⟩) ⟨946728000, 0⟩
      ⟨2000, 1, 1, 12, 0, 0, 0⟩ (by decide) (by decide) rfl rfl).trans
      (by
        rw [julianDay, julianDayNumber_eq_dayCount 2000 1 1 (by decide) (by decide) (by decide)]
        norm_num [dayFraction, dayCount])⟩

/-- C2: for every valid Gregorian date and time of day, `gc2jd` on the fields of
the next calendar day at the same time of day is `gc2jd` on the original
fields plus exactly 1, whatever month end, February end or year end lies
between the two days. -/
theorem gc2jd_nextDay {α : Type} [LinearOrderedField α] [FloorRing α]
    (lt : Int → Tm) (ts ts' : Timespec) (c : Civil) (hd : ValidDate c) (ht : ValidTime c)
    (hlt : lt ts.tv_sec = c.tm) (hlt' : lt ts'.tv_sec = (nextDay c).tm)
    (hns : ts.tv_nsec = (c.nsec : Int)) (hns' : ts'.tv_nsec = (c.nsec : Int)) :
    ∃ x : α, gc2jd lt ts = some x ∧ gc2jd lt ts' = some (x + 1) := by
  obtain ⟨h1, h2, h3, h4, h5, h6⟩ := hd
  have h31 := daysInMonth_le c.year c.month
  obtain ⟨e1, e2, e3, e4⟩ := nextDay_time c
  obtain ⟨b1, b2, b3, b4, b5⟩ := nextDay_bounds c h1 h3 h4
  refine ⟨julianDay c, gc2jd_civil lt ts c h1 (by omega) h3 h4 (by omega) ht hlt hns, ?_⟩
  rw [← julianDay_nextDay c h1 h3 h4 h6]
  refine gc2jd_civil lt ts' (nextDay c) b1 (by omega) b3 b4 b5 ?_ hlt' (by rw [hns', e4])
  unfold ValidTime
  rw [e1, e2, e3, e4]
  exact ht

theorem gc2jd_nextDay_witness :
    ValidDate ⟨1900, 2, 28, 23, 59, 59, 999999999⟩ ∧
      ValidTime ⟨1900, 2, 28, 23, 59, 59, 999999999⟩ ∧
      nextDay ⟨1900, 2, 28, 23, 59, 59, 999999999⟩ = ⟨1900, 3, 1, 23, 59, 59, 999999999⟩ ∧
      ∃ x : ℚ,
        gc2jd (fun s => if s = 0 then Civil.tm ⟨1900, 2, 28, 23, 59, 59, 999999999⟩
          else Civil.tm (nextDay ⟨1900, 2, 28, 23, 59, 59, 999999999⟩)) ⟨0, 999999999⟩ = some x ∧
        gc2jd (fun s => if s = 0 then Civil.tm ⟨1900, 2, 28, 23, 59, 59, 999999999⟩
          else Civil.tm (nextDay ⟨1900, 2, 28, 23, 59, 59, 999999999⟩)) ⟨1, 999999999⟩
            = some (x + 1) :=
  ⟨by decide, by decide, by decide,
    gc2jd_nextDay _ ⟨0, 999999999⟩ ⟨1, 999999999⟩ ⟨1900, 2, 28, 23, 59, 59, 999999999⟩
      (by decide) (by decide) rfl rfl rfl rfl⟩

/-- C3, as amended: in exact arithmetic (the operations on `double` without
rounding) `gc2jd` is monotonically non-decreasing: for two valid civil
timestamps `a` and `b` with `a` not later than `b` in the lexicographic order
of year, month, day, hour, minute, second and nanosecond, `gc2jd` returns on
both and its value on `a` is at most its value on `b`. -/
theorem gc2jd_mono {α : Type} [LinearOrderedField α] [FloorRing α]
    (lt : Int → Tm) (tsa tsb : Timespec) (a b : Civil)
    (hda : ValidDate a) (hta : ValidTime a) (hdb : ValidDate b) (htb : ValidTime b)
    (hlta : lt tsa.tv_sec = a.tm) (hltb : lt tsb.tv_sec = b.tm)
    (hnsa : tsa.tv_nsec = (a.nsec : Int)) (hnsb : tsb.tv_nsec = (b.nsec : Int))
    (h : Civil.le a b) :
    ∃ x y : α, gc2jd lt tsa = some x ∧ gc2jd lt tsb = some y ∧ x ≤ y := by
  have h31a := daysInMonth_le a.year a.month
  have h31b := daysInMonth_le b.year b.month
  refine ⟨julianDay a, julianDay b, ?_, ?_, julianDay_mono a b hda hta hdb htb h⟩
  · obtain ⟨h1, h2, h3, h4, _, h6⟩ := hda
    exact gc2jd_civil lt tsa a h1 (by omega) h3 h4 (by omega) hta hlta hnsa
  · obtain ⟨h1, h2, h3, h4, _, h6⟩ := hdb
    exact gc2jd_civil lt tsb b h1 (by omega) h3 h4 (by omega) htb hltb hnsb

theorem gc2jd_mono_witness :
    ValidDate ⟨1999, 12, 31, 23, 59, 59, 999999999⟩ ∧
      ValidTime ⟨1999, 12, 31, 23, 59, 59, 999999999⟩ ∧
      ValidDate ⟨2000, 1, 1, 0, 0, 0, 0⟩ ∧ ValidTime ⟨2000, 1, 1, 0, 0, 0, 0⟩ ∧
      Civil.le ⟨1999, 12, 31, 23, 59, 59, 999999999⟩ ⟨2000, 1, 1, 0, 0, 0, 0⟩ ∧
      ∃ x y : ℚ,
        gc2jd (fun s => if s = 0 then Civil.tm ⟨1999, 12, 31, 23, 59, 59, 999999999⟩
          else Civil.tm ⟨2000, 1, 1, 0, 0, 0, 0⟩) ⟨0, 999999999⟩ = some x ∧
        gc2jd (fun s => if s = 0 then Civil.tm ⟨1999, 12, 31, 23, 59, 59, 999999999⟩
          else Civil.tm ⟨2000, 1, 1, 0, 0, 0, 0⟩) ⟨1, 0⟩ = some y ∧ x ≤ y :=
  ⟨by decide, by decide, by decide, by decide, by decide,
    gc2jd_mono _ ⟨0, 999999999⟩ ⟨1, 0⟩ ⟨1999, 12, 31, 23, 59, 59, 999999999⟩
      ⟨2000, 1, 1, 0, 0, 0, 0⟩ (by decide) (by decide) (by decide) (by decide) rfl rfl rfl rfl
      (by decide)⟩

theorem trunc_natCast_div {α : Type} [LinearOrderedField α] [FloorRing α] (m n : Nat) :
    trunc ((m : α) / (n : α)) = ((m / n : Nat) : Int) := by
  have h0 : (0 : α) ≤ (m : α) / (n : α) := by positivity
  simp only [trunc, h0, if_true, floor_natCast_div]

/-- The formula of the specification and the day count of the program agree
when the adjusted year is not negative. -/
theorem jdFormula_eq {α : Type} [LinearOrderedField α] [FloorRing α]
    (year month day hour min sec : Nat) (nsec : Int) (h1 : 3 ≤ month ∨ 1 ≤ year) :
    (jdFormula year month day hour min sec nsec : α)
      = ((dayCount year month day : Nat) : α) + 1721088.5
        + ((sec : α) / 3600 + (min : α) / 60 + (hour : α)) / 24
        + (nsec : α) / 1000000000 / 3600 / 24 := by
  unfold jdFormula dayCount
  by_cases hlt : month < 3
  · have hy1 : 1 ≤ year := by omega
    simp only [hlt, if_true]
    have eY : ((year : Int) - 1) = ((year - 1 : Nat) : Int) := by omega
    have eM : (((month : Int) + 12 : Int) : α) - 2 = ((month + 10 : Nat) : α) := by
      push_cast; ring
    rw [eY, eM]
    simp only [Int.cast_natCast]
    have t1 : trunc ((365.25 : α) * ((year - 1 : Nat) : α)) = ((1461 * (year - 1) / 4 : Nat) : Int) := by
      rw [← @trunc_natCast_div α _ _ (1461 * (year - 1)) 4]
      congr 1; push_cast; norm_num; ring
    have t2 : trunc (((year - 1 : Nat) : α) / 400) = (((year - 1) / 400 : Nat) : Int) := by
      rw [← @trunc_natCast_div α _ _ (year - 1) 400]
      congr 1
    have t3 : trunc (((year - 1 : Nat) : α) / 100) = (((year - 1) / 100 : Nat) : Int) := by
      rw [← @trunc_natCast_div α _ _ (year - 1) 100]
      congr 1
    have t4 : trunc ((30.59 : α) * ((month + 10 : Nat) : α)) = ((3059 * (month + 10) / 100 : Nat) : Int) := by
      rw [← @trunc_natCast_div α _ _ (3059 * (month + 10)) 100]
      congr 1; push_cast; norm_num; ring
    rw [t1, t2, t3, t4]
    have h100 : (year - 1) / 100 ≤ 1461 * (year - 1) / 4 + (year - 1) / 400 := by omega
    have e : (((1461 * (year - 1) / 4 : Nat) : Int) + (((year - 1) / 400 : Nat) : Int)
        - (((year - 1) / 100 : Nat) : Int) + ((3059 * (month + 10) / 100 : Nat) : Int))
        = ((1461 * (year - 1) / 4 + (year - 1) / 400 - (year - 1) / 100
            + 3059 * (month + 12 - 2) / 100 : Nat) : Int) := by
      omega
    rw [e, Int.cast_natCast]
    generalize 1461 * (year - 1) / 4 + (year - 1) / 400 - (year - 1) / 100
      + 3059 * (month + 12 - 2) / 100 = D
    rw [Nat.cast_add]
  · simp only [hlt, if_false]
    have eM : (((month : Int) : Int) : α) - 2 = ((month - 2 : Nat) : α) := by
      rw [Nat.cast_sub (by omega)]
      push_cast; ring
    rw [eM]
    simp only [Int.cast_natCast]
    have t1 : trunc ((365.25 : α) * (year : α)) = ((1461 * year / 4 : Nat) : Int) := by
      rw [← @trunc_natCast_div α _ _ (1461 * year) 4]
      congr 1; push_cast; norm_num; ring
    have t2 : trunc ((year : α) / 400) = ((year / 400 : Nat) : Int) := by
      rw [← @trunc_natCast_div α _ _ year 400]
      congr 1
    have t3 : trunc ((year : α) / 100) = ((year / 100 : Nat) : Int) := by
      rw [← @trunc_natCast_div α _ _ year 100]
      congr 1
    have t4 : trunc ((30.59 : α) * ((month - 2 : Nat) : α)) = ((3059 * (month - 2) / 100 : Nat) : Int) := by
      rw [← @trunc_natCast_div α _ _ (3059 * (month - 2)) 100]
      congr 1; push_cast; norm_num; ring
    rw [t1, t2, t3, t4]
    have h100 : year / 100 ≤ 1461 * year / 4 + year / 400 := by omega
    have e : (((1461 * year / 4 : Nat) : Int) + ((year / 400 : Nat) : Int)
        - ((year / 100 : Nat) : Int) + ((3059 * (month - 2) / 100 : Nat) : Int))
        = ((1461 * year / 4 + year / 400 - year / 100
            + 3059 * (month - 2) / 100 : Nat) : Int) := by
      omega
    rw [e, Int.cast_natCast]
    generalize 1461 * year / 4 + year / 400 - year / 100 + 3059 * (month - 2) / 100 = D
    rw [Nat.cast_add]

/-- C4, as amended: on all decomposed fields whose integer steps stay in range
(year at most 5800000 and at least 1 when the month is below 3, month at most
900000, day below `2^31`; hour, minute and second any unsigned values,
nanoseconds any value), `gc2jd` returns the formula of the specification,
where January and February count as months 13 and 14 of the year before. -/
theorem gc2jd_eq_jdFormula {α : Type} [LinearOrderedField α] [FloorRing α]
    (lt : Int → Tm) (ts : Timespec) (year month day : Nat)
    (hy : (lt ts.tv_sec).tm_year = (year : Int) - 1900)
    (hm : (lt ts.tv_sec).tm_mon = (month : Int) - 1)
    (hd : (lt ts.tv_sec).tm_mday = (day : Int))
    (h1 : 3 ≤ month ∨ 1 ≤ year) (h2 : year ≤ 5800000) (h3 : month ≤ 900000)
    (h4 : day < 2147483648) :
    gc2jd lt ts = some (jdFormula year month day (toUInt (lt ts.tv_sec).tm_hour)
      (toUInt (lt ts.tv_sec).tm_min) (toUInt (lt ts.tv_sec).tm_sec) ts.tv_nsec : α) := by
  rw [gc2jd_of_bounds lt ts year month day hy hm hd h1 h2 h3 h4, jdFormula_eq _ _ _ _ _ _ _ h1]

theorem gc2jd_eq_jdFormula_witness :
    (gc2jd (fun _ => ⟨59, 59, 23, 29, 1, 100⟩) ⟨0, 999999999⟩ : Option ℚ)
      = some (jdFormula 2000 2 29 (toUInt 23) (toUInt 59) (toUInt 59) 999999999) :=
  gc2jd_eq_jdFormula (fun _ => ⟨59, 59, 23, 29, 1, 100⟩) ⟨0, 999999999⟩ 2000 2 29 rfl rfl rfl
    (by decide) (by decide) (by decide) (by decide)

/-- C4 fails as stated: in January of the year 0 the unsigned `--year` wraps
to `4294967295`, `365.25 * year` leaves the range of `int`, and `gc2jd` does
not return the value of the formula at year 0, month 1. -/
theorem gc2jd_ne_jdFormula_year_zero :
    (gc2jd (fun _ => ⟨0, 0, 0, 1, 0, -1900⟩) ⟨-62167219200, 0⟩ : Option ℚ)
      ≠ some (jdFormula 0 1 1 0 0 0 0) := by
  have h : (gc2jd (fun _ => ⟨0, 0, 0, 1, 0, -1900⟩) ⟨-62167219200, 0⟩ : Option ℚ) = none := by
    simp [gc2jd, toInt, toUInt, INT_MIN, INT_MAX, castInt_year_days]
  rw [h]
  exact fun h => Option.noConfusion h

/-- C5, as amended: for every timestamp whose seconds are at least
`LONG_MIN + 32400`, `jst2utc` subtracts 32400 from the seconds and keeps the
nanoseconds; the `unsigned int` constant causes no wrap-around, also below
32400 seconds. -/
theorem jst2utc_eq (t : Timespec) (h1 : LONG_MIN + 32400 ≤ t.tv_sec) (h2 : t.tv_sec ≤ LONG_MAX) :
    jst2utc t = some { tv_sec := t.tv_sec - 32400, tv_nsec := t.tv_nsec } := by
  unfold LONG_MIN at h1
  unfold LONG_MAX at h2
  simp only [jst2utc, kJstOffset, toLong, LONG_MIN, LONG_MAX, Nat.cast_ofNat,
    Option.bind_eq_bind]
  rw [if_pos ⟨by omega, by omega⟩]
  rfl

theorem jst2utc_eq_witness :
    jst2utc { tv_sec := 100, tv_nsec := 7 } = some { tv_sec := -32300, tv_nsec := 7 } :=
  jst2utc_eq { tv_sec := 100, tv_nsec := 7 } (by decide) (by decide)

/-- C5 fails as stated: at the smallest `long` the subtraction leaves the range
of `long` and `jst2utc` does not return the seconds minus 32400. -/
theorem jst2utc_long_min :
    jst2utc { tv_sec := -9223372036854775808, tv_nsec := 0 }
      ≠ some { tv_sec := -9223372036854775808 - 32400, tv_nsec := 0 } := by
  decide

/-! ## Distance: the claims on `calc_dist` -/

/-- The loop of `calc_dist` adds the three squares to its accumulator. -/
theorem calc_dist_loop_zero {α : Type} [Add α] [Mul α] (ps : Fin 3 → α) (d : α) :
    calc_dist.loop ps 0 d = d + ps 0 * ps 0 + ps 1 * ps 1 + ps 2 * ps 2 := by
  rw [calc_dist.loop, dif_pos (by decide), calc_dist.loop, dif_pos (by decide),
    calc_dist.loop, dif_pos (by decide), calc_dist.loop, dif_neg (by decide)]
  rfl

theorem calc_dist_eq_sum (sqrt : ℝ → ℝ) (ps : Fin 3 → ℝ) :
    calc_dist sqrt ps = sqrt (∑ i, ps i * ps i) := by
  rw [calc_dist, calc_dist_loop_zero, Fin.sum_univ_three, zero_add]

/-- C6: for every real vector `(x, y, z)`, `calc_dist` returns
`sqrt (x * x + y * y + z * z)`; it returns 0 on `(0, 0, 0)` and 5 on
`(3, 4, 0)`. -/
theorem calc_dist_eq_norm :
    (∀ ps : Fin 3 → ℝ,
        calc_dist Real.sqrt ps = Real.sqrt (ps 0 * ps 0 + ps 1 * ps 1 + ps 2 * ps 2)) ∧
      calc_dist Real.sqrt ![0, 0, 0] = 0 ∧ calc_dist Real.sqrt ![3, 4, 0] = 5 := by
  refine ⟨fun ps => ?_, ?_, ?_⟩
  · rw [calc_dist, calc_dist_loop_zero, zero_add]
  · rw [calc_dist, calc_dist_loop_zero]
    simp
  · rw [calc_dist, calc_dist_loop_zero]
    have h : (0 : ℝ) + ![3, 4, 0] 0 * ![3, 4, 0] 0 + ![3, 4, 0] 1 * ![3, 4, 0] 1
        + ![3, 4, 0] 2 * ![3, 4, 0] 2 = 5 * 5 := by
      simp [Matrix.cons_val_two]
      norm_num
    rw [h]
    exact Real.sqrt_mul_self (by norm_num)

/-- C7, as amended: in exact arithmetic (over the real numbers, with the real
square root) `calc_dist` does not change when the three components are
permuted and any of them negated. -/
theorem calc_dist_perm_neg (v : Fin 3 → ℝ) (p : Equiv.Perm (Fin 3)) (s : Fin 3 → ℝ)
    (hs : ∀ i, s i = 1 ∨ s i = -1) :
    calc_dist Real.sqrt (fun i => s i * v (p i)) = calc_dist Real.sqrt v := by
  rw [calc_dist_eq_sum, calc_dist_eq_sum]
  congr 1
  have h1 : ∀ i, s i * v (p i) * (s i * v (p i)) = v (p i) * v (p i) := by
    intro i
    rcases hs i with h | h <;> rw [h] <;> ring
  simp only [h1]
  exact Equiv.sum_comp p (fun i => v i * v i)

theorem calc_dist_perm_neg_witness :
    calc_dist Real.sqrt (fun i => ![-1, 1, -1] i * ![3, 4, 0] (Equiv.swap 0 2 i))
      = calc_dist Real.sqrt ![3, 4, 0] :=
  calc_dist_perm_neg ![3, 4, 0] (Equiv.swap 0 2) ![-1, 1, -1] (by
    intro i
    fin_cases i <;> simp)

/-! ## The program: the claims on `main` -/

theorem toUInt_target_iff (n : Int) (h1 : INT_MIN ≤ n) (h2 : n ≤ INT_MAX) :
    (toUInt n < 1 ∨ toUInt n > 15) ↔ ¬ (1 ≤ n ∧ n ≤ 15) := by
  unfold INT_MIN at h1
  unfold INT_MAX at h2
  unfold toUInt
  omega

theorem toUInt_center_iff (n : Int) (h1 : INT_MIN ≤ n) (h2 : n ≤ INT_MAX) :
    (toUInt n < 0 ∨ toUInt n > 13) ↔ ¬ (0 ≤ n ∧ n ≤ 13) := by
  unfold INT_MIN at h1
  unfold INT_MAX at h2
  unfold toUInt
  omega

/-- The events of the report part of `main` are the events before it, then the
Julian Day, then the rest. -/
theorem main_report_events {α σ : Type} [LinearOrderedField α] [FloorRing α] (env : Env α σ)
    (astr_t astr_c : Nat) (jd : α) (pre : List (Event α)) :
    ∃ rest, (main.report env astr_t astr_c jd pre).events = pre ++ Event.julian jd :: rest := by
  unfold main.report
  split
  · exact ⟨_, by simp only [List.append_assoc, List.cons_append, List.nil_append]; rfl⟩
  · split
    · exact ⟨_, by simp only [List.append_assoc, List.cons_append, List.nil_append]; rfl⟩
    · split
      · exact ⟨_, by simp only [List.append_assoc, List.cons_append, List.nil_append]; rfl⟩
      · split
        · exact ⟨_, by simp only [List.append_assoc, List.cons_append, List.nil_append]; rfl⟩
        · exact ⟨_, by simp only [List.append_assoc, List.cons_append, List.nil_append]; rfl⟩

/-- Once both ids are accepted, the run of `main` is none of the runs that end
with a message alone. -/
theorem main_accepted_ne {α σ : Type} [LinearOrderedField α] [FloorRing α] (env : Env α σ)
    (argv : List String) (hargc : 3 ≤ argv.length)
    (ht : ¬ (toUInt (env.atoi (argv.getD 1 "")) < 1 ∨ toUInt (env.atoi (argv.getD 1 "")) > 15))
    (hc : ¬ (toUInt (env.atoi (argv.getD 2 "")) < 0 ∨ toUInt (env.atoi (argv.getD 2 "")) > 13))
    (msg : String) (st : Status) :
    main env argv ≠ ⟨[Event.cout msg], st⟩ := by
  intro h
  have hev := congrArg Run.events h
  unfold main at hev
  have hargc2 : ¬ ((argv.length : Int) < 3) := by omega
  simp only [hargc2, ht, hc, if_false] at hev
  split_ifs at hev with h3 h4
  · obtain ⟨rest, hr⟩ := main_report_events env (toUInt (env.atoi (argv.getD 1 "")))
      (toUInt (env.atoi (argv.getD 2 ""))) (env.atof (argv.getD 3 "")) []
    rw [hr] at hev
    simp at hev
  · simp at hev
  · split at hev
    · simp at hev
    · rename_i jd _
      obtain ⟨rest, hr⟩ := main_report_events env (toUInt (env.atoi (argv.getD 1 "")))
        (toUInt (env.atoi (argv.getD 2 ""))) jd
        [Event.clock, Event.cout (toString env.timespec_get.2.tv_sec ++ "."
          ++ toString env.timespec_get.2.tv_nsec)]
      rw [hr] at hev
      simp at hev

/-- C8: with at least two arguments, the run of `main` is the rejection of
the target id (the range message alone, exit status `EXIT_FAILURE`, no Julian
Day and no distance computed) exactly when the `int` read from `TARGET_NO` is
outside 1 to 15; when that id is accepted, the run is the rejection of the
center id exactly when the `int` read from `CENTER_NO` is outside 0 to 13.
Negative values are rejected although the ids are kept as unsigned values. -/
theorem main_validation {α σ : Type} [LinearOrderedField α] [FloorRing α] (env : Env α σ)
    (argv : List String) (hargc : 3 ≤ argv.length)
    (ht1 : INT_MIN ≤ env.atoi (argv.getD 1 "")) (ht2 : env.atoi (argv.getD 1 "") ≤ INT_MAX)
    (hc1 : INT_MIN ≤ env.atoi (argv.getD 2 "")) (hc2 : env.atoi (argv.getD 2 "") ≤ INT_MAX) :
    (main env argv = ⟨[Event.cout "[ERROR\x7d !!! TARGET_NO must be between 1 and 15 !!!"],
          Status.exit EXIT_FAILURE⟩
        ↔ ¬ (1 ≤ env.atoi (argv.getD 1 "") ∧ env.atoi (argv.getD 1 "") ≤ 15)) ∧
      ((1 ≤ env.atoi (argv.getD 1 "") ∧ env.atoi (argv.getD 1 "") ≤ 15) →
        (main env argv = ⟨[Event.cout "[ERROR\x7d !!! CENTER_NO must be between 0 and 13 !!!"],
            Status.exit EXIT_FAILURE⟩
          ↔ ¬ (0 ≤ env.atoi (argv.getD 2 "") ∧ env.atoi (argv.getD 2 "") ≤ 13))) ∧
      EXIT_FAILURE ≠ 0 := by
  have hargc2 : ¬ ((argv.length : Int) < 3) := by omega
  have it := toUInt_target_iff _ ht1 ht2
  have ic := toUInt_center_iff _ hc1 hc2
  refine ⟨⟨fun h => ?_, fun h => ?_⟩, fun hin => ⟨fun h => ?_, fun h => ?_⟩, by decide⟩
  · intro hin2
    have ht : ¬ (toUInt (env.atoi (argv.getD 1 "")) < 1
        ∨ toUInt (env.atoi (argv.getD 1 "")) > 15) := fun hx => it.mp hx hin2
    by_cases hc : toUInt (env.atoi (argv.getD 2 "")) < 0
        ∨ toUInt (env.atoi (argv.getD 2 "")) > 13
    · unfold main at h
      simp only [hargc2, ht, hc, if_false, if_true] at h
      simp at h
    · exact main_accepted_ne env argv hargc ht hc _ _ h
  · have ht := it.mpr h
    unfold main
    simp only [hargc2, ht, if_false, if_true]
  · intro hcin2
    have ht : ¬ (toUInt (env.atoi (argv.getD 1 "")) < 1
        ∨ toUInt (env.atoi (argv.getD 1 "")) > 15) := fun hx => it.mp hx hin
    have hc : ¬ (toUInt (env.atoi (argv.getD 2 "")) < 0
        ∨ toUInt (env.atoi (argv.getD 2 "")) > 13) := fun hx => ic.mp hx hcin2
    exact main_accepted_ne env argv hargc ht hc _ _ h
  · have ht : ¬ (toUInt (env.atoi (argv.getD 1 "")) < 1
        ∨ toUInt (env.atoi (argv.getD 1 "")) > 15) := fun hx => it.mp hx hin
    have hc := ic.mpr h
    unfold main
    simp only [hargc2, ht, hc, if_false, if_true]

theorem main_validation_witness :
    main stubEnv ["dist_jpl", "0", "11"]
      = ⟨[Event.cout "[ERROR\x7d !!! TARGET_NO must be between 1 and 15 !!!"],
          Status.exit EXIT_FAILURE⟩ :=
  (main_validation stubEnv ["dist_jpl", "0", "11"] (by decide) (by decide) (by decide)
    (by decide) (by decide)).1.mpr (by decide)

/-- C9: with fewer than two arguments after the program name, the run of `main`
is the usage line alone with the exit status `EXIT_FAILURE`, which is not 0:
the clock is not read, the ephemeris is not called and no distance is
computed. -/
theorem main_usage {α σ : Type} [LinearOrderedField α] [FloorRing α] (env : Env α σ)
    (argv : List String) (hargc : argv.length < 3) :
    main env argv = ⟨[Event.cout "[USAGE] ./jpl_calc_430 TARGET_NO CENTER_NO [JULIAN_DAY]"],
        Status.exit EXIT_FAILURE⟩ ∧ EXIT_FAILURE ≠ 0 := by
  have h : ((argv.length : Int) < 3) := by omega
  refine ⟨?_, by decide⟩
  unfold main
  simp only [h, if_true]

theorem main_usage_witness :
    main stubEnv ["dist_jpl", "3"]
      = ⟨[Event.cout "[USAGE] ./jpl_calc_430 TARGET_NO CENTER_NO [JULIAN_DAY]"],
        Status.exit EXIT_FAILURE⟩ ∧ EXIT_FAILURE ≠ 0 :=
  main_usage stubEnv ["dist_jpl", "3"] (by decide)

/-- C10 fails on the code: the ids 14 and 15 pass the validation of the target
and the id 0 passes the validation of the center, and the lookups
`kAstrs[14 - 1]`, `kAstrs[15 - 1]` and `kAstrs[0 - 1]` (the unsigned
`4294967295`) are outside the 13 names, so that the run with such an id is
accepted and ends in a lookup without defined behaviour. -/
theorem main_name_lookup_out_of_bounds :
    kAstrs.length = 13 ∧
      kAstrs[toUInt ((14 : Nat) - 1 : Int)]? = none ∧
      kAstrs[toUInt ((15 : Nat) - 1 : Int)]? = none ∧
      kAstrs[toUInt ((0 : Nat) - 1 : Int)]? = none ∧
      (main stubEnv ["dist_jpl", "14", "11", "2451545.0"]).status = Status.undefined ∧
      (main stubEnv ["dist_jpl", "15", "11", "2451545.0"]).status = Status.undefined ∧
      (main stubEnv ["dist_jpl", "3", "0", "2451545.0"]).status = Status.undefined := by
  refine ⟨by decide, by decide, by decide, by decide, by decide, by decide, by decide⟩

/-! ## The program: the report -/

theorem toUInt_pred {t : Nat} (h1 : 1 ≤ t) (h2 : t < 4294967296) :
    toUInt ((t : Int) - 1) = t - 1 := by
  unfold toUInt
  omega

theorem kAstrs_lookup {k : Nat} (h : k < 13) : kAstrs[k]? = some (kAstrs.getD k "") := by
  have hl : k < kAstrs.length := by
    have : kAstrs.length = 13 := by decide
    omega
  rw [List.getD_eq_getElem?_getD, List.getElem?_eq_getElem hl]
  rfl

/-- The report part of `main` when the ephemeris answers and both names are in
the table. -/
theorem main_report_success {α σ : Type} [LinearOrderedField α] [FloorRing α] (env : Env α σ)
    (astr_t astr_c : Nat) (jd : α) (pre : List (Event α)) (o1 o2 o3 : σ)
    (ht1 : 1 ≤ astr_t) (ht2 : astr_t ≤ 13) (hc1 : 1 ≤ astr_c) (hc2 : astr_c ≤ 13)
    (h1 : env.jpl_new jd kFlgKm kFlgBary = some o1) (h2 : env.read_bin o1 = some o2)
    (h3 : env.calc_pv o2 astr_t astr_c = some o3) :
    main.report env astr_t astr_c jd pre
      = ⟨pre ++ [Event.julian jd, Event.jpl_new jd kFlgKm kFlgBary, Event.read_bin,
          Event.calc_pv astr_t astr_c, Event.calc_dist (calc_dist env.sqrt (env.pos o3)),
          Event.cout ("DISTANCE [ " ++ kAstrs.getD (astr_t - 1) "" ++ " <=> "
            ++ kAstrs.getD (astr_c - 1) "" ++ " ] (JD: " ++ fixed8 jd ++ ")"),
          Event.cout ("= " ++ fixed8 (calc_dist env.sqrt (env.pos o3)) ++ " " ++ kAu),
          Event.cout ("= " ++ fixed8 (calc_dist env.sqrt (env.pos o3) * env.au o3) ++ " "
            ++ kKm)],
        Status.exit EXIT_SUCCESS⟩ := by
  unfold main.report
  simp only [h1, h2, h3, toUInt_pred ht1 (by omega), toUInt_pred hc1 (by omega),
    kAstrs_lookup (by omega : astr_t - 1 < 13), kAstrs_lookup (by omega : astr_c - 1 < 13),
    List.append_assoc, List.cons_append, List.nil_append]

theorem fixed8_j2000 : fixed8 (2451545 : ℚ) = "2451545.00000000" := by
  have h1 : |(2451545 : ℚ)| * 100000000 = ((245154500000000 : Nat) : ℚ) := by norm_num
  have h2 : ⌊((245154500000000 : Nat) : ℚ)⌋₊ = 245154500000000 := Nat.floor_natCast _
  unfold fixed8
  simp only [h1, h2]
  norm_num
  decide

/-- C11: on a run with a supplied Julian Day `jd`, ids `t` and `c` in 1 to 13
and an ephemeris that answers with the position `pos` and the factor `au`,
`main` ends with `EXIT_SUCCESS` after printing the header line with the
`t`-th and `c`-th names and `jd` in 8 decimals, the AU line with
`calc_dist pos` and the km line with `calc_dist pos * au`. -/
theorem main_report_lines {α σ : Type} [LinearOrderedField α] [FloorRing α] (env : Env α σ)
    (argv : List String) (t c : Nat) (o1 o2 o3 : σ) (hargc : 4 ≤ argv.length)
    (ht : env.atoi (argv.getD 1 "") = (t : Int)) (hc : env.atoi (argv.getD 2 "") = (c : Int))
    (ht1 : 1 ≤ t) (ht2 : t ≤ 13) (hc1 : 1 ≤ c) (hc2 : c ≤ 13)
    (h1 : env.jpl_new (env.atof (argv.getD 3 "")) kFlgKm kFlgBary = some o1)
    (h2 : env.read_bin o1 = some o2) (h3 : env.calc_pv o2 t c = some o3) :
    main env argv
      = ⟨[Event.julian (env.atof (argv.getD 3 "")),
          Event.jpl_new (env.atof (argv.getD 3 "")) kFlgKm kFlgBary, Event.read_bin,
          Event.calc_pv t c, Event.calc_dist (calc_dist env.sqrt (env.pos o3)),
          Event.cout ("DISTANCE [ " ++ kAstrs.getD (t - 1) "" ++ " <=> "
            ++ kAstrs.getD (c - 1) "" ++ " ] (JD: " ++ fixed8 (env.atof (argv.getD 3 ""))
            ++ ")"),
          Event.cout ("= " ++ fixed8 (calc_dist env.sqrt (env.pos o3)) ++ " " ++ kAu),
          Event.cout ("= " ++ fixed8 (calc_dist env.sqrt (env.pos o3) * env.au o3) ++ " "
            ++ kKm)],
        Status.exit EXIT_SUCCESS⟩ := by
  have e1 : ¬ ((argv.length : Int) < 3) := by omega
  have e2 : (argv.length : Int) > 3 := by omega
  have e3 : ¬ (t < 1 ∨ t > 15) := by omega
  have e4 : ¬ (c < 0 ∨ c > 13) := by omega
  unfold main
  simp only [ht, hc, toUInt_natCast (by omega : t < 4294967296),
    toUInt_natCast (by omega : c < 4294967296), e1, e2, e3, e4, if_true, if_false]
  rw [main_report_success env t c _ [] o1 o2 o3 ht1 ht2 hc1 hc2 h1 h2 h3]
  rfl

theorem main_report_lines_witness :
    (main stubEnv ["dist_jpl", "3", "11", "2451545.0"]).events[5]?
        = some (Event.cout "DISTANCE [ Earth <=> Sun ] (JD: 2451545.00000000)") ∧
      (main stubEnv ["dist_jpl", "3", "11", "2451545.0"]).events.length = 8 ∧
      (main stubEnv ["dist_jpl", "3", "11", "2451545.0"]).status = Status.exit 0 := by
  have h := main_report_lines stubEnv ["dist_jpl", "3", "11", "2451545.0"] 3 11 () () ()
    (by decide) (by decide) (by decide) (by decide) (by decide) (by decide) (by decide)
    rfl rfl rfl
  have hs : ("DISTANCE [ " ++ kAstrs.getD (3 - 1) "" ++ " <=> " ++ kAstrs.getD (11 - 1) ""
      ++ " ] (JD: " ++ fixed8 (stubEnv.atof (["dist_jpl", "3", "11", "2451545.0"].getD 3 ""))
      ++ ")") = "DISTANCE [ Earth <=> Sun ] (JD: 2451545.00000000)" := by
    have hj : stubEnv.atof (["dist_jpl", "3", "11", "2451545.0"].getD 3 "") = (2451545 : ℚ) := rfl
    rw [hj, fixed8_j2000]
    decide
  rw [h]
  refine ⟨?_, rfl, rfl⟩
  simp only [List.getElem?_cons_succ, List.getElem?_cons_zero, hs]

/-! ## Decimal digits -/

/-- The digits written by `Nat.toDigitsCore` with enough fuel do not depend on
the fuel and are put in front of the digits already written. -/
theorem toDigitsCore_fuel (fuel : Nat) :
    ∀ (n : Nat) (ds : List Char), n < fuel →
      Nat.toDigitsCore 10 fuel n ds = Nat.toDigits 10 n ++ ds := by
  induction fuel using Nat.strong_induction_on with
  | _ fuel ih =>
    intro n ds hn
    obtain ⟨f, rfl⟩ : ∃ f, fuel = f + 1 := ⟨fuel - 1, by omega⟩
    unfold Nat.toDigits
    rw [Nat.toDigitsCore, Nat.toDigitsCore]
    by_cases h0 : n / 10 = 0
    · simp [h0]
    · simp only [h0, if_false]
      have h1 : n / 10 < f := by omega
      have h2 : n / 10 < n := by omega
      rw [ih f (by omega) (n / 10) _ h1, ih n (by omega) (n / 10) _ h2]
      simp

theorem toDigits_of_lt (n : Nat) (h : n < 10) : Nat.toDigits 10 n = [Nat.digitChar n] := by
  unfold Nat.toDigits
  rw [Nat.toDigitsCore]
  have h0 : n / 10 = 0 := by omega
  have h1 : n % 10 = n := by omega
  simp [h0, h1]

theorem toDigits_of_ge (n : Nat) (h : 10 ≤ n) :
    Nat.toDigits 10 n = Nat.toDigits 10 (n / 10) ++ [Nat.digitChar (n % 10)] := by
  conv_lhs => unfold Nat.toDigits
  rw [Nat.toDigitsCore]
  have h0 : ¬ n / 10 = 0 := by omega
  simp only [h0, if_false]
  exact toDigitsCore_fuel n (n / 10) _ (by omega)

theorem toDigits_two (n : Nat) (h1 : 10 ≤ n) (h2 : n < 100) :
    Nat.toDigits 10 n = [Nat.digitChar (n / 10), Nat.digitChar (n % 10)] := by
  rw [toDigits_of_ge n h1, toDigits_of_lt (n / 10) (by omega)]
  rfl

theorem toDigits_three (n : Nat) (h1 : 100 ≤ n) (h2 : n < 1000) :
    Nat.toDigits 10 n
      = [Nat.digitChar (n / 100), Nat.digitChar (n / 10 % 10), Nat.digitChar (n % 10)] := by
  rw [toDigits_of_ge n (by omega), toDigits_two (n / 10) (by omega) (by omega)]
  have e : n / 10 / 10 = n / 100 := by omega
  rw [e]
  rfl

theorem toDigits_four (n : Nat) (h1 : 1000 ≤ n) (h2 : n < 10000) :
    Nat.toDigits 10 n
      = [Nat.digitChar (n / 1000), Nat.digitChar (n / 100 % 10), Nat.digitChar (n / 10 % 10),
          Nat.digitChar (n % 10)] := by
  rw [toDigits_of_ge n (by omega), toDigits_three (n / 10) (by omega) (by omega)]
  have e1 : n / 10 / 100 = n / 1000 := by omega
  have e2 : n / 10 / 10 % 10 = n / 100 % 10 := by omega
  have e3 : n / 10 % 10 = n / 10 % 10 := rfl
  rw [e1, e2]
  rfl

/-- The first digit written for a natural number is a decimal digit. -/
theorem toDigits_head (n : Nat) :
    ∃ k tl, k < 10 ∧ Nat.toDigits 10 n = Nat.digitChar k :: tl := by
  induction n using Nat.strong_induction_on with
  | _ n ih =>
    by_cases h : n < 10
    · exact ⟨n, [], h, toDigits_of_lt n h⟩
    · obtain ⟨k, tl, hk, he⟩ := ih (n / 10) (by omega)
      refine ⟨k, tl ++ [Nat.digitChar (n % 10)], hk, ?_⟩
      rw [toDigits_of_ge n (by omega), he]
      rfl

theorem toString_natCast (n : Nat) : toString ((n : Nat) : Int) = String.mk (Nat.toDigits 10 n) :=
  rfl

theorem toString_negSucc (n : Nat) :
    toString (Int.negSucc n) = "-" ++ String.mk (Nat.toDigits 10 (n + 1)) :=
  rfl

theorem digitChar_ne (k : Nat) (h : k < 10) :
    Nat.digitChar k ≠ 'D' ∧ Nat.digitChar k ≠ '=' ∧ Nat.digitChar k ≠ '[' := by
  interval_cases k <;> decide

/-- The text of an `int` or `long` starts with a digit or a minus sign. -/
theorem toString_int_head (z : Int) :
    ∃ c tl, (toString z).data = c :: tl ∧ c ≠ 'D' ∧ c ≠ '=' := by
  cases z with
  | ofNat n =>
    obtain ⟨k, tl, hk, he⟩ := toDigits_head n
    refine ⟨Nat.digitChar k, tl, ?_, (digitChar_ne k hk).1, (digitChar_ne k hk).2.1⟩
    show (String.mk (Nat.toDigits 10 n)).data = _
    rw [he]
  | negSucc n =>
    refine ⟨'-', Nat.toDigits 10 (n + 1), ?_, by decide, by decide⟩
    rw [toString_negSucc]
    rfl

/-- The line with the clock reading is no line of the report. -/
theorem clock_line_ne (z w : Int) (x : String) :
    toString z ++ "." ++ toString w ≠ "DISTANCE [ " ++ x := by
  intro h
  obtain ⟨c, tl, hc, hD, _⟩ := toString_int_head z
  have h2 := congrArg String.data h
  simp only [String.data_append, hc] at h2
  simp at h2
  exact hD h2.1

/-- The line with the clock reading is no line that starts with `= `. -/
theorem clock_line_ne_value (z w : Int) (x : String) :
    toString z ++ "." ++ toString w ≠ "= " ++ x := by
  intro h
  obtain ⟨c, tl, hc, _, hE⟩ := toString_int_head z
  have h2 := congrArg String.data h
  simp only [String.data_append, hc] at h2
  simp at h2
  exact hE h2.1

/-! ## The program: Julian Day, exit status and report -/

theorem literal_ne_report (x : String) :
    "[USAGE] ./jpl_calc_430 TARGET_NO CENTER_NO [JULIAN_DAY]" ≠ "DISTANCE [ " ++ x ∧
      "[ERROR\x7d !!! TARGET_NO must be between 1 and 15 !!!" ≠ "DISTANCE [ " ++ x ∧
      "[ERROR\x7d !!! CENTER_NO must be between 0 and 13 !!!" ≠ "DISTANCE [ " ++ x ∧
      "[ERROR] Could not get now time!" ≠ "DISTANCE [ " ++ x := by
  refine ⟨?_, ?_, ?_, ?_⟩ <;>
  · intro h
    have h2 := congrArg String.data h
    simp only [String.data_append] at h2
    simp at h2

/-- The report part of `main` when the ephemeris throws: the run fails and
prints nothing on `std::cout`. -/
theorem main_report_failure {α σ : Type} [LinearOrderedField α] [FloorRing α] (env : Env α σ)
    (astr_t astr_c : Nat) (jd : α) (pre : List (Event α))
    (h : env.provider jd astr_t astr_c = none) :
    (main.report env astr_t astr_c jd pre).status = Status.exit EXIT_FAILURE ∧
      ∃ rest, (main.report env astr_t astr_c jd pre).events
          = pre ++ Event.julian jd :: Event.jpl_new jd kFlgKm kFlgBary :: rest ∧
        Event.clock ∉ rest ∧ ∀ l, Event.cout l ∉ rest := by
  unfold Env.provider at h
  unfold main.report
  cases h1 : env.jpl_new jd kFlgKm kFlgBary with
  | none =>
    simp only [h1]
    exact ⟨trivial, [Event.cerr "EXCEPTION!"], by simp, by simp, by simp⟩
  | some o1 =>
    rw [h1] at h
    simp only [Option.some_bind] at h
    cases h2 : env.read_bin o1 with
    | none =>
      simp only [h1, h2]
      exact ⟨trivial, [Event.read_bin, Event.cerr "EXCEPTION!"], by simp, by simp, by simp⟩
    | some o2 =>
      rw [h2] at h
      simp only [Option.some_bind] at h
      simp only [h1, h2, h]
      exact ⟨trivial, [Event.read_bin, Event.calc_pv astr_t astr_c, Event.cerr "EXCEPTION!"],
        by simp, by simp, by simp⟩

theorem provider_some {α σ : Type} (env : Env α σ) (jd : α) (astr_t astr_c : Nat) (o3 : σ)
    (h : env.provider jd astr_t astr_c = some o3) :
    ∃ o1 o2, env.jpl_new jd kFlgKm kFlgBary = some o1 ∧ env.read_bin o1 = some o2 ∧
      env.calc_pv o2 astr_t astr_c = some o3 := by
  unfold Env.provider at h
  cases h1 : env.jpl_new jd kFlgKm kFlgBary with
  | none => rw [h1] at h; exact absurd h (by simp)
  | some o1 =>
    rw [h1] at h
    simp only [Option.some_bind] at h
    cases h2 : env.read_bin o1 with
    | none => rw [h2] at h; exact absurd h (by simp)
    | some o2 =>
      rw [h2] at h
      simp only [Option.some_bind] at h
      exact ⟨o1, o2, rfl, h2, h⟩

/-- The events of the report part of `main`: the Julian Day and the construction
of the ephemeris come first, the clock is not read, and every line printed is
a line of the report block. -/
theorem main_report_rest {α σ : Type} [LinearOrderedField α] [FloorRing α] (env : Env α σ)
    (astr_t astr_c : Nat) (jd : α) (pre : List (Event α)) :
    ∃ rest, (main.report env astr_t astr_c jd pre).events
        = pre ++ Event.julian jd :: Event.jpl_new jd kFlgKm kFlgBary :: rest ∧
      Event.clock ∉ rest ∧
      ∀ l, Event.cout l ∈ rest → (∃ x, l = "DISTANCE [ " ++ x) ∨ (∃ x, l = "= " ++ x) := by
  cases hp : env.provider jd astr_t astr_c with
  | none =>
    obtain ⟨_, rest, h1, h2, h3⟩ := main_report_failure env astr_t astr_c jd pre hp
    exact ⟨rest, h1, h2, fun l hl => absurd hl (h3 l)⟩
  | some o3 =>
    obtain ⟨o1, o2, h1, h2, h3⟩ := provider_some env jd astr_t astr_c o3 hp
    unfold main.report
    simp only [h1, h2, h3]
    split
    · rename_i name_t name_c _ _
      refine ⟨[Event.read_bin, Event.calc_pv astr_t astr_c,
        Event.calc_dist (calc_dist env.sqrt (env.pos o3)),
        Event.cout ("DISTANCE [ " ++ name_t ++ " <=> " ++ name_c ++ " ] (JD: "
          ++ fixed8 jd ++ ")"),
        Event.cout ("= " ++ fixed8 (calc_dist env.sqrt (env.pos o3)) ++ " " ++ kAu),
        Event.cout ("= " ++ fixed8 (calc_dist env.sqrt (env.pos o3) * env.au o3) ++ " "
          ++ kKm)], by simp, by simp, ?_⟩
      intro l hl
      simp only [List.mem_cons, List.mem_singleton, Event.cout.injEq, List.not_mem_nil,
        or_false, false_or, reduceCtorEq] at hl
      rcases hl with rfl | rfl | rfl
      · exact Or.inl ⟨_, by simp only [String.append_assoc]; rfl⟩
      · exact Or.inr ⟨_, by simp only [String.append_assoc]; rfl⟩
      · exact Or.inr ⟨_, by simp only [String.append_assoc]; rfl⟩
    · exact ⟨[Event.read_bin, Event.calc_pv astr_t astr_c,
        Event.calc_dist (calc_dist env.sqrt (env.pos o3))], by simp, by simp, by simp⟩

/-- C12: once both ids are accepted, with a third argument the run of `main`
starts with the Julian Day read from that argument and hands it to the
ephemeris, never reads the clock and prints only lines of the report, none of
them a line with a clock reading; without
a third argument it reads the clock once, prints the seconds and nanoseconds
of the reading first, and its Julian Day is `gc2jd (jst2utc now)`; when the
clock read fails it prints an error and ends with `EXIT_FAILURE`, which is
not 0, without calling the ephemeris. -/
theorem main_julian_day_source {α σ : Type} [LinearOrderedField α] [FloorRing α]
    (env : Env α σ) (argv : List String) (hargc : 3 ≤ argv.length)
    (ht1 : 1 ≤ env.atoi (argv.getD 1 "")) (ht2 : env.atoi (argv.getD 1 "") ≤ 15)
    (hc1 : 0 ≤ env.atoi (argv.getD 2 "")) (hc2 : env.atoi (argv.getD 2 "") ≤ 13) :
    (3 < argv.length →
      (∃ rest, (main env argv).events
          = Event.julian (env.atof (argv.getD 3 ""))
            :: Event.jpl_new (env.atof (argv.getD 3 "")) kFlgKm kFlgBary :: rest) ∧
        Event.clock ∉ (main env argv).events ∧
        (∀ l, Event.cout l ∈ (main env argv).events →
          (∃ x, l = "DISTANCE [ " ++ x) ∨ (∃ x, l = "= " ++ x)) ∧
        ∀ z w : Int, Event.cout (toString z ++ "." ++ toString w) ∉ (main env argv).events) ∧
      (argv.length = 3 → env.timespec_get.1 = 1 →
        ∃ rest, (main env argv).events
            = Event.clock :: Event.cout (toString env.timespec_get.2.tv_sec ++ "."
                ++ toString env.timespec_get.2.tv_nsec) :: rest ∧
          Event.clock ∉ rest ∧
          ∀ jd, (jst2utc env.timespec_get.2).bind (gc2jd env.localtime_r) = some jd →
            ∃ rest2, rest = Event.julian jd :: Event.jpl_new jd kFlgKm kFlgBary :: rest2) ∧
      (argv.length = 3 → env.timespec_get.1 ≠ 1 →
        main env argv = ⟨[Event.clock, Event.cout "[ERROR] Could not get now time!"],
          Status.exit EXIT_FAILURE⟩) ∧
      EXIT_FAILURE ≠ 0 := by
  have e1 : ¬ ((argv.length : Int) < 3) := by omega
  have e3 : ¬ (toUInt (env.atoi (argv.getD 1 "")) < 1
      ∨ toUInt (env.atoi (argv.getD 1 "")) > 15) := by
    unfold toUInt
    omega
  have e4 : ¬ (toUInt (env.atoi (argv.getD 2 "")) < 0
      ∨ toUInt (env.atoi (argv.getD 2 "")) > 13) := by
    unfold toUInt
    omega
  refine ⟨fun h3 => ?_, fun h3 hret => ?_, fun h3 hret => ?_, by decide⟩
  · have e2 : (argv.length : Int) > 3 := by omega
    have hm : main env argv = main.report env (toUInt (env.atoi (argv.getD 1 "")))
        (toUInt (env.atoi (argv.getD 2 ""))) (env.atof (argv.getD 3 "")) [] := by
      unfold main
      simp only [e1, e2, e3, e4, if_true, if_false]
    obtain ⟨rest, hr, hclock, hlines⟩ := main_report_rest env
      (toUInt (env.atoi (argv.getD 1 ""))) (toUInt (env.atoi (argv.getD 2 "")))
      (env.atof (argv.getD 3 "")) []
    rw [hm, hr]
    have hall : ∀ l, Event.cout l ∈ [] ++ Event.julian (env.atof (argv.getD 3 ""))
        :: Event.jpl_new (env.atof (argv.getD 3 "")) kFlgKm kFlgBary :: rest →
        (∃ x, l = "DISTANCE [ " ++ x) ∨ (∃ x, l = "= " ++ x) := by
      intro l hl
      simp only [List.nil_append, List.mem_cons, reduceCtorEq, false_or] at hl
      exact hlines l hl
    refine ⟨⟨rest, rfl⟩, by simpa using hclock, hall, fun z w hzw => ?_⟩
    rcases hall _ hzw with ⟨x, hx⟩ | ⟨x, hx⟩
    · exact clock_line_ne z w x hx
    · exact clock_line_ne_value z w x hx
  · have e2 : ¬ ((argv.length : Int) > 3) := by omega
    cases hjd : ((jst2utc env.timespec_get.2).bind (gc2jd env.localtime_r) : Option α) with
    | none =>
      refine ⟨[], ?_, by simp, fun (jd : α) (h : none = some jd) => Option.noConfusion h⟩
      unfold main
      simp only [e1, e2, e3, e4, hret, hjd, if_true, if_false, ne_eq, not_true_eq_false]
    | some jd =>
      obtain ⟨rest, hr, hclock, _⟩ := main_report_rest env
        (toUInt (env.atoi (argv.getD 1 ""))) (toUInt (env.atoi (argv.getD 2 ""))) jd
        [Event.clock, Event.cout (toString env.timespec_get.2.tv_sec ++ "."
          ++ toString env.timespec_get.2.tv_nsec)]
      refine ⟨Event.julian jd :: Event.jpl_new jd kFlgKm kFlgBary :: rest, ?_,
        by simpa using hclock, fun jd2 h => ⟨rest, by
          have : jd2 = jd := (Option.some.inj h).symm
          rw [this]⟩⟩
      unfold main
      simp only [e1, e2, e3, e4, hret, hjd, if_true, if_false, ne_eq, not_true_eq_false]
      rw [hr]
      rfl
  · have e2 : ¬ ((argv.length : Int) > 3) := by omega
    unfold main
    simp only [e1, e2, e3, e4, hret, if_true, if_false, ne_eq, not_false_eq_true]

theorem main_julian_day_source_witness :
    (∃ rest, (main stubEnv ["dist_jpl", "3", "11", "2451545.0"]).events
        = Event.julian 2451545 :: Event.jpl_new 2451545 false true :: rest) ∧
      Event.clock ∉ (main stubEnv ["dist_jpl", "3", "11", "2451545.0"]).events ∧
      (∀ l, Event.cout l ∈ (main stubEnv ["dist_jpl", "3", "11", "2451545.0"]).events →
        (∃ x, l = "DISTANCE [ " ++ x) ∨ (∃ x, l = "= " ++ x)) ∧
      ∀ z w : Int, Event.cout (toString z ++ "." ++ toString w)
        ∉ (main stubEnv ["dist_jpl", "3", "11", "2451545.0"]).events :=
  (main_julian_day_source stubEnv ["dist_jpl", "3", "11", "2451545.0"] (by decide)
    (by decide) (by decide) (by decide) (by decide)).1 (by decide)


/-- The report part of `main` with both ids in 1 to 13: it ends with
`EXIT_SUCCESS` exactly when the ephemeris does not throw, with `EXIT_FAILURE`
otherwise, and prints the report block exactly when it ends with
`EXIT_SUCCESS`. -/
theorem main_report_status {α σ : Type} [LinearOrderedField α] [FloorRing α] (env : Env α σ)
    (astr_t astr_c : Nat) (jd : α) (pre : List (Event α))
    (ht1 : 1 ≤ astr_t) (ht2 : astr_t ≤ 13) (hc1 : 1 ≤ astr_c) (hc2 : astr_c ≤ 13)
    (hpre : ∀ x : String, Event.cout ("DISTANCE [ " ++ x) ∉ pre) :
    ((main.report env astr_t astr_c jd pre).status = Status.exit EXIT_SUCCESS
        ↔ env.provider jd astr_t astr_c ≠ none) ∧
      (env.provider jd astr_t astr_c = none →
        (main.report env astr_t astr_c jd pre).status = Status.exit EXIT_FAILURE) ∧
      ((main.report env astr_t astr_c jd pre).reportPrinted
        ↔ (main.report env astr_t astr_c jd pre).status = Status.exit EXIT_SUCCESS) := by
  cases hp : env.provider jd astr_t astr_c with
  | none =>
    obtain ⟨hs, rest, hr, _, hl⟩ := main_report_failure env astr_t astr_c jd pre hp
    have hne : Status.exit EXIT_FAILURE ≠ Status.exit EXIT_SUCCESS := by decide
    refine ⟨⟨fun h => absurd (hs.symm.trans h) hne, fun h => absurd rfl h⟩, fun _ => hs,
      ⟨fun h => ?_, fun h => absurd (hs.symm.trans h) hne⟩⟩
    obtain ⟨x, hx⟩ := h
    rw [hr] at hx
    simp only [List.mem_append, List.mem_cons, reduceCtorEq, false_or] at hx
    rcases hx with hx | hx
    · exact absurd hx (hpre x)
    · exact absurd hx (hl _)
  | some o3 =>
    obtain ⟨o1, o2, h1, h2, h3⟩ := provider_some env jd astr_t astr_c o3 hp
    have hrun := main_report_success env astr_t astr_c jd pre o1 o2 o3 ht1 ht2 hc1 hc2 h1 h2 h3
    rw [hrun]
    refine ⟨⟨fun _ => by simp, fun _ => rfl⟩, fun h => absurd h (by simp), ⟨fun _ => rfl, fun _ => ?_⟩⟩
    refine ⟨kAstrs.getD (astr_t - 1) "" ++ (" <=> " ++ (kAstrs.getD (astr_c - 1) ""
      ++ (" ] (JD: " ++ (fixed8 jd ++ ")")))), ?_⟩
    simp [String.append_assoc]

/-- A run that only prints one of the messages of `main` prints no report. -/
theorem message_run_not_report {α : Type} (pre : List (Event α)) (msg : String) (st : Status)
    (hpre : ∀ e ∈ pre, e = Event.clock)
    (hmsg : ∀ x : String, msg ≠ "DISTANCE [ " ++ x) :
    ¬ (⟨pre ++ [Event.cout msg], st⟩ : Run α).reportPrinted := by
  rintro ⟨x, hx⟩
  simp only [List.mem_append, List.mem_singleton, Event.cout.injEq] at hx
  rcases hx with hx | hx
  · exact absurd (hpre _ hx) (by simp)
  · exact hmsg x hx.symm

/-- Exit status and report on the runs without the lookup of a name outside the
table: when no accepted id is outside the 13 names (target not 14 or 15,
center not 0) and the Julian Day of a successful clock reading is defined,
`main` ends with `EXIT_SUCCESS` (0) exactly when all checks pass and
the ephemeris does not throw, ends with `EXIT_FAILURE` (not 0) in every other
case, and prints the report block exactly when it ends with `EXIT_SUCCESS`. -/
theorem main_exit_status {α σ : Type} [LinearOrderedField α] [FloorRing α] (env : Env α σ)
    (argv : List String)
    (ht1 : INT_MIN ≤ env.atoi (argv.getD 1 "")) (ht2 : env.atoi (argv.getD 1 "") ≤ INT_MAX)
    (hc1 : INT_MIN ≤ env.atoi (argv.getD 2 "")) (hc2 : env.atoi (argv.getD 2 "") ≤ INT_MAX)
    (hnames : env.atoi (argv.getD 1 "") ≠ 14 ∧ env.atoi (argv.getD 1 "") ≠ 15
      ∧ env.atoi (argv.getD 2 "") ≠ 0)
    (hjd : argv.length = 3 → env.timespec_get.1 = 1 → main.julian_day env argv ≠ none) :
    ((main env argv).status = Status.exit EXIT_SUCCESS ↔ main.succeeds env argv) ∧
      (¬ main.succeeds env argv → (main env argv).status = Status.exit EXIT_FAILURE) ∧
      ((main env argv).reportPrinted ↔ (main env argv).status = Status.exit EXIT_SUCCESS) ∧
      EXIT_SUCCESS = 0 ∧ EXIT_FAILURE ≠ 0 := by
  have hne : Status.exit EXIT_FAILURE ≠ Status.exit EXIT_SUCCESS := by decide
  have it := toUInt_target_iff _ ht1 ht2
  have ic := toUInt_center_iff _ hc1 hc2
  have key : ((main env argv).status = Status.exit EXIT_SUCCESS ↔ main.succeeds env argv) ∧
      (¬ main.succeeds env argv → (main env argv).status = Status.exit EXIT_FAILURE) ∧
      ((main env argv).reportPrinted
        ↔ (main env argv).status = Status.exit EXIT_SUCCESS) := by
    by_cases hargc : (argv.length : Int) < 3
    · have hm : main env argv
          = ⟨[] ++ [Event.cout "[USAGE] ./jpl_calc_430 TARGET_NO CENTER_NO [JULIAN_DAY]"],
            Status.exit EXIT_FAILURE⟩ := by
        unfold main
        simp only [hargc, if_true, List.nil_append]
      have hns : ¬ main.succeeds env argv := fun h => by
        have := h.1
        omega
      have hnr := message_run_not_report ([] : List (Event α)) _ (Status.exit EXIT_FAILURE)
        (by simp) (fun x => (literal_ne_report x).1)
      rw [hm]
      exact ⟨⟨fun h => absurd h hne, fun h => absurd h hns⟩, fun _ => rfl,
        ⟨fun h => absurd h hnr, fun h => absurd h hne⟩⟩
    by_cases ht : toUInt (env.atoi (argv.getD 1 "")) < 1
        ∨ toUInt (env.atoi (argv.getD 1 "")) > 15
    · have hm : main env argv
          = ⟨[] ++ [Event.cout "[ERROR\x7d !!! TARGET_NO must be between 1 and 15 !!!"],
            Status.exit EXIT_FAILURE⟩ := by
        unfold main
        simp only [hargc, ht, if_true, if_false, List.nil_append]
      have hns : ¬ main.succeeds env argv := fun h => it.mp ht h.2.1
      have hnr := message_run_not_report ([] : List (Event α)) _ (Status.exit EXIT_FAILURE)
        (by simp) (fun x => (literal_ne_report x).2.1)
      rw [hm]
      exact ⟨⟨fun h => absurd h hne, fun h => absurd h hns⟩, fun _ => rfl,
        ⟨fun h => absurd h hnr, fun h => absurd h hne⟩⟩
    by_cases hc : toUInt (env.atoi (argv.getD 2 "")) < 0
        ∨ toUInt (env.atoi (argv.getD 2 "")) > 13
    · have hm : main env argv
          = ⟨[] ++ [Event.cout "[ERROR\x7d !!! CENTER_NO must be between 0 and 13 !!!"],
            Status.exit EXIT_FAILURE⟩ := by
        unfold main
        simp only [hargc, ht, hc, if_true, if_false, List.nil_append]
      have hns : ¬ main.succeeds env argv := fun h => ic.mp hc h.2.2.1
      have hnr := message_run_not_report ([] : List (Event α)) _ (Status.exit EXIT_FAILURE)
        (by simp) (fun x => (literal_ne_report x).2.2.1)
      rw [hm]
      exact ⟨⟨fun h => absurd h hne, fun h => absurd h hns⟩, fun _ => rfl,
        ⟨fun h => absurd h hnr, fun h => absurd h hne⟩⟩
    -- both ids are accepted and have a name
    have hlen : 3 ≤ argv.length := by omega
    have hti : 1 ≤ env.atoi (argv.getD 1 "") ∧ env.atoi (argv.getD 1 "") ≤ 15 :=
      not_not.mp (fun h => ht (it.mpr h))
    have hci : 0 ≤ env.atoi (argv.getD 2 "") ∧ env.atoi (argv.getD 2 "") ≤ 13 :=
      not_not.mp (fun h => hc (ic.mpr h))
    obtain ⟨hn1, hn2, hn3⟩ := hnames
    have hT1 : 1 ≤ toUInt (env.atoi (argv.getD 1 "")) := by unfold toUInt; omega
    have hT2 : toUInt (env.atoi (argv.getD 1 "")) ≤ 13 := by unfold toUInt; omega
    have hC1 : 1 ≤ toUInt (env.atoi (argv.getD 2 "")) := by unfold toUInt; omega
    have hC2 : toUInt (env.atoi (argv.getD 2 "")) ≤ 13 := by unfold toUInt; omega
    by_cases h3 : (argv.length : Int) > 3
    · have hm : main env argv = main.report env (toUInt (env.atoi (argv.getD 1 "")))
          (toUInt (env.atoi (argv.getD 2 ""))) (env.atof (argv.getD 3 "")) [] := by
        unfold main
        simp only [hargc, ht, hc, h3, if_true, if_false]
      have hJ : main.julian_day env argv = some (env.atof (argv.getD 3 "")) := by
        unfold main.julian_day
        simp only [h3, if_true]
      obtain ⟨s1, s2, s3⟩ := main_report_status env _ _ (env.atof (argv.getD 3 "")) []
        hT1 hT2 hC1 hC2 (by simp)
      have hiff : main.succeeds env argv ↔ env.provider (env.atof (argv.getD 3 ""))
          (toUInt (env.atoi (argv.getD 1 ""))) (toUInt (env.atoi (argv.getD 2 ""))) ≠ none := by
        constructor
        · rintro ⟨_, _, _, _, jd, hj, hp⟩
          rw [hJ] at hj
          rw [Option.some.inj hj]
          exact hp
        · exact fun hp => ⟨hlen, hti, hci, Or.inl (by omega), _, hJ, hp⟩
      rw [hm]
      exact ⟨s1.trans hiff.symm, fun hns => s2 (not_not.mp (fun hp => hns (hiff.mpr hp))), s3⟩
    by_cases hret : env.timespec_get.1 = 1
    · have hlen3 : argv.length = 3 := by omega
      have hJd : main.julian_day env argv
          = (jst2utc env.timespec_get.2).bind (gc2jd env.localtime_r) := by
        unfold main.julian_day
        simp only [h3, if_false]
      obtain ⟨jd, hJ⟩ := Option.ne_none_iff_exists'.mp (hjd hlen3 hret)
      have hm : main env argv = main.report env (toUInt (env.atoi (argv.getD 1 "")))
          (toUInt (env.atoi (argv.getD 2 ""))) jd
          [Event.clock, Event.cout (toString env.timespec_get.2.tv_sec ++ "."
            ++ toString env.timespec_get.2.tv_nsec)] := by
        rw [hJd] at hJ
        unfold main
        simp only [hargc, ht, hc, h3, hret, hJ, if_true, if_false, ne_eq, not_true_eq_false]
      obtain ⟨s1, s2, s3⟩ := main_report_status env _ _ jd
        [Event.clock, Event.cout (toString env.timespec_get.2.tv_sec ++ "."
            ++ toString env.timespec_get.2.tv_nsec)]
        hT1 hT2 hC1 hC2 (by
          intro x hx
          simp only [List.mem_cons, reduceCtorEq, Event.cout.injEq, List.not_mem_nil,
            or_false, false_or] at hx
          exact clock_line_ne _ _ x hx.symm)
      have hiff : main.succeeds env argv ↔ env.provider jd
          (toUInt (env.atoi (argv.getD 1 ""))) (toUInt (env.atoi (argv.getD 2 ""))) ≠ none := by
        constructor
        · rintro ⟨_, _, _, _, jd2, hj, hp⟩
          rw [hJ] at hj
          rw [Option.some.inj hj]
          exact hp
        · exact fun hp => ⟨hlen, hti, hci, Or.inr hret, _, hJ, hp⟩
      rw [hm]
      exact ⟨s1.trans hiff.symm, fun hns => s2 (not_not.mp (fun hp => hns (hiff.mpr hp))), s3⟩
    · have hm : main env argv
          = ⟨[Event.clock] ++ [Event.cout "[ERROR] Could not get now time!"],
            Status.exit EXIT_FAILURE⟩ := by
        unfold main
        simp only [hargc, ht, hc, h3, hret, if_true, if_false, ne_eq, not_false_eq_true,
          List.singleton_append]
      have hns : ¬ main.succeeds env argv := fun h => by
        rcases h.2.2.2.1 with h | h
        · omega
        · exact hret h
      have hnr := message_run_not_report ([Event.clock] : List (Event α)) _ (Status.exit EXIT_FAILURE)
        (by simp) (fun x => (literal_ne_report x).2.2.2)
      rw [hm]
      exact ⟨⟨fun h => absurd h hne, fun h => absurd h hns⟩, fun _ => rfl,
        ⟨fun h => absurd h hnr, fun h => absurd h hne⟩⟩
  exact ⟨key.1, key.2.1, key.2.2, rfl, by decide⟩

theorem main_exit_status_witness :
    ((main stubEnv ["dist_jpl", "3", "11", "2451545.0"]).status = Status.exit EXIT_SUCCESS
        ↔ main.succeeds stubEnv ["dist_jpl", "3", "11", "2451545.0"]) ∧
      (¬ main.succeeds stubEnv ["dist_jpl", "3", "11", "2451545.0"] →
        (main stubEnv ["dist_jpl", "3", "11", "2451545.0"]).status
          = Status.exit EXIT_FAILURE) ∧
      ((main stubEnv ["dist_jpl", "3", "11", "2451545.0"]).reportPrinted
        ↔ (main stubEnv ["dist_jpl", "3", "11", "2451545.0"]).status
          = Status.exit EXIT_SUCCESS) ∧
      EXIT_SUCCESS = 0 ∧ EXIT_FAILURE ≠ 0 :=
  main_exit_status stubEnv ["dist_jpl", "3", "11", "2451545.0"] (by decide) (by decide)
    (by decide) (by decide) (by decide) (fun h => absurd h (by decide))

/-- C13 fails on the code. With `TARGET_NO=3 CENTER_NO=0` and a Julian Day
given, the argument count and both ids pass the validation, no clock is read
and the ephemeris answers, so that all checks pass; yet the run does not end
with the status 0: for the report it looks up `kAstrs[0 - 1]`, the unsigned
index `4294967295` outside the 13 names, and ends there without a defined
exit status and without `EXIT_FAILURE`. The defect is the accepted range of
the center id, the one that C10 shows. -/
theorem main_exit_status_undefined :
    main.succeeds stubEnv ["dist_jpl", "3", "0", "2451545.0"] ∧
      kAstrs[toUInt ((toUInt (stubEnv.atoi "0") : Nat) - 1 : Int)]? = none ∧
      (main stubEnv ["dist_jpl", "3", "0", "2451545.0"]).status = Status.undefined ∧
      (main stubEnv ["dist_jpl", "3", "0", "2451545.0"]).status ≠ Status.exit EXIT_SUCCESS ∧
      (main stubEnv ["dist_jpl", "3", "0", "2451545.0"]).status ≠ Status.exit EXIT_FAILURE := by
  refine ⟨⟨by decide, by decide, by decide, Or.inl (by decide), 2451545, rfl, by decide⟩,
    by decide, by decide, by decide, by decide⟩

/-! ## Time text: the claim on `gen_time_str` -/

theorem fieldDigits_zero (w : Nat) : fieldDigits w 0 = List.replicate w '0' := by
  induction w with
  | zero => rfl
  | succ w ih =>
    rw [fieldDigits, Nat.zero_div, ih, List.replicate_succ']
    rfl

/-- Padding the digits of `n` with `0` on the left gives the digits of `n` in a
field of `w` places, when `n` fits in `w` places. -/
theorem padded_digits (w : Nat) :
    ∀ n : Nat, 1 ≤ w → n < 10 ^ w →
      List.replicate (w - (Nat.toDigits 10 n).length) '0' ++ Nat.toDigits 10 n
        = fieldDigits w n := by
  induction w with
  | zero => intro n h; omega
  | succ w ih =>
    intro n _ hn
    by_cases h10 : n < 10
    · have e1 : n / 10 = 0 := by omega
      have e2 : n % 10 = n := by omega
      rw [toDigits_of_lt n h10, fieldDigits, e1, e2, fieldDigits_zero]
      simp
    · have hw : 1 ≤ w := by
        rcases Nat.eq_zero_or_pos w with h0 | h0
        · subst h0
          simp at hn
          omega
        · exact h0
      have hlt : n / 10 < 10 ^ w := by
        rw [pow_succ] at hn
        omega
      rw [toDigits_of_ge n (by omega), fieldDigits, ← ih (n / 10) hw hlt]
      simp only [List.length_append, List.length_singleton, Nat.add_sub_add_right,
        List.append_assoc]

theorem setw0_field (w n : Nat) (hw : 1 ≤ w) (hn : n < 10 ^ w) :
    setw0 w (toString ((n : Nat) : Int)) = String.mk (fieldDigits w n) := by
  rw [toString_natCast, ← padded_digits w n hw hn]
  rfl

theorem fieldDigits_length (w n : Nat) : (fieldDigits w n).length = w := by
  induction w generalizing n with
  | zero => rfl
  | succ w ih => rw [fieldDigits, List.length_append, ih]; rfl

theorem readDigits_digitChar (k : Nat) (hk : k < 10) (cs : List Char) (acc : Nat) :
    readDigits (Nat.digitChar k :: cs) acc = readDigits cs (10 * acc + k) := by
  interval_cases k <;> rfl

theorem readDigits_two (n : Nat) (acc : Nat) :
    readDigits (fieldDigits 2 n) acc = 100 * acc + n % 100 := by
  simp only [fieldDigits, List.nil_append, List.singleton_append]
  rw [readDigits_digitChar _ (Nat.mod_lt _ (by decide)),
    readDigits_digitChar _ (Nat.mod_lt _ (by decide)), readDigits]
  omega

theorem readDigits_three (n : Nat) (acc : Nat) :
    readDigits (fieldDigits 3 n) acc = 1000 * acc + n % 1000 := by
  simp only [fieldDigits, List.nil_append, List.singleton_append, List.cons_append]
  rw [readDigits_digitChar _ (Nat.mod_lt _ (by decide)),
    readDigits_digitChar _ (Nat.mod_lt _ (by decide)),
    readDigits_digitChar _ (Nat.mod_lt _ (by decide)), readDigits]
  omega

theorem readDigits_four (n : Nat) (acc : Nat) :
    readDigits (fieldDigits 4 n) acc = 10000 * acc + n % 10000 := by
  simp only [fieldDigits, List.nil_append, List.singleton_append, List.cons_append]
  rw [readDigits_digitChar _ (Nat.mod_lt _ (by decide)),
    readDigits_digitChar _ (Nat.mod_lt _ (by decide)),
    readDigits_digitChar _ (Nat.mod_lt _ (by decide)),
    readDigits_digitChar _ (Nat.mod_lt _ (by decide)), readDigits]
  omega

/-- The text of `gen_time_str` on the fields of a civil timestamp. -/
theorem gen_time_str_civil (lt : Int → Tm) (ts : Timespec) (c : Civil)
    (hy : c.year ≤ 9999) (hm : c.month ≤ 12) (hd : c.day ≤ 31) (hh : c.hour < 24)
    (hmi : c.min < 60) (hs : c.sec ≤ 60) (hn : c.nsec < 1000000000)
    (hlt : lt ts.tv_sec = c.tm) (hns : ts.tv_nsec = (c.nsec : Int)) :
    gen_time_str lt ts = some (String.mk (fieldDigits 4 c.year ++ '-' :: fieldDigits 2 c.month
      ++ '-' :: fieldDigits 2 c.day ++ ' ' :: fieldDigits 2 c.hour ++ ':' :: fieldDigits 2 c.min
      ++ ':' :: fieldDigits 2 c.sec ++ '.' :: fieldDigits 3 (c.nsec / 1000000))) := by
  unfold gen_time_str
  rw [hlt, hns]
  simp only [Civil.tm]
  have e1 : (c.year : Int) - 1900 + 1900 = c.year := by ring
  have e2 : (c.month : Int) - 1 + 1 = c.month := by ring
  have e3 : Int.tdiv (c.nsec : Int) 1000000 = ((c.nsec / 1000000 : Nat) : Int) := by
    rw [Int.tdiv_eq_ediv (by omega) (by omega)]
    omega
  rw [e1, e2, e3, toInt_of_mem (by omega) (by omega), toInt_of_mem (by omega) (by omega)]
  simp only [Option.bind_eq_bind, Option.some_bind]
  rw [setw0_field 4 c.year (by omega) (by omega), setw0_field 2 c.month (by omega) (by omega),
    setw0_field 2 c.day (by omega) (by omega), setw0_field 2 c.hour (by omega) (by omega),
    setw0_field 2 c.min (by omega) (by omega), setw0_field 2 c.sec (by omega) (by omega),
    setw0_field 3 (c.nsec / 1000000) (by omega) (by omega)]
  refine congrArg some (String.ext ?_)
  simp only [String.data_append, List.append_assoc]
  rfl

/-- The text of a time of 23 characters and its re-parsing. -/
theorem time_text_parse (y mo d h mi sec ms : Nat) :
    (String.mk (fieldDigits 4 y ++ '-' :: fieldDigits 2 mo ++ '-' :: fieldDigits 2 d
        ++ ' ' :: fieldDigits 2 h ++ ':' :: fieldDigits 2 mi ++ ':' :: fieldDigits 2 sec
        ++ '.' :: fieldDigits 3 ms)).length = 23 ∧
      parse_time_str (String.mk (fieldDigits 4 y ++ '-' :: fieldDigits 2 mo
        ++ '-' :: fieldDigits 2 d ++ ' ' :: fieldDigits 2 h ++ ':' :: fieldDigits 2 mi
        ++ ':' :: fieldDigits 2 sec ++ '.' :: fieldDigits 3 ms))
        = [y % 10000, mo % 100, d % 100, h % 100, mi % 100, sec % 100, ms % 1000] := by
  have r2 := fun n => readDigits_two n 0
  have r3 := fun n => readDigits_three n 0
  have r4 := fun n => readDigits_four n 0
  simp only [fieldDigits, List.nil_append, List.singleton_append, List.cons_append] at r2 r3 r4
  constructor
  · simp [fieldDigits, String.length]
  · simp only [parse_time_str, fieldDigits, List.nil_append, List.singleton_append,
      List.cons_append, List.take, List.drop, r2, r3, r4, Nat.mul_zero, Nat.zero_add]

/-- The text of `gen_time_str`, its length and its re-parsing, on civil fields. -/
theorem gen_time_str_fields (lt : Int → Tm) (ts : Timespec) (c : Civil) (hc : CivilFields c)
    (hlt : lt ts.tv_sec = c.tm) (hns : ts.tv_nsec = (c.nsec : Int)) :
    ∃ s, gen_time_str lt ts = some s ∧ s.length = 23 ∧
      s.data = fieldDigits 4 c.year ++ '-' :: fieldDigits 2 c.month ++ '-' :: fieldDigits 2 c.day
        ++ ' ' :: fieldDigits 2 c.hour ++ ':' :: fieldDigits 2 c.min ++ ':' :: fieldDigits 2 c.sec
        ++ '.' :: fieldDigits 3 (c.nsec / 1000000) ∧
      parse_time_str s
        = [c.year, c.month, c.day, c.hour, c.min, c.sec, c.nsec / 1000000] := by
  obtain ⟨h1, _, h3, _, h5, h6, h7, h8, h9⟩ := hc
  obtain ⟨hlen, hparse⟩ := time_text_parse c.year c.month c.day c.hour c.min c.sec
    (c.nsec / 1000000)
  refine ⟨_, gen_time_str_civil lt ts c h1 h3 h5 h6 h7 h8 h9 hlt hns, hlen, rfl, ?_⟩
  rw [hparse, Nat.mod_eq_of_lt (by omega : c.year < 10000),
    Nat.mod_eq_of_lt (by omega : c.month < 100), Nat.mod_eq_of_lt (by omega : c.day < 100),
    Nat.mod_eq_of_lt (by omega : c.hour < 100), Nat.mod_eq_of_lt (by omega : c.min < 100),
    Nat.mod_eq_of_lt (by omega : c.sec < 100),
    Nat.mod_eq_of_lt (by omega : c.nsec / 1000000 < 1000)]

/-- C14: on civil fields with a year from 0 to 9999 and nanoseconds below
`10^9`, `gen_time_str` returns the 23 characters `YYYY-MM-DD HH:MM:SS.mmm`,
every field padded with zeros to its width and `mmm` the nanoseconds divided
by 1000000; re-parsing the seven digit groups gives back year, month, day,
hour, minute, second and that millisecond count, so a second timestamp with
the same text has the same fields and the same millisecond count. -/
theorem gen_time_str_roundtrip (lt : Int → Tm) (ts ts2 : Timespec) (c c2 : Civil)
    (hc : CivilFields c) (hc2 : CivilFields c2)
    (hlt : lt ts.tv_sec = c.tm) (hns : ts.tv_nsec = (c.nsec : Int))
    (hlt2 : lt ts2.tv_sec = c2.tm) (hns2 : ts2.tv_nsec = (c2.nsec : Int)) :
    ∃ s, gen_time_str lt ts = some s ∧ s.length = 23 ∧
      s.data = fieldDigits 4 c.year ++ '-' :: fieldDigits 2 c.month ++ '-' :: fieldDigits 2 c.day
        ++ ' ' :: fieldDigits 2 c.hour ++ ':' :: fieldDigits 2 c.min ++ ':' :: fieldDigits 2 c.sec
        ++ '.' :: fieldDigits 3 (c.nsec / 1000000) ∧
      parse_time_str s
        = [c.year, c.month, c.day, c.hour, c.min, c.sec, c.nsec / 1000000] ∧
      (gen_time_str lt ts2 = some s →
        c2.year = c.year ∧ c2.month = c.month ∧ c2.day = c.day ∧ c2.hour = c.hour ∧
          c2.min = c.min ∧ c2.sec = c.sec ∧ c2.nsec / 1000000 = c.nsec / 1000000) := by
  obtain ⟨s, h1, h2, h3, h4⟩ := gen_time_str_fields lt ts c hc hlt hns
  refine ⟨s, h1, h2, h3, h4, fun h => ?_⟩
  obtain ⟨s2, g1, _, _, g4⟩ := gen_time_str_fields lt ts2 c2 hc2 hlt2 hns2
  have e : s2 = s := Option.some.inj (g1.symm.trans h)
  rw [e, h4] at g4
  simp only [List.cons.injEq, and_true] at g4
  obtain ⟨a1, a2, a3, a4, a5, a6, a7⟩ := g4
  exact ⟨a1.symm, a2.symm, a3.symm, a4.symm, a5.symm, a6.symm, a7.symm⟩

theorem gen_time_str_roundtrip_witness :
    gen_time_str (fun s => if s = 0 then Civil.tm ⟨2000, 1, 1, 12, 0, 0, 5000000⟩
        else Civil.tm ⟨2000, 1, 1, 12, 0, 0, 5999999⟩) ⟨0, 5000000⟩
        = some "2000-01-01 12:00:00.005" ∧
      parse_time_str "2000-01-01 12:00:00.005" = [2000, 1, 1, 12, 0, 0, 5] := by
  obtain ⟨s, h1, _, h3, h4, _⟩ := gen_time_str_roundtrip
    (fun s => if s = 0 then Civil.tm ⟨2000, 1, 1, 12, 0, 0, 5000000⟩
      else Civil.tm ⟨2000, 1, 1, 12, 0, 0, 5999999⟩) ⟨0, 5000000⟩ ⟨1, 5999999⟩
    ⟨2000, 1, 1, 12, 0, 0, 5000000⟩ ⟨2000, 1, 1, 12, 0, 0, 5999999⟩
    (by decide) (by decide) rfl rfl rfl rfl
  have hs : s = "2000-01-01 12:00:00.005" := String.ext (h3.trans (by decide))
  rw [hs] at h1 h4
  exact ⟨h1, h4⟩

/-! ## The Julian Day of the clock reading -/

theorem nextDay_calendarDate (c : Civil) (h : CalendarDate c) : CalendarDate (nextDay c) := by
  obtain ⟨h1, h2, h3, h4, h5⟩ := h
  have hp := daysInMonth_pos
  unfold nextDay
  split_ifs with a b
  · exact ⟨h1, h2, h3, by simp, by simp; omega⟩
  · refine ⟨h1, by simp, by simp; omega, by simp, ?_⟩
    have := hp c.year (c.month + 1)
    simp
    omega
  · refine ⟨by simp, by simp, by simp, by simp, ?_⟩
    have := hp (c.year + 1) 1
    simp
    omega

/-- After `k` steps to the next day from a date of the calendar: the date is a
date of the calendar, its Julian Day Number is `k` more, its year at most `k`
more, and the time of day is the same. -/
theorem iterate_nextDay (c : Civil) (h : CalendarDate c) (k : Nat) :
    CalendarDate (Nat.iterate nextDay k c) ∧
      julianDayNumber (Nat.iterate nextDay k c).year (Nat.iterate nextDay k c).month
          (Nat.iterate nextDay k c).day
        = julianDayNumber c.year c.month c.day + k ∧
      (Nat.iterate nextDay k c).year ≤ c.year + k := by
  induction k with
  | zero => exact ⟨h, rfl, le_refl _⟩
  | succ k ih =>
    obtain ⟨i1, i2, i3⟩ := ih
    rw [Function.iterate_succ_apply']
    obtain ⟨b1, b2, b3, b4, b5⟩ := nextDay_bounds _ i1.1 i1.2.1 i1.2.2.1
    refine ⟨nextDay_calendarDate _ i1, ?_, by omega⟩
    rw [julianDayNumber_nextDay _ i1.1 i1.2.1 i1.2.2.1 i1.2.2.2.2, i2]
    omega

/-- `gc2jd` with the fixed-offset `localtime_r` on a time `sec` whose local
time `sec + offset` is not before 0001-01-01 and not after the year 5000. -/
theorem gc2jd_localtime_fixed {α : Type} [LinearOrderedField α] [FloorRing α]
    (offset sec nsec : Int) (h1 : -62135596800 ≤ sec + offset)
    (h2 : sec + offset ≤ 100000000000) (hn0 : 0 ≤ nsec) (hn1 : nsec < 1000000000) :
    gc2jd (localtime_fixed offset) ⟨sec, nsec⟩
      = some ((2440587.5 : α) + (((sec + offset : Int) : α) + (nsec : α) / 1000000000) / 86400) := by
  have hcal : CalendarDate ⟨1, 1, 1, 0, 0, 0, 0⟩ := by
    refine ⟨by decide, by decide, by decide, by decide, by decide⟩
  obtain ⟨i1, i2, i3⟩ := iterate_nextDay ⟨1, 1, 1, 0, 0, 0, 0⟩ hcal
    ((sec + offset) / 86400 + 719162).toNat
  have hj0 : julianDayNumber 1 1 1 = 1721426 := by decide
  simp only [hj0] at i2 i3
  obtain ⟨c1, c2, c3, c4, c5⟩ := i1
  have h31 := daysInMonth_le (civilOfDays ((sec + offset) / 86400)).year
    (civilOfDays ((sec + offset) / 86400)).month
  have hr0 : 0 ≤ (sec + offset) % 86400 := Int.emod_nonneg _ (by decide)
  have hr1 : (sec + offset) % 86400 < 86400 := Int.emod_lt_of_pos _ (by decide)
  have hk : 0 ≤ (sec + offset) / 86400 + 719162 := by omega
  have hk2 : (sec + offset) / 86400 + 719162 ≤ 2000000 := by omega
  have hc := @gc2jd_civil α _ _ (localtime_fixed offset) ⟨sec, nsec⟩
    { year := (civilOfDays ((sec + offset) / 86400)).year,
      month := (civilOfDays ((sec + offset) / 86400)).month,
      day := (civilOfDays ((sec + offset) / 86400)).day,
      hour := ((sec + offset) % 86400 / 3600).toNat,
      min := ((sec + offset) % 86400 / 60 % 60).toNat,
      sec := ((sec + offset) % 86400 % 60).toNat,
      nsec := nsec.toNat }
    c1 (by show (civilOfDays _).year ≤ 5800000; unfold civilOfDays; omega) c2 c3
    (by show (civilOfDays _).day ≤ 31; unfold civilOfDays; unfold civilOfDays at h31; omega)
    ⟨by show ((sec + offset) % 86400 / 3600).toNat < 24; omega,
      by show ((sec + offset) % 86400 / 60 % 60).toNat < 60; omega,
      by show ((sec + offset) % 86400 % 60).toNat < 60; omega,
      by show nsec.toNat < 1000000000; omega⟩
    (by
      show localtime_fixed offset sec = _
      simp only [localtime_fixed, Civil.tm]
      have a1 : (((sec + offset) % 86400 % 60).toNat : Int) = (sec + offset) % 86400 % 60 := by
        omega
      have a2 : (((sec + offset) % 86400 / 60 % 60).toNat : Int)
          = (sec + offset) % 86400 / 60 % 60 := by omega
      have a3 : (((sec + offset) % 86400 / 3600).toNat : Int)
          = (sec + offset) % 86400 / 3600 := by omega
      rw [a1, a2, a3])
    (by show nsec = ((nsec.toNat : Nat) : Int); omega)
  rw [hc]
  congr 1
  have hJ : julianDayNumber (civilOfDays ((sec + offset) / 86400)).year
      (civilOfDays ((sec + offset) / 86400)).month (civilOfDays ((sec + offset) / 86400)).day
      = ((sec + offset) / 86400 + 2440588).toNat := by
    unfold civilOfDays
    omega
  have hsum : ((((sec + offset) % 86400 / 3600).toNat * 3600
      + ((sec + offset) % 86400 / 60 % 60).toNat * 60
      + ((sec + offset) % 86400 % 60).toNat : Nat) : Int) = (sec + offset) % 86400 := by
    omega
  have hL : (sec + offset) = 86400 * ((sec + offset) / 86400) + (sec + offset) % 86400 :=
    (Int.ediv_add_emod _ _).symm
  have hJc : (((((sec + offset) / 86400 + 2440588).toNat : Nat) : Int))
      = (sec + offset) / 86400 + 2440588 := by omega
  have hnc : ((nsec.toNat : Nat) : Int) = nsec := by omega
  simp only [julianDay, dayFraction, hJ]
  have q1 : ((((sec + offset) / 86400 + 2440588).toNat : Nat) : α)
      = (((sec + offset) / 86400 : Int) : α) + 2440588 := by
    have := congrArg (Int.cast : Int → α) hJc
    push_cast at this
    simpa using this
  have q2 : ((((sec + offset) % 86400 / 3600).toNat : Nat) : α) * 3600
      + ((((sec + offset) % 86400 / 60 % 60).toNat : Nat) : α) * 60
      + ((((sec + offset) % 86400 % 60).toNat : Nat) : α)
      = (((sec + offset) % 86400 : Int) : α) := by
    have := congrArg (Int.cast : Int → α) hsum
    push_cast at this
    simpa using this
  have q3 : ((nsec.toNat : Nat) : α) = (nsec : α) :=
    (@Int.cast_natCast α _ nsec.toNat).symm.trans (congrArg (Int.cast : Int → α) hnc)
  have q4 : (((sec + offset : Int)) : α)
      = 86400 * (((sec + offset) / 86400 : Int) : α) + (((sec + offset) % 86400 : Int) : α) := by
    have := congrArg (Int.cast : Int → α) hL
    push_cast at this
    push_cast
    linarith
  rw [q1, q2, q3, q4]
  ring

theorem jst2utc_of_nonneg (s ns : Int) (h0 : 0 ≤ s) (h1 : s < 2147483648) :
    jst2utc ⟨s, ns⟩ = some ⟨s - 32400, ns⟩ := by
  simp only [jst2utc, kJstOffset, toLong, LONG_MIN, LONG_MAX, Nat.cast_ofNat,
    Option.bind_eq_bind]
  rw [if_pos ⟨by omega, by omega⟩]
  rfl

/-- C15, as amended: in exact arithmetic (the operations on `double` without
rounding), with `localtime_r` the proleptic Gregorian date and time of the
seconds plus a fixed local offset, the Julian Day that `main` derives from a
clock reading `(s, ns)` with `0 ≤ s < 2^31` and `0 ≤ ns < 10^9` is
`2440587.5 + (s + ns / 10^9) / 86400` when the offset is +32400 s, and for
another offset it differs from that value by `(offset - 32400) / 86400`. -/
theorem main_julian_day_of_clock {α : Type} [LinearOrderedField α] [FloorRing α]
    (s ns offset : Int) (hs0 : 0 ≤ s) (hs1 : s < 2147483648) (hn0 : 0 ≤ ns)
    (hn1 : ns < 1000000000) (ho0 : -86400 ≤ offset) (ho1 : offset ≤ 86400) :
    (jst2utc ⟨s, ns⟩).bind (gc2jd (localtime_fixed 32400))
        = some ((2440587.5 : α) + ((s : α) + (ns : α) / 1000000000) / 86400) ∧
      (jst2utc ⟨s, ns⟩).bind (gc2jd (localtime_fixed offset))
        = some ((2440587.5 : α) + ((s : α) + (ns : α) / 1000000000) / 86400
            + ((offset : α) - 32400) / 86400) := by
  rw [jst2utc_of_nonneg s ns hs0 hs1]
  simp only [Option.some_bind]
  rw [gc2jd_localtime_fixed 32400 (s - 32400) ns (by omega) (by omega) hn0 hn1,
    gc2jd_localtime_fixed offset (s - 32400) ns (by omega) (by omega) hn0 hn1]
  constructor
  · congr 1
    push_cast
    ring
  · congr 1
    push_cast
    ring

theorem main_julian_day_of_clock_witness :
    (jst2utc ⟨946728000, 0⟩).bind (gc2jd (localtime_fixed 32400)) = some (2451545 : ℚ) :=
  ((main_julian_day_of_clock 946728000 0 32400 (by decide) (by decide) (by decide)
    (by decide) (by decide) (by decide)).1).trans (by norm_num)

/-! ## The parts of the Julian Day -/

theorem timeOfDayPart_eq_nano {α : Type} [LinearOrderedField α] (c : Civil) :
    (timeOfDayPart c : α) = ((nanoOfDay c : Nat) : α) / 86400000000000 := by
  simp only [timeOfDayPart, nanoOfDay]
  push_cast
  ring

theorem nanoOfDay_lt (c : Civil) (h : ValidTime c) : nanoOfDay c < 86400000000000 := by
  obtain ⟨h1, h2, h3, h4⟩ := h
  unfold nanoOfDay
  omega

theorem timeOfDayPart_bounds {α : Type} [LinearOrderedField α] (c : Civil) (h : ValidTime c) :
    (0 : α) ≤ timeOfDayPart c ∧ (timeOfDayPart c : α) < 1 := by
  rw [timeOfDayPart_eq_nano]
  have hlt : ((nanoOfDay c : Nat) : α) < 86400000000000 := by
    have := nanoOfDay_lt c h
    exact_mod_cast this
  constructor
  · positivity
  · rw [div_lt_one (by norm_num)]
    exact hlt

/-- Valid timestamps on different dates have different reference Julian Days. -/
theorem julianDay_ne {α : Type} [LinearOrderedField α] (a b : Civil)
    (ha : ValidDate a) (hta : ValidTime a) (hb : ValidDate b) (htb : ValidTime b)
    (h : a.year ≠ b.year ∨ a.month ≠ b.month ∨ a.day ≠ b.day) :
    (julianDay a : α) ≠ julianDay b := by
  rw [julianDay_eq_nano, julianDay_eq_nano]
  obtain ⟨ha1, ha2, ha3, ha4, ha5, ha6⟩ := ha
  obtain ⟨hb1, hb2, hb3, hb4, hb5, hb6⟩ := hb
  have hna := nanoOfDay_lt a hta
  have hnb := nanoOfDay_lt b htb
  have hN : julianDayNumber a.year a.month a.day * 86400000000000 + nanoOfDay a
      ≠ julianDayNumber b.year b.month b.day * 86400000000000 + nanoOfDay b := by
    by_cases hab : a.year < b.year ∨ (a.year = b.year ∧ (a.month < b.month ∨
        (a.month = b.month ∧ a.day < b.day)))
    · have := julianDayNumber_lt a.year a.month a.day b.year b.month b.day ha1 ha3 ha4 ha6
        hb4 hb5 hab
      omega
    · have hba : b.year < a.year ∨ (b.year = a.year ∧ (b.month < a.month ∨
          (b.month = a.month ∧ b.day < a.day))) := by omega
      have := julianDayNumber_lt b.year b.month b.day a.year a.month a.day hb1 hb3 hb4 hb6
        ha4 ha5 hba
      omega
  intro heq
  have h2 : ((julianDayNumber a.year a.month a.day * 86400000000000 + nanoOfDay a : Nat) : α)
      = ((julianDayNumber b.year b.month b.day * 86400000000000 + nanoOfDay b : Nat) : α) := by
    have h3 := sub_left_injective heq
    exact (div_left_inj' (by norm_num : (86400000000000 : α) ≠ 0)).mp h3
  exact hN (Nat.cast_injective h2)

/-- `gc2jd` on a valid civil timestamp is the part for the date plus the part
for the time of day. -/
theorem gc2jd_parts {α : Type} [LinearOrderedField α] [FloorRing α]
    (lt : Int → Tm) (ts : Timespec) (c : Civil) (hd : ValidDate c) (ht : ValidTime c)
    (hlt : lt ts.tv_sec = c.tm) (hns : ts.tv_nsec = (c.nsec : Int)) :
    gc2jd lt ts = some ((datePart c : α) + timeOfDayPart c) := by
  obtain ⟨h1, h2, h3, h4, h5, h6⟩ := hd
  obtain ⟨hh, hmi, hs, hn⟩ := ht
  have h31 := daysInMonth_le c.year c.month
  have h := @gc2jd_of_bounds α _ _ lt ts c.year c.month c.day
    (by rw [hlt]; rfl) (by rw [hlt]; rfl) (by rw [hlt]; rfl) (Or.inr h1) (by omega) (by omega)
    (by omega)
  rw [h, hlt, hns]
  simp only [Civil.tm]
  rw [toUInt_natCast (by omega), toUInt_natCast (by omega), toUInt_natCast (by omega)]
  congr 1
  simp only [datePart, timeOfDayPart]
  push_cast
  ring

/-- C16, as amended: in exact arithmetic (the operations on `double` without
rounding), for a valid time of day the part that `gc2jd` adds for it lies in
`[0, 1)`; hence on a valid civil timestamp `gc2jd` lies in `[D, D + 1)`, `D`
being its part for the date, and valid timestamps on different dates never
get the same Julian Day. -/
theorem gc2jd_day_interval {α : Type} [LinearOrderedField α] [FloorRing α]
    (lt : Int → Tm) (tsa tsb : Timespec) (a b : Civil)
    (hda : ValidDate a) (hta : ValidTime a) (hdb : ValidDate b) (htb : ValidTime b)
    (hlta : lt tsa.tv_sec = a.tm) (hltb : lt tsb.tv_sec = b.tm)
    (hnsa : tsa.tv_nsec = (a.nsec : Int)) (hnsb : tsb.tv_nsec = (b.nsec : Int)) :
    ((0 : α) ≤ timeOfDayPart a ∧ (timeOfDayPart a : α) < 1) ∧
      (∃ x : α, gc2jd lt tsa = some x ∧ x = datePart a + timeOfDayPart a ∧
        datePart a ≤ x ∧ x < datePart a + 1) ∧
      ((a.year ≠ b.year ∨ a.month ≠ b.month ∨ a.day ≠ b.day) →
        (gc2jd lt tsa : Option α) ≠ gc2jd lt tsb) := by
  obtain ⟨t0, t1⟩ := @timeOfDayPart_bounds α _ a hta
  refine ⟨⟨t0, t1⟩, ⟨_, gc2jd_parts lt tsa a hda hta hlta hnsa, rfl, by linarith, by linarith⟩,
    fun hne => ?_⟩
  have h31a := daysInMonth_le a.year a.month
  have h31b := daysInMonth_le b.year b.month
  have ga : gc2jd lt tsa = some (julianDay a : α) := by
    obtain ⟨h1, h2, h3, h4, _, h6⟩ := hda
    exact gc2jd_civil lt tsa a h1 (by omega) h3 h4 (by omega) hta hlta hnsa
  have gb : gc2jd lt tsb = some (julianDay b : α) := by
    obtain ⟨h1, h2, h3, h4, _, h6⟩ := hdb
    exact gc2jd_civil lt tsb b h1 (by omega) h3 h4 (by omega) htb hltb hnsb
  rw [ga, gb]
  intro heq
  exact julianDay_ne a b hda hta hdb htb hne (Option.some.inj heq)

theorem gc2jd_day_interval_witness :
    ((0 : ℚ) ≤ timeOfDayPart ⟨1999, 12, 31, 23, 59, 59, 999999999⟩ ∧
        (timeOfDayPart ⟨1999, 12, 31, 23, 59, 59, 999999999⟩ : ℚ) < 1) ∧
      (∃ x : ℚ,
        gc2jd (fun s => if s = 0 then Civil.tm ⟨1999, 12, 31, 23, 59, 59, 999999999⟩
          else Civil.tm ⟨2000, 1, 1, 0, 0, 0, 0⟩) ⟨0, 999999999⟩ = some x ∧
        x = datePart ⟨1999, 12, 31, 23, 59, 59, 999999999⟩
          + timeOfDayPart ⟨1999, 12, 31, 23, 59, 59, 999999999⟩ ∧
        datePart ⟨1999, 12, 31, 23, 59, 59, 999999999⟩ ≤ x ∧
        x < datePart ⟨1999, 12, 31, 23, 59, 59, 999999999⟩ + 1) ∧
      (gc2jd (fun s => if s = 0 then Civil.tm ⟨1999, 12, 31, 23, 59, 59, 999999999⟩
          else Civil.tm ⟨2000, 1, 1, 0, 0, 0, 0⟩) ⟨0, 999999999⟩ : Option ℚ)
        ≠ gc2jd (fun s => if s = 0 then Civil.tm ⟨1999, 12, 31, 23, 59, 59, 999999999⟩
          else Civil.tm ⟨2000, 1, 1, 0, 0, 0, 0⟩) ⟨1, 0⟩ :=
  have h := gc2jd_day_interval
    (fun s => if s = 0 then Civil.tm ⟨1999, 12, 31, 23, 59, 59, 999999999⟩
      else Civil.tm ⟨2000, 1, 1, 0, 0, 0, 0⟩) ⟨0, 999999999⟩ ⟨1, 0⟩
    ⟨1999, 12, 31, 23, 59, 59, 999999999⟩ ⟨2000, 1, 1, 0, 0, 0, 0⟩
    (by decide) (by decide) (by decide) (by decide) rfl rfl rfl rfl
  ⟨h.1, h.2.1, h.2.2 (Or.inl (by decide))⟩

/-! ## Distance: scaling -/

theorem calc_dist_smul (s : ℝ) (v : Fin 3 → ℝ) :
    calc_dist Real.sqrt (fun i => s * v i) = |s| * calc_dist Real.sqrt v := by
  rw [calc_dist_eq_sum, calc_dist_eq_sum]
  have h : ∑ i, s * v i * (s * v i) = s ^ 2 * ∑ i, v i * v i := by
    rw [Finset.mul_sum]
    exact Finset.sum_congr rfl (fun i _ => by ring)
  rw [h, Real.sqrt_mul (sq_nonneg s), Real.sqrt_sq_eq_abs]

/-- C17, as amended: in exact arithmetic (over the real numbers, with the real
square root) `calc_dist` is absolutely homogeneous, `calc_dist (s * v) = |s| *
calc_dist v` for every real `s` and every vector `v`; hence for a factor
`au ≥ 0` the figure `calc_dist v * au` is `calc_dist (au * v)`, which is the
Euclidean norm of the vector `au * v`, and on a run of `main` whose ephemeris
answers with the position `v` and the factor `au` the last line printed, the
km line, shows that norm. -/
theorem calc_dist_homogeneous {σ : Type} (env : Env ℝ σ) (argv : List String) (t c : Nat)
    (o1 o2 o3 : σ) (s : ℝ) (v : Fin 3 → ℝ) (au : ℝ) (hau : 0 ≤ au)
    (hsqrt : env.sqrt = Real.sqrt) (hpos : env.pos o3 = v) (hfac : env.au o3 = au)
    (hargc : 4 ≤ argv.length)
    (ht : env.atoi (argv.getD 1 "") = (t : Int)) (hc : env.atoi (argv.getD 2 "") = (c : Int))
    (ht1 : 1 ≤ t) (ht2 : t ≤ 13) (hc1 : 1 ≤ c) (hc2 : c ≤ 13)
    (h1 : env.jpl_new (env.atof (argv.getD 3 "")) kFlgKm kFlgBary = some o1)
    (h2 : env.read_bin o1 = some o2) (h3 : env.calc_pv o2 t c = some o3) :
    calc_dist Real.sqrt (fun i => s * v i) = |s| * calc_dist Real.sqrt v ∧
      calc_dist Real.sqrt v * au = calc_dist Real.sqrt (fun i => au * v i) ∧
      calc_dist Real.sqrt v * au
        = ‖(WithLp.equiv 2 (Fin 3 → ℝ)).symm (fun i => au * v i)‖ ∧
      (main env argv).events.getLast?
        = some (Event.cout ("= "
            ++ fixed8 ‖(WithLp.equiv 2 (Fin 3 → ℝ)).symm (fun i => au * v i)‖ ++ " "
            ++ kKm)) := by
  have hk : calc_dist Real.sqrt v * au = calc_dist Real.sqrt (fun i => au * v i) := by
    rw [calc_dist_smul au v, abs_of_nonneg hau, mul_comm]
  have hn : calc_dist Real.sqrt v * au
      = ‖(WithLp.equiv 2 (Fin 3 → ℝ)).symm (fun i => au * v i)‖ := by
    rw [hk, calc_dist_eq_sum, EuclideanSpace.norm_eq]
    congr 1
    refine Finset.sum_congr rfl (fun i _ => ?_)
    rw [WithLp.equiv_symm_pi_apply, Real.norm_eq_abs, sq_abs]
    ring
  refine ⟨calc_dist_smul s v, hk, hn, ?_⟩
  have e1 : ¬ ((argv.length : Int) < 3) := by omega
  have e2 : (argv.length : Int) > 3 := by omega
  have e3 : ¬ (t < 1 ∨ t > 15) := by omega
  have e4 : ¬ (c < 0 ∨ c > 13) := by omega
  unfold main
  simp only [ht, hc, toUInt_natCast (by omega : t < 4294967296),
    toUInt_natCast (by omega : c < 4294967296), e1, e2, e3, e4, if_true, if_false]
  rw [main_report_success env t c _ [] o1 o2 o3 ht1 ht2 hc1 hc2 h1 h2 h3, hsqrt, hpos, hfac, hn]
  rfl

theorem calc_dist_homogeneous_witness :
    calc_dist Real.sqrt (fun i => (-2 : ℝ) * ![3, 4, 0] i)
        = |(-2 : ℝ)| * calc_dist Real.sqrt ![3, 4, 0] ∧
      calc_dist Real.sqrt ![3, 4, 0] * (149597870.7 : ℝ)
        = calc_dist Real.sqrt (fun i => (149597870.7 : ℝ) * ![3, 4, 0] i) ∧
      calc_dist Real.sqrt ![3, 4, 0] * (149597870.7 : ℝ)
        = ‖(WithLp.equiv 2 (Fin 3 → ℝ)).symm (fun i => (149597870.7 : ℝ) * ![3, 4, 0] i)‖ ∧
      (main ({ atoi := stubAtoi, atof := fun _ => 2451545,
               timespec_get := stubEnv.timespec_get, localtime_r := stubEnv.localtime_r,
               sqrt := Real.sqrt, jpl_new := fun _ _ _ => some (), read_bin := fun _ => some (),
               calc_pv := fun _ _ _ => some (), pos := fun _ => ![3, 4, 0],
               au := fun _ => 149597870.7 } : Env ℝ Unit)
          ["dist_jpl", "3", "11", "2451545.0"]).events.getLast?
        = some (Event.cout ("= "
            ++ fixed8 ‖(WithLp.equiv 2 (Fin 3 → ℝ)).symm
                (fun i => (149597870.7 : ℝ) * ![3, 4, 0] i)‖ ++ " " ++ kKm)) :=
  calc_dist_homogeneous _ ["dist_jpl", "3", "11", "2451545.0"] 3 11 () () () (-2) ![3, 4, 0]
    149597870.7 (by norm_num) rfl rfl rfl (by decide) (by decide) (by decide) (by decide)
    (by decide) (by decide) (by decide) rfl rfl rfl

/-! ## The steps of `gc2jd` -/

/-- The function `gc2jd` is the sequence of its steps, written with the
adjusted year, the adjusted month and the month term. -/
theorem gc2jd_steps {α : Type} [LinearOrderedField α] [FloorRing α]
    (lt : Int → Tm) (ts : Timespec) :
    (gc2jd lt ts : Option α)
      = (toInt ((lt ts.tv_sec).tm_year + 1900)).bind fun y =>
          (toInt ((lt ts.tv_sec).tm_mon + 1)).bind fun m =>
            (castInt ((365.25 : α) * (gc2jd.adjust_year (toUInt y) (toUInt m) : α))).bind fun a =>
              (castInt ((gc2jd.adjust_year (toUInt y) (toUInt m) : α) / 400.0)).bind fun b =>
                (castInt ((gc2jd.adjust_year (toUInt y) (toUInt m) : α) / 100.0)).bind fun c =>
                  (gc2jd.month_term α (gc2jd.adjust_month (toUInt m))).bind fun e =>
                    (toInt (a + b)).bind fun s1 =>
                      (toInt (s1 - c)).bind fun s2 =>
                        (toInt (s2 + e)).bind fun s3 =>
                          some (((toUInt (s3 + (toUInt (lt ts.tv_sec).tm_mday : Int)) : Nat) : α)
                            + 1721088.5
                            + ((toUInt (lt ts.tv_sec).tm_sec : α) / 3600.0
                                + (toUInt (lt ts.tv_sec).tm_min : α) / 60.0
                                + (toUInt (lt ts.tv_sec).tm_hour : α)) / 24.0
                            + (ts.tv_nsec : α) / 1000000000.0 / 3600.0 / 24.0) :=
  rfl

/-- C18: for a month from 1 to 12 and a year of at least 1, after the
adjustment of January and February in `gc2jd` the month is from 3 to 14 and
the year is the year or the year before, so that neither the unsigned
`--year` nor `month += 12` nor `month - 2` (then from 1 to 12) wraps around;
and `static_cast<int>(30.59 * (month - 2))` is 30, 61, 91, 122, 152, 183, 214,
244, 275, 305, 336, 367 for the adjusted months 3 to 14. -/
theorem gc2jd_adjust_no_wrap (α : Type) [LinearOrderedField α] [FloorRing α]
    (year month : Nat) (hy1 : 1 ≤ year) (hy2 : year < 4294967296) (hm1 : 1 ≤ month)
    (hm2 : month ≤ 12) :
    (3 ≤ gc2jd.adjust_month month ∧ gc2jd.adjust_month month ≤ 14) ∧
      (gc2jd.adjust_month month : Int) = (if month < 3 then (month : Int) + 12 else month) ∧
      (gc2jd.adjust_year year month : Int) = (if month < 3 then (year : Int) - 1 else year) ∧
      ((toUInt ((gc2jd.adjust_month month : Int) - 2) : Nat) : Int)
        = (gc2jd.adjust_month month : Int) - 2 ∧
      (1 ≤ toUInt ((gc2jd.adjust_month month : Int) - 2) ∧
        toUInt ((gc2jd.adjust_month month : Int) - 2) ≤ 12) ∧
      ∀ M : Nat, 3 ≤ M → M ≤ 14 →
        gc2jd.month_term α M
          = ([30, 61, 91, 122, 152, 183, 214, 244, 275, 305, 336, 367] : List Int)[M - 3]? := by
  have hM : gc2jd.adjust_month month = if month < 3 then month + 12 else month := by
    unfold gc2jd.adjust_month toUInt
    split_ifs <;> omega
  have hY : (gc2jd.adjust_year year month : Int) = if month < 3 then (year : Int) - 1 else year := by
    unfold gc2jd.adjust_year toUInt
    split_ifs <;> omega
  refine ⟨?_, ?_, hY, ?_, ?_, ?_⟩
  · rw [hM]; split_ifs <;> omega
  · rw [hM]; split_ifs <;> simp
  · rw [hM]; unfold toUInt; split_ifs <;> omega
  · rw [hM]; unfold toUInt; split_ifs <;> omega
  · intro M h3 h14
    unfold gc2jd.month_term
    have e : toUInt ((M : Int) - 2) = M - 2 := by unfold toUInt; omega
    rw [e, castInt_month_days]
    interval_cases M <;> rfl

theorem gc2jd_adjust_no_wrap_witness :
    gc2jd.adjust_month 1 = 13 ∧ gc2jd.adjust_year 2000 1 = 1999 ∧
      gc2jd.month_term ℚ 13 = some 336 := by
  obtain ⟨_, h2, h3, _, _, h6⟩ := gc2jd_adjust_no_wrap ℚ 2000 1 (by decide) (by decide)
    (by decide) (by decide)
  refine ⟨?_, ?_, (h6 13 (by decide) (by decide)).trans rfl⟩
  · exact_mod_cast h2
  · have : ((gc2jd.adjust_year 2000 1 : Nat) : Int) = 1999 := h3.trans (by decide)
    exact_mod_cast this

/-! ## Binary64 arithmetic: rounding -/

theorem roundEven_of_near (q : ℚ) (m : Int) (h1 : (m : ℚ) - 1 / 2 < q)
    (h2 : q < (m : ℚ) + 1 / 2) : roundEven q = m := by
  unfold roundEven
  by_cases hm : (m : ℚ) ≤ q
  · have hf : ⌊q⌋ = m := Int.floor_eq_iff.mpr ⟨hm, by linarith⟩
    rw [hf, if_pos (by linarith)]
  · have hf : ⌊q⌋ = m - 1 := Int.floor_eq_iff.mpr ⟨by push_cast; linarith, by push_cast; linarith⟩
    rw [hf]
    push_cast
    rw [if_neg (by linarith), if_pos (by linarith)]
    ring

theorem roundBinary64_zero : roundBinary64 0 = 0 := by
  simp [roundBinary64, roundEven]

/-- The binary64 rounding of a positive number `q` in the binade
`[2^(k+52), 2^(k+53))` that is nearer than half a unit to `m * 2^k`. -/
theorem roundBinary64_of_near (q : ℚ) (k m : Int) (hk : -1074 ≤ k)
    (h1 : (2 : ℚ) ^ (k + 52) ≤ q) (h2 : q < (2 : ℚ) ^ (k + 53))
    (h3 : ((m : ℚ) - 1 / 2) * 2 ^ k < q) (h4 : q < ((m : ℚ) + 1 / 2) * 2 ^ k) :
    roundBinary64 q = (m : ℚ) * 2 ^ k := by
  have hpos : (0 : ℚ) < q := lt_of_lt_of_le (zpow_pos (by norm_num) _) h1
  have h2k : (0 : ℚ) < 2 ^ k := zpow_pos (by norm_num) _
  have hlog : Int.log 2 |q| = k + 52 := by
    rw [abs_of_pos hpos]
    have a : k + 52 ≤ Int.log 2 q :=
      (Int.zpow_le_iff_le_log (by norm_num) hpos).mp (by exact_mod_cast h1)
    have b : Int.log 2 q < k + 53 :=
      (Int.lt_zpow_iff_log_lt (by norm_num) hpos).mp (by exact_mod_cast h2)
    omega
  have hu : ulpExp q = k := by
    unfold ulpExp
    rw [hlog]
    omega
  unfold roundBinary64
  rw [hu, roundEven_of_near (q / 2 ^ k) m (by rw [lt_div_iff₀ h2k]; exact h3)
    (by rw [div_lt_iff₀ h2k]; exact h4)]

/-- Without rounding, `gc2jd_rounded` is `gc2jd`. -/
theorem gc2jd_rounded_id {α : Type} [LinearOrderedField α] [FloorRing α]
    (lt : Int → Tm) (ts : Timespec) : gc2jd_rounded id lt ts = (gc2jd lt ts : Option α) :=
  rfl

/-- The result of `gc2jd_rounded` on the fields of a civil timestamp, from the
values of its four casts to `int`. -/
theorem gc2jd_rounded_eval {α : Type} [LinearOrderedField α] [FloorRing α] (rnd : α → α)
    (lt : Int → Tm) (ts : Timespec) (c : Civil)
    (hy : 1 ≤ c.year) (hy2 : c.year ≤ 5800000) (hm1 : 1 ≤ c.month) (hm : c.month ≤ 12)
    (hd : c.day ≤ 31) (ht : ValidTime c)
    (hlt : lt ts.tv_sec = c.tm) (hns : ts.tv_nsec = (c.nsec : Int))
    (Y K : Nat) (hY : Y = if c.month < 3 then c.year - 1 else c.year)
    (hK : K = if c.month < 3 then c.month + 10 else c.month - 2)
    (a b d e : Int) (ha : castInt (rnd ((365.25 : α) * (Y : α))) = some a)
    (hb : castInt (rnd ((Y : α) / 400.0)) = some b)
    (hc : castInt (rnd ((Y : α) / 100.0)) = some d)
    (he : castInt (rnd (rnd (30.59 : α) * (K : α))) = some e)
    (s : Nat) (hs : a + b - d + e + (c.day : Int) = (s : Int)) (hs2 : s < 4294967296)
    (hr1 : -2147483648 ≤ a + b ∧ a + b ≤ 2147483647)
    (hr2 : -2147483648 ≤ a + b - d ∧ a + b - d ≤ 2147483647)
    (hr3 : -2147483648 ≤ a + b - d + e ∧ a + b - d + e ≤ 2147483647) :
    gc2jd_rounded rnd lt ts
      = some (rnd (rnd (rnd ((s : α) + 1721088.5)
          + rnd (rnd (rnd (rnd ((c.sec : α) / 3600.0) + rnd ((c.min : α) / 60.0))
              + (c.hour : α)) / 24.0))
          + rnd (rnd (rnd (rnd (((c.nsec : Int)) : α) / 1000000000.0) / 3600.0) / 24.0))) := by
  obtain ⟨hh, hmi, hse, hn⟩ := ht
  unfold gc2jd_rounded
  rw [hlt, hns]
  simp only [Civil.tm]
  have e1 : (c.year : Int) - 1900 + 1900 = c.year := by ring
  have e2 : (c.month : Int) - 1 + 1 = c.month := by ring
  rw [e1, e2, toInt_of_mem (by omega) (by omega), toInt_of_mem (by omega) (by omega)]
  simp only [Option.bind_eq_bind, Option.some_bind, Option.pure_def]
  rw [toUInt_natCast (by omega : c.year < 4294967296),
    toUInt_natCast (by omega : c.month < 4294967296),
    toUInt_natCast (by omega : c.day < 4294967296),
    toUInt_natCast (by omega : c.hour < 4294967296),
    toUInt_natCast (by omega : c.min < 4294967296),
    toUInt_natCast (by omega : c.sec < 4294967296)]
  have eY : (if c.month < 3 then toUInt ((c.year : Int) - 1) else c.year) = Y := by
    rw [hY]
    split_ifs
    · unfold toUInt; omega
    · rfl
  have eK : toUInt (((if c.month < 3 then toUInt ((c.month : Int) + 12) else c.month : Nat) : Int)
      - 2) = K := by
    rw [hK]
    split_ifs <;> unfold toUInt <;> omega
  rw [eY, eK, ha, hb, hc, he]
  simp only [Option.some_bind]
  rw [toInt_of_mem hr1.1 hr1.2]
  simp only [Option.some_bind]
  rw [toInt_of_mem hr2.1 hr2.2]
  simp only [Option.some_bind]
  rw [toInt_of_mem hr3.1 hr3.2]
  simp only [Option.some_bind]
  rw [hs, toUInt_natCast hs2]

theorem roundEven_of_tie (q : ℚ) (m : Int) (hm : m % 2 = 0)
    (h : q = (m : ℚ) + 1 / 2 ∨ q = (m : ℚ) - 1 / 2) : roundEven q = m := by
  unfold roundEven
  rcases h with h | h
  · have hf : ⌊q⌋ = m := Int.floor_eq_iff.mpr ⟨by linarith, by linarith⟩
    rw [hf, if_neg (by linarith), if_neg (by linarith), if_pos hm]
  · have hf : ⌊q⌋ = m - 1 :=
      Int.floor_eq_iff.mpr ⟨by push_cast; linarith, by push_cast; linarith⟩
    have hodd : ¬ (m - 1) % 2 = 0 := by omega
    rw [hf, if_neg (by push_cast; linarith), if_neg (by push_cast; linarith), if_neg hodd]
    ring

/-- The binary64 rounding of a positive number `q` in the binade
`[2^(k+52), 2^(k+53))` that is half way between two multiples of `2^k`: the
one with the even factor `m`. -/
theorem roundBinary64_of_tie (q : ℚ) (k m : Int) (hk : -1074 ≤ k)
    (h1 : (2 : ℚ) ^ (k + 52) ≤ q) (h2 : q < (2 : ℚ) ^ (k + 53)) (hm : m % 2 = 0)
    (h : q = ((m : ℚ) + 1 / 2) * 2 ^ k ∨ q = ((m : ℚ) - 1 / 2) * 2 ^ k) :
    roundBinary64 q = (m : ℚ) * 2 ^ k := by
  have hpos : (0 : ℚ) < q := lt_of_lt_of_le (zpow_pos (by norm_num) _) h1
  have h2k : (0 : ℚ) < 2 ^ k := zpow_pos (by norm_num) _
  have hlog : Int.log 2 |q| = k + 52 := by
    rw [abs_of_pos hpos]
    have a : k + 52 ≤ Int.log 2 q :=
      (Int.zpow_le_iff_le_log (by norm_num) hpos).mp (by exact_mod_cast h1)
    have b : Int.log 2 q < k + 53 :=
      (Int.lt_zpow_iff_log_lt (by norm_num) hpos).mp (by exact_mod_cast h2)
    omega
  have hu : ulpExp q = k := by
    unfold ulpExp
    rw [hlog]
    omega
  unfold roundBinary64
  rw [hu, roundEven_of_tie (q / 2 ^ k) m hm (by
    rcases h with h | h
    · left
      rw [div_eq_iff (ne_of_gt h2k)]
      exact h
    · right
      rw [div_eq_iff (ne_of_gt h2k)]
      exact h)]

theorem Binary64.zero_val : (0 : Binary64).val = 0 := rfl

theorem Binary64.add_val (a b : Binary64) : (a + b).val = roundBinary64 (a.val + b.val) := rfl

theorem Binary64.mul_val (a b : Binary64) : (a * b).val = roundBinary64 (a.val * b.val) := rfl

theorem Binary64.sqrt_val (a : Binary64) : a.sqrt.val = sqrtBinary64 a.val := rfl

theorem sqrtBinary64_eval (x : ℚ) (k : Int) (N s : Nat)
    (hx1 : (2 : ℚ) ^ (2 * k + 104) ≤ x) (hx2 : x < (2 : ℚ) ^ (2 * k + 106))
    (hN1 : (N : ℚ) ≤ 4 * x / 2 ^ (2 * k)) (hN2 : 4 * x / 2 ^ (2 * k) < (N : ℚ) + 1)
    (hs1 : s * s ≤ N) (hs2 : N < (s + 1) * (s + 1)) :
    sqrtBinary64 x = (((s + 1) / 2 : Nat) : ℚ) * 2 ^ k := by
  have hpos : (0 : ℚ) < x := lt_of_lt_of_le (by positivity) hx1
  have hl1 : 2 * k + 104 ≤ Int.log 2 x :=
    (Int.zpow_le_iff_le_log (by norm_num) hpos).1 (by exact_mod_cast hx1)
  have hl2 : Int.log 2 x < 2 * k + 106 :=
    (Int.lt_zpow_iff_log_lt (by norm_num) hpos).1 (by exact_mod_cast hx2)
  have hk : Int.log 2 x / 2 - 52 = k := by omega
  have hfl : ⌊4 * x / 2 ^ (2 * k)⌋₊ = N := by
    rw [Nat.floor_eq_iff (le_trans (Nat.cast_nonneg N) hN1)]
    exact ⟨hN1, hN2⟩
  have hsq : Nat.sqrt N = s := (Nat.eq_sqrt.2 ⟨hs1, hs2⟩).symm
  unfold sqrtBinary64
  rw [if_neg (not_le.2 hpos)]
  simp only [hk, hfl, hsq]

theorem Binary64.ofRat_val (q : ℚ) : (Binary64.ofRat q).val = roundBinary64 q := rfl

/-! ## Binary64 arithmetic: the values of the program at some inputs -/

theorem roundBinary64_step0 :
    roundBinary64 ((2920539 : ℚ) / 4) = ((2920539 : ℚ) / 4) := by
  rw [roundBinary64_of_near ((2920539 : ℚ) / 4) (-33) 6271809745846272
    (by norm_num) (by norm_num) (by norm_num) (by norm_num) (by norm_num)]
  norm_num

theorem roundBinary64_step1 :
    roundBinary64 ((1999 : ℚ) / 400) = ((5626684784446013 : ℚ) / 1125899906842624) := by
  rw [roundBinary64_of_near ((1999 : ℚ) / 400) (-50) 5626684784446013
    (by norm_num) (by norm_num) (by norm_num) (by norm_num) (by norm_num)]
  norm_num

theorem roundBinary64_step2 :
    roundBinary64 ((1999 : ℚ) / 100) = ((5626684784446013 : ℚ) / 281474976710656) := by
  rw [roundBinary64_of_near ((1999 : ℚ) / 100) (-48) 5626684784446013
    (by norm_num) (by norm_num) (by norm_num) (by norm_num) (by norm_num)]
  norm_num

theorem roundBinary64_step3 :
    roundBinary64 ((3059 : ℚ) / 100) = ((8610319537578967 : ℚ) / 281474976710656) := by
  rw [roundBinary64_of_near ((3059 : ℚ) / 100) (-48) 8610319537578967
    (by norm_num) (by norm_num) (by norm_num) (by norm_num) (by norm_num)]
  norm_num

theorem roundBinary64_step4 :
    roundBinary64 ((94713514913368637 : ℚ) / 281474976710656) = ((1479898670521385 : ℚ) /
        4398046511104) := by
  rw [roundBinary64_of_near ((94713514913368637 : ℚ) / 281474976710656) (-44) 5919594682085540
    (by norm_num) (by norm_num) (by norm_num) (by norm_num) (by norm_num)]
  norm_num

theorem roundBinary64_step5 :
    roundBinary64 ((4903089 : ℚ) / 2) = ((4903089 : ℚ) / 2) := by
  rw [roundBinary64_of_near ((4903089 : ℚ) / 2) (-31) 5264651726094336
    (by norm_num) (by norm_num) (by norm_num) (by norm_num) (by norm_num)]
  norm_num

theorem roundBinary64_step6 :
    roundBinary64 ((1 : ℚ) / 900) = ((5124095576030431 : ℚ) / 4611686018427387904) := by
  rw [roundBinary64_of_near ((1 : ℚ) / 900) (-62) 5124095576030431
    (by norm_num) (by norm_num) (by norm_num) (by norm_num) (by norm_num)]
  norm_num

theorem roundBinary64_step7 :
    roundBinary64 ((5124095576030431 : ℚ) / 4611686018427387904) = ((5124095576030431 : ℚ) /
        4611686018427387904) := by
  rw [roundBinary64_of_near ((5124095576030431 : ℚ) / 4611686018427387904) (-62) 5124095576030431
    (by norm_num) (by norm_num) (by norm_num) (by norm_num) (by norm_num)]
  norm_num

theorem roundBinary64_step8 :
    roundBinary64 ((5124095576030431 : ℚ) / 110680464442257309696) = ((6832127434707241 : ℚ) /
        147573952589676412928) := by
  rw [roundBinary64_of_near ((5124095576030431 : ℚ) / 110680464442257309696) (-67) 6832127434707241
    (by norm_num) (by norm_num) (by norm_num) (by norm_num) (by norm_num)]
  norm_num

theorem roundBinary64_step9 :
    roundBinary64 ((361784111821314094328074537 : ℚ) / 147573952589676412928) =
        ((5264651726193757 : ℚ) / 2147483648) := by
  rw [roundBinary64_of_near ((361784111821314094328074537 : ℚ) / 147573952589676412928) (-31)
      5264651726193757
    (by norm_num) (by norm_num) (by norm_num) (by norm_num) (by norm_num)]
  norm_num

theorem roundBinary64_step10 :
    roundBinary64 (500000000 : ℚ) = (500000000 : ℚ) := by
  rw [roundBinary64_of_near (500000000 : ℚ) (-24) 8388608000000000
    (by norm_num) (by norm_num) (by norm_num) (by norm_num) (by norm_num)]
  norm_num

theorem roundBinary64_step11 :
    roundBinary64 ((1 : ℚ) / 2) = ((1 : ℚ) / 2) := by
  rw [roundBinary64_of_near ((1 : ℚ) / 2) (-53) 4503599627370496
    (by norm_num) (by norm_num) (by norm_num) (by norm_num) (by norm_num)]
  norm_num

theorem roundBinary64_step12 :
    roundBinary64 ((1 : ℚ) / 7200) = ((5124095576030431 : ℚ) / 36893488147419103232) := by
  rw [roundBinary64_of_near ((1 : ℚ) / 7200) (-65) 5124095576030431
    (by norm_num) (by norm_num) (by norm_num) (by norm_num) (by norm_num)]
  norm_num

theorem roundBinary64_step13 :
    roundBinary64 ((5124095576030431 : ℚ) / 885443715538058477568) = ((6832127434707241 : ℚ) /
        1180591620717411303424) := by
  rw [roundBinary64_of_near ((5124095576030431 : ℚ) / 885443715538058477568) (-70) 6832127434707241
    (by norm_num) (by norm_num) (by norm_num) (by norm_num) (by norm_num)]
  norm_num

theorem roundBinary64_step14 :
    roundBinary64 ((2894272894577345135354204457 : ℚ) / 1180591620717411303424) =
        ((5264651726206185 : ℚ) / 2147483648) := by
  rw [roundBinary64_of_near ((2894272894577345135354204457 : ℚ) / 1180591620717411303424) (-31)
      5264651726206185
    (by norm_num) (by norm_num) (by norm_num) (by norm_num) (by norm_num)]
  norm_num

theorem castInt_step0 : castInt ((2920539 : ℚ) / 4) = some 730134 := by
  have h := @castInt_natCast_div ℚ _ _ 2920539 4
  simp only [Nat.cast_ofNat] at h
  rw [h]
  rfl

theorem castInt_step1 : castInt ((5626684784446013 : ℚ) / 1125899906842624) = some 4 := by
  have h := @castInt_natCast_div ℚ _ _ 5626684784446013 1125899906842624
  simp only [Nat.cast_ofNat] at h
  rw [h]
  rfl

theorem castInt_step2 : castInt ((5626684784446013 : ℚ) / 281474976710656) = some 19 := by
  have h := @castInt_natCast_div ℚ _ _ 5626684784446013 281474976710656
  simp only [Nat.cast_ofNat] at h
  rw [h]
  rfl

theorem castInt_step3 : castInt ((1479898670521385 : ℚ) / 4398046511104) = some 336 := by
  have h := @castInt_natCast_div ℚ _ _ 1479898670521385 4398046511104
  simp only [Nat.cast_ofNat] at h
  rw [h]
  rfl

/-- The binary64 value of `gc2jd` at 2000-01-01 00:00:04.5. -/
theorem gc2jd_binary64_2000_01_01_a (lt : Int → Tm) (ts : Timespec)
    (hlt : lt ts.tv_sec = Civil.tm ⟨2000, 1, 1, 0, 0, 4, 500000000⟩)
    (hns : ts.tv_nsec = (((⟨2000, 1, 1, 0, 0, 4, 500000000⟩ : Civil).nsec : Nat) : Int)) :
    gc2jd_binary64 lt ts = some ((5264651726206185 : ℚ) / 2147483648) := by
  have ha : castInt (roundBinary64 ((365.25 : ℚ) * ((1999 : Nat) : ℚ))) = some 730134 := by
    norm_num [roundBinary64_step0, roundBinary64_step1, roundBinary64_step2, roundBinary64_step3,
        roundBinary64_step4, castInt_step0, castInt_step1, castInt_step2, castInt_step3]
  have hb : castInt (roundBinary64 (((1999 : Nat) : ℚ) / 400.0)) = some 4 := by
    norm_num [roundBinary64_step0, roundBinary64_step1, roundBinary64_step2, roundBinary64_step3,
        roundBinary64_step4, castInt_step0, castInt_step1, castInt_step2, castInt_step3]
  have hc : castInt (roundBinary64 (((1999 : Nat) : ℚ) / 100.0)) = some 19 := by
    norm_num [roundBinary64_step0, roundBinary64_step1, roundBinary64_step2, roundBinary64_step3,
        roundBinary64_step4, castInt_step0, castInt_step1, castInt_step2, castInt_step3]
  have he : castInt (roundBinary64 (roundBinary64 (30.59 : ℚ) * ((11 : Nat) : ℚ)))
      = some 336 := by
    norm_num [roundBinary64_step0, roundBinary64_step1, roundBinary64_step2, roundBinary64_step3,
        roundBinary64_step4, castInt_step0, castInt_step1, castInt_step2, castInt_step3]
  unfold gc2jd_binary64
  rw [gc2jd_rounded_eval roundBinary64 lt ts ⟨2000, 1, 1, 0, 0, 4, 500000000⟩
    (by decide) (by decide) (by decide) (by decide) (by decide) (by decide) hlt hns 1999 11
    (by decide) (by decide) 730134 4 19 336 ha hb hc he 730456
    (by decide) (by decide) (by decide) (by decide) (by decide)]
  norm_num [roundBinary64_zero, roundBinary64_step5, roundBinary64_step6, roundBinary64_step7,
      roundBinary64_step8, roundBinary64_step9, roundBinary64_step10, roundBinary64_step11,
      roundBinary64_step12, roundBinary64_step13, roundBinary64_step14]

theorem roundBinary64_step15 :
    roundBinary64 ((43051597687894835 : ℚ) / 140737488355328) = ((2690724855493427 : ℚ) /
        8796093022208) := by
  rw [roundBinary64_of_near ((43051597687894835 : ℚ) / 140737488355328) (-44) 5381449710986854
    (by norm_num) (by norm_num) (by norm_num) (by norm_num) (by norm_num)]
  norm_num

theorem roundBinary64_step16 :
    roundBinary64 ((4903087 : ℚ) / 2) = ((4903087 : ℚ) / 2) := by
  rw [roundBinary64_of_near ((4903087 : ℚ) / 2) (-31) 5264649578610688
    (by norm_num) (by norm_num) (by norm_num) (by norm_num) (by norm_num)]
  norm_num

theorem roundBinary64_step17 :
    roundBinary64 ((59 : ℚ) / 3600) = ((2361887804576527 : ℚ) / 144115188075855872) := by
  rw [roundBinary64_of_near ((59 : ℚ) / 3600) (-58) 4723775609153054
    (by norm_num) (by norm_num) (by norm_num) (by norm_num) (by norm_num)]
  norm_num

theorem roundBinary64_step18 :
    roundBinary64 ((59 : ℚ) / 60) = ((8857079267161975 : ℚ) / 9007199254740992) := by
  rw [roundBinary64_of_near ((59 : ℚ) / 60) (-53) 8857079267161975
    (by norm_num) (by norm_num) (by norm_num) (by norm_num) (by norm_num)]
  norm_num

theorem roundBinary64_step19 :
    roundBinary64 ((144075156079168127 : ℚ) / 144115188075855872) = ((1125587156868501 : ℚ) /
        1125899906842624) := by
  rw [roundBinary64_of_near ((144075156079168127 : ℚ) / 144115188075855872) (-53) 9004697254948008
    (by norm_num) (by norm_num) (by norm_num) (by norm_num) (by norm_num)]
  norm_num

theorem roundBinary64_step20 :
    roundBinary64 ((27021285014248853 : ℚ) / 1125899906842624) = ((6755321253562213 : ℚ) /
        281474976710656) := by
  rw [roundBinary64_of_near ((27021285014248853 : ℚ) / 1125899906842624) (-48) 6755321253562213
    (by norm_num) (by norm_num) (by norm_num) (by norm_num) (by norm_num)]
  norm_num

theorem roundBinary64_step21 :
    roundBinary64 ((6755321253562213 : ℚ) / 6755399441055744) = ((9007095004749617 : ℚ) /
        9007199254740992) := by
  rw [roundBinary64_of_near ((6755321253562213 : ℚ) / 6755399441055744) (-53) 9007095004749617
    (by norm_num) (by norm_num) (by norm_num) (by norm_num) (by norm_num)]
  norm_num

theorem roundBinary64_step22 :
    roundBinary64 ((22081549793260127870769 : ℚ) / 9007199254740992) = ((5264651726069481 : ℚ) /
        2147483648) := by
  rw [roundBinary64_of_near ((22081549793260127870769 : ℚ) / 9007199254740992) (-31)
      5264651726069481
    (by norm_num) (by norm_num) (by norm_num) (by norm_num) (by norm_num)]
  norm_num

theorem roundBinary64_step23 :
    roundBinary64 (999999999 : ℚ) = (999999999 : ℚ) := by
  rw [roundBinary64_of_near (999999999 : ℚ) (-23) 8388607991611392
    (by norm_num) (by norm_num) (by norm_num) (by norm_num) (by norm_num)]
  norm_num

theorem roundBinary64_step24 :
    roundBinary64 ((999999999 : ℚ) / 1000000000) = ((9007199245733793 : ℚ) / 9007199254740992) := by
  rw [roundBinary64_of_near ((999999999 : ℚ) / 1000000000) (-53) 9007199245733793
    (by norm_num) (by norm_num) (by norm_num) (by norm_num) (by norm_num)]
  norm_num

theorem roundBinary64_step25 :
    roundBinary64 ((3002399748577931 : ℚ) / 10808639105689190400) = ((160127986590823 : ℚ) /
        576460752303423488) := by
  rw [roundBinary64_of_near ((3002399748577931 : ℚ) / 10808639105689190400) (-64) 5124095570906336
    (by norm_num) (by norm_num) (by norm_num) (by norm_num) (by norm_num)]
  norm_num

theorem roundBinary64_step26 :
    roundBinary64 ((160127986590823 : ℚ) / 13835058055282163712) = ((6832127427875115 : ℚ) /
        590295810358705651712) := by
  rw [roundBinary64_of_near ((160127986590823 : ℚ) / 13835058055282163712) (-69) 6832127427875115
    (by norm_num) (by norm_num) (by norm_num) (by norm_num) (by norm_num)]
  norm_num

theorem roundBinary64_step27 :
    roundBinary64 ((1447136447257927904624251179 : ℚ) / 590295810358705651712) = ((4903089 : ℚ) /
        2) := by
  rw [roundBinary64_of_near ((1447136447257927904624251179 : ℚ) / 590295810358705651712) (-31)
      5264651726094336
    (by norm_num) (by norm_num) (by norm_num) (by norm_num) (by norm_num)]
  norm_num

theorem castInt_step4 : castInt ((2690724855493427 : ℚ) / 8796093022208) = some 305 := by
  have h := @castInt_natCast_div ℚ _ _ 2690724855493427 8796093022208
  simp only [Nat.cast_ofNat] at h
  rw [h]
  rfl

/-- The binary64 value of `gc2jd` at 1999-12-31 23:59:59.999999999. -/
theorem gc2jd_binary64_1999_12_31 (lt : Int → Tm) (ts : Timespec)
    (hlt : lt ts.tv_sec = Civil.tm ⟨1999, 12, 31, 23, 59, 59, 999999999⟩)
    (hns : ts.tv_nsec = (((⟨1999, 12, 31, 23, 59, 59, 999999999⟩ : Civil).nsec : Nat) : Int)) :
    gc2jd_binary64 lt ts = some ((4903089 : ℚ) / 2) := by
  have ha : castInt (roundBinary64 ((365.25 : ℚ) * ((1999 : Nat) : ℚ))) = some 730134 := by
    norm_num [roundBinary64_step0, roundBinary64_step1, roundBinary64_step2, roundBinary64_step3,
        roundBinary64_step15, castInt_step0, castInt_step1, castInt_step2, castInt_step4]
  have hb : castInt (roundBinary64 (((1999 : Nat) : ℚ) / 400.0)) = some 4 := by
    norm_num [roundBinary64_step0, roundBinary64_step1, roundBinary64_step2, roundBinary64_step3,
        roundBinary64_step15, castInt_step0, castInt_step1, castInt_step2, castInt_step4]
  have hc : castInt (roundBinary64 (((1999 : Nat) : ℚ) / 100.0)) = some 19 := by
    norm_num [roundBinary64_step0, roundBinary64_step1, roundBinary64_step2, roundBinary64_step3,
        roundBinary64_step15, castInt_step0, castInt_step1, castInt_step2, castInt_step4]
  have he : castInt (roundBinary64 (roundBinary64 (30.59 : ℚ) * ((10 : Nat) : ℚ)))
      = some 305 := by
    norm_num [roundBinary64_step0, roundBinary64_step1, roundBinary64_step2, roundBinary64_step3,
        roundBinary64_step15, castInt_step0, castInt_step1, castInt_step2, castInt_step4]
  unfold gc2jd_binary64
  rw [gc2jd_rounded_eval roundBinary64 lt ts ⟨1999, 12, 31, 23, 59, 59, 999999999⟩
    (by decide) (by decide) (by decide) (by decide) (by decide) (by decide) hlt hns 1999 10
    (by decide) (by decide) 730134 4 19 305 ha hb hc he 730455
    (by decide) (by decide) (by decide) (by decide) (by decide)]
  norm_num [roundBinary64_zero, roundBinary64_step16, roundBinary64_step17, roundBinary64_step18,
      roundBinary64_step19, roundBinary64_step20, roundBinary64_step21, roundBinary64_step22,
      roundBinary64_step23, roundBinary64_step24, roundBinary64_step25, roundBinary64_step26,
      roundBinary64_step27]

/-- The binary64 value of `gc2jd` at 2000-01-01 00:00:00. -/
theorem gc2jd_binary64_2000_01_01 (lt : Int → Tm) (ts : Timespec)
    (hlt : lt ts.tv_sec = Civil.tm ⟨2000, 1, 1, 0, 0, 0, 0⟩)
    (hns : ts.tv_nsec = (((⟨2000, 1, 1, 0, 0, 0, 0⟩ : Civil).nsec : Nat) : Int)) :
    gc2jd_binary64 lt ts = some ((4903089 : ℚ) / 2) := by
  have ha : castInt (roundBinary64 ((365.25 : ℚ) * ((1999 : Nat) : ℚ))) = some 730134 := by
    norm_num [roundBinary64_step0, roundBinary64_step1, roundBinary64_step2, roundBinary64_step3,
        roundBinary64_step4, castInt_step0, castInt_step1, castInt_step2, castInt_step3]
  have hb : castInt (roundBinary64 (((1999 : Nat) : ℚ) / 400.0)) = some 4 := by
    norm_num [roundBinary64_step0, roundBinary64_step1, roundBinary64_step2, roundBinary64_step3,
        roundBinary64_step4, castInt_step0, castInt_step1, castInt_step2, castInt_step3]
  have hc : castInt (roundBinary64 (((1999 : Nat) : ℚ) / 100.0)) = some 19 := by
    norm_num [roundBinary64_step0, roundBinary64_step1, roundBinary64_step2, roundBinary64_step3,
        roundBinary64_step4, castInt_step0, castInt_step1, castInt_step2, castInt_step3]
  have he : castInt (roundBinary64 (roundBinary64 (30.59 : ℚ) * ((11 : Nat) : ℚ)))
      = some 336 := by
    norm_num [roundBinary64_step0, roundBinary64_step1, roundBinary64_step2, roundBinary64_step3,
        roundBinary64_step4, castInt_step0, castInt_step1, castInt_step2, castInt_step3]
  unfold gc2jd_binary64
  rw [gc2jd_rounded_eval roundBinary64 lt ts ⟨2000, 1, 1, 0, 0, 0, 0⟩
    (by decide) (by decide) (by decide) (by decide) (by decide) (by decide) hlt hns 1999 11
    (by decide) (by decide) 730134 4 19 336 ha hb hc he 730456
    (by decide) (by decide) (by decide) (by decide) (by decide)]
  norm_num [roundBinary64_zero, roundBinary64_step5]

theorem roundBinary64_step28 :
    roundBinary64 (2556750 : ℚ) = (2556750 : ℚ) := by
  rw [roundBinary64_of_near (2556750 : ℚ) (-31) 5490578817024000
    (by norm_num) (by norm_num) (by norm_num) (by norm_num) (by norm_num)]
  norm_num

theorem roundBinary64_step29 :
    roundBinary64 ((35 : ℚ) / 2) = ((35 : ℚ) / 2) := by
  rw [roundBinary64_of_near ((35 : ℚ) / 2) (-48) 4925812092436480
    (by norm_num) (by norm_num) (by norm_num) (by norm_num) (by norm_num)]
  norm_num

theorem roundBinary64_step30 :
    roundBinary64 (70 : ℚ) = (70 : ℚ) := by
  rw [roundBinary64_of_near (70 : ℚ) (-46) 4925812092436480
    (by norm_num) (by norm_num) (by norm_num) (by norm_num) (by norm_num)]
  norm_num

theorem roundBinary64_step31 :
    roundBinary64 ((8610319537578967 : ℚ) / 70368744177664) = ((8610319537578967 : ℚ) /
        70368744177664) := by
  rw [roundBinary64_of_near ((8610319537578967 : ℚ) / 70368744177664) (-46) 8610319537578967
    (by norm_num) (by norm_num) (by norm_num) (by norm_num) (by norm_num)]
  norm_num

theorem roundBinary64_step32 :
    roundBinary64 ((8555845 : ℚ) / 2) = ((8555845 : ℚ) / 2) := by
  rw [roundBinary64_of_near ((8555845 : ℚ) / 2) (-30) 4593384308080640
    (by norm_num) (by norm_num) (by norm_num) (by norm_num) (by norm_num)]
  norm_num

theorem roundBinary64_step33 :
    roundBinary64 ((1 : ℚ) / 3600) = ((5124095576030431 : ℚ) / 18446744073709551616) := by
  rw [roundBinary64_of_near ((1 : ℚ) / 3600) (-64) 5124095576030431
    (by norm_num) (by norm_num) (by norm_num) (by norm_num) (by norm_num)]
  norm_num

theorem roundBinary64_step34 :
    roundBinary64 ((5124095576030431 : ℚ) / 18446744073709551616) = ((5124095576030431 : ℚ) /
        18446744073709551616) := by
  rw [roundBinary64_of_near ((5124095576030431 : ℚ) / 18446744073709551616) (-64) 5124095576030431
    (by norm_num) (by norm_num) (by norm_num) (by norm_num) (by norm_num)]
  norm_num

theorem roundBinary64_step35 :
    roundBinary64 ((5124095576030431 : ℚ) / 442721857769029238784) = ((6832127434707241 : ℚ) /
        590295810358705651712) := by
  rw [roundBinary64_of_near ((5124095576030431 : ℚ) / 442721857769029238784) (-69) 6832127434707241
    (by norm_num) (by norm_num) (by norm_num) (by norm_num) (by norm_num)]
  norm_num

theorem roundBinary64_step36 :
    roundBinary64 ((2525239728796072105770635561 : ℚ) / 590295810358705651712) =
        ((1148346077023267 : ℚ) / 268435456) := by
  rw [roundBinary64_of_near ((2525239728796072105770635561 : ℚ) / 590295810358705651712) (-30)
      4593384308093068
    (by norm_num) (by norm_num) (by norm_num) (by norm_num) (by norm_num)]
  norm_num

theorem roundBinary64_step37 :
    roundBinary64 ((2525239728802904471018803499 : ℚ) / 590295810358705651712) =
        ((574173038513187 : ℚ) / 134217728) := by
  rw [roundBinary64_of_near ((2525239728802904471018803499 : ℚ) / 590295810358705651712) (-30)
      4593384308105496
    (by norm_num) (by norm_num) (by norm_num) (by norm_num) (by norm_num)]
  norm_num

theorem castInt_step5 : castInt (2556750 : ℚ) = some 2556750 := by
  have h := @castInt_natCast_div ℚ _ _ 2556750 1
  simp only [Nat.cast_ofNat, Nat.cast_one, div_one, Nat.div_one] at h
  rw [h]
  rfl

theorem castInt_step6 : castInt ((35 : ℚ) / 2) = some 17 := by
  have h := @castInt_natCast_div ℚ _ _ 35 2
  simp only [Nat.cast_ofNat] at h
  rw [h]
  rfl

theorem castInt_step7 : castInt (70 : ℚ) = some 70 := by
  have h := @castInt_natCast_div ℚ _ _ 70 1
  simp only [Nat.cast_ofNat, Nat.cast_one, div_one, Nat.div_one] at h
  rw [h]
  rfl

theorem castInt_step8 : castInt ((8610319537578967 : ℚ) / 70368744177664) = some 122 := by
  have h := @castInt_natCast_div ℚ _ _ 8610319537578967 70368744177664
  simp only [Nat.cast_ofNat] at h
  rw [h]
  rfl

/-- The binary64 value of `gc2jd` at 7000-06-15 00:00:01.999999999. -/
theorem gc2jd_binary64_7000_06_15_a (lt : Int → Tm) (ts : Timespec)
    (hlt : lt ts.tv_sec = Civil.tm ⟨7000, 6, 15, 0, 0, 1, 999999999⟩)
    (hns : ts.tv_nsec = (((⟨7000, 6, 15, 0, 0, 1, 999999999⟩ : Civil).nsec : Nat) : Int)) :
    gc2jd_binary64 lt ts = some ((574173038513187 : ℚ) / 134217728) := by
  have ha : castInt (roundBinary64 ((365.25 : ℚ) * ((7000 : Nat) : ℚ))) = some 2556750 := by
    norm_num [roundBinary64_step28, roundBinary64_step29, roundBinary64_step30,
        roundBinary64_step3, roundBinary64_step31, castInt_step5, castInt_step6, castInt_step7,
        castInt_step8]
  have hb : castInt (roundBinary64 (((7000 : Nat) : ℚ) / 400.0)) = some 17 := by
    norm_num [roundBinary64_step28, roundBinary64_step29, roundBinary64_step30,
        roundBinary64_step3, roundBinary64_step31, castInt_step5, castInt_step6, castInt_step7,
        castInt_step8]
  have hc : castInt (roundBinary64 (((7000 : Nat) : ℚ) / 100.0)) = some 70 := by
    norm_num [roundBinary64_step28, roundBinary64_step29, roundBinary64_step30,
        roundBinary64_step3, roundBinary64_step31, castInt_step5, castInt_step6, castInt_step7,
        castInt_step8]
  have he : castInt (roundBinary64 (roundBinary64 (30.59 : ℚ) * ((4 : Nat) : ℚ)))
      = some 122 := by
    norm_num [roundBinary64_step28, roundBinary64_step29, roundBinary64_step30,
        roundBinary64_step3, roundBinary64_step31, castInt_step5, castInt_step6, castInt_step7,
        castInt_step8]
  unfold gc2jd_binary64
  rw [gc2jd_rounded_eval roundBinary64 lt ts ⟨7000, 6, 15, 0, 0, 1, 999999999⟩
    (by decide) (by decide) (by decide) (by decide) (by decide) (by decide) hlt hns 7000 4
    (by decide) (by decide) 2556750 17 70 122 ha hb hc he 2556834
    (by decide) (by decide) (by decide) (by decide) (by decide)]
  norm_num [roundBinary64_zero, roundBinary64_step32, roundBinary64_step33, roundBinary64_step34,
      roundBinary64_step35, roundBinary64_step36, roundBinary64_step23, roundBinary64_step24,
      roundBinary64_step25, roundBinary64_step26, roundBinary64_step37]

theorem roundBinary64_step38 :
    roundBinary64 ((1 : ℚ) / 1800) = ((5124095576030431 : ℚ) / 9223372036854775808) := by
  rw [roundBinary64_of_near ((1 : ℚ) / 1800) (-63) 5124095576030431
    (by norm_num) (by norm_num) (by norm_num) (by norm_num) (by norm_num)]
  norm_num

theorem roundBinary64_step39 :
    roundBinary64 ((5124095576030431 : ℚ) / 9223372036854775808) = ((5124095576030431 : ℚ) /
        9223372036854775808) := by
  rw [roundBinary64_of_near ((5124095576030431 : ℚ) / 9223372036854775808) (-63) 5124095576030431
    (by norm_num) (by norm_num) (by norm_num) (by norm_num) (by norm_num)]
  norm_num

theorem roundBinary64_step40 :
    roundBinary64 ((5124095576030431 : ℚ) / 221360928884514619392) = ((6832127434707241 : ℚ) /
        295147905179352825856) := by
  rw [roundBinary64_of_near ((5124095576030431 : ℚ) / 221360928884514619392) (-68) 6832127434707241
    (by norm_num) (by norm_num) (by norm_num) (by norm_num) (by norm_num)]
  norm_num

theorem roundBinary64_step41 :
    roundBinary64 ((1262619864401452116602671401 : ℚ) / 295147905179352825856) =
        ((4593384308105495 : ℚ) / 1073741824) := by
  rw [roundBinary64_of_near ((1262619864401452116602671401 : ℚ) / 295147905179352825856) (-30)
      4593384308105495
    (by norm_num) (by norm_num) (by norm_num) (by norm_num) (by norm_num)]
  norm_num

theorem roundBinary64_step42 :
    roundBinary64 ((4593384308105495 : ℚ) / 1073741824) = ((4593384308105495 : ℚ) / 1073741824) :=
        by
  rw [roundBinary64_of_near ((4593384308105495 : ℚ) / 1073741824) (-30) 4593384308105495
    (by norm_num) (by norm_num) (by norm_num) (by norm_num) (by norm_num)]
  norm_num

/-- The binary64 value of `gc2jd` at 7000-06-15 00:00:02. -/
theorem gc2jd_binary64_7000_06_15_b (lt : Int → Tm) (ts : Timespec)
    (hlt : lt ts.tv_sec = Civil.tm ⟨7000, 6, 15, 0, 0, 2, 0⟩)
    (hns : ts.tv_nsec = (((⟨7000, 6, 15, 0, 0, 2, 0⟩ : Civil).nsec : Nat) : Int)) :
    gc2jd_binary64 lt ts = some ((4593384308105495 : ℚ) / 1073741824) := by
  have ha : castInt (roundBinary64 ((365.25 : ℚ) * ((7000 : Nat) : ℚ))) = some 2556750 := by
    norm_num [roundBinary64_step28, roundBinary64_step29, roundBinary64_step30,
        roundBinary64_step3, roundBinary64_step31, castInt_step5, castInt_step6, castInt_step7,
        castInt_step8]
  have hb : castInt (roundBinary64 (((7000 : Nat) : ℚ) / 400.0)) = some 17 := by
    norm_num [roundBinary64_step28, roundBinary64_step29, roundBinary64_step30,
        roundBinary64_step3, roundBinary64_step31, castInt_step5, castInt_step6, castInt_step7,
        castInt_step8]
  have hc : castInt (roundBinary64 (((7000 : Nat) : ℚ) / 100.0)) = some 70 := by
    norm_num [roundBinary64_step28, roundBinary64_step29, roundBinary64_step30,
        roundBinary64_step3, roundBinary64_step31, castInt_step5, castInt_step6, castInt_step7,
        castInt_step8]
  have he : castInt (roundBinary64 (roundBinary64 (30.59 : ℚ) * ((4 : Nat) : ℚ)))
      = some 122 := by
    norm_num [roundBinary64_step28, roundBinary64_step29, roundBinary64_step30,
        roundBinary64_step3, roundBinary64_step31, castInt_step5, castInt_step6, castInt_step7,
        castInt_step8]
  unfold gc2jd_binary64
  rw [gc2jd_rounded_eval roundBinary64 lt ts ⟨7000, 6, 15, 0, 0, 2, 0⟩
    (by decide) (by decide) (by decide) (by decide) (by decide) (by decide) hlt hns 7000 4
    (by decide) (by decide) 2556750 17 70 122 ha hb hc he 2556834
    (by decide) (by decide) (by decide) (by decide) (by decide)]
  norm_num [roundBinary64_zero, roundBinary64_step32, roundBinary64_step38, roundBinary64_step39,
      roundBinary64_step40, roundBinary64_step41, roundBinary64_step42]

theorem roundBinary64_step43 :
    roundBinary64 (12 : ℚ) = (12 : ℚ) := by
  rw [roundBinary64_of_near (12 : ℚ) (-49) 6755399441055744
    (by norm_num) (by norm_num) (by norm_num) (by norm_num) (by norm_num)]
  norm_num

theorem roundBinary64_step44 :
    roundBinary64 (2451545 : ℚ) = (2451545 : ℚ) := by
  rw [roundBinary64_of_near (2451545 : ℚ) (-31) 5264652799836160
    (by norm_num) (by norm_num) (by norm_num) (by norm_num) (by norm_num)]
  norm_num

/-- The binary64 value of `gc2jd` at 2000-01-01 12:00:00. -/
theorem gc2jd_binary64_2000_01_01_noon (lt : Int → Tm) (ts : Timespec)
    (hlt : lt ts.tv_sec = Civil.tm ⟨2000, 1, 1, 12, 0, 0, 0⟩)
    (hns : ts.tv_nsec = (((⟨2000, 1, 1, 12, 0, 0, 0⟩ : Civil).nsec : Nat) : Int)) :
    gc2jd_binary64 lt ts = some (2451545 : ℚ) := by
  have ha : castInt (roundBinary64 ((365.25 : ℚ) * ((1999 : Nat) : ℚ))) = some 730134 := by
    norm_num [roundBinary64_step0, roundBinary64_step1, roundBinary64_step2, roundBinary64_step3,
        roundBinary64_step4, castInt_step0, castInt_step1, castInt_step2, castInt_step3]
  have hb : castInt (roundBinary64 (((1999 : Nat) : ℚ) / 400.0)) = some 4 := by
    norm_num [roundBinary64_step0, roundBinary64_step1, roundBinary64_step2, roundBinary64_step3,
        roundBinary64_step4, castInt_step0, castInt_step1, castInt_step2, castInt_step3]
  have hc : castInt (roundBinary64 (((1999 : Nat) : ℚ) / 100.0)) = some 19 := by
    norm_num [roundBinary64_step0, roundBinary64_step1, roundBinary64_step2, roundBinary64_step3,
        roundBinary64_step4, castInt_step0, castInt_step1, castInt_step2, castInt_step3]
  have he : castInt (roundBinary64 (roundBinary64 (30.59 : ℚ) * ((11 : Nat) : ℚ)))
      = some 336 := by
    norm_num [roundBinary64_step0, roundBinary64_step1, roundBinary64_step2, roundBinary64_step3,
        roundBinary64_step4, castInt_step0, castInt_step1, castInt_step2, castInt_step3]
  unfold gc2jd_binary64
  rw [gc2jd_rounded_eval roundBinary64 lt ts ⟨2000, 1, 1, 12, 0, 0, 0⟩
    (by decide) (by decide) (by decide) (by decide) (by decide) (by decide) hlt hns 1999 11
    (by decide) (by decide) 730134 4 19 336 ha hb hc he 730456
    (by decide) (by decide) (by decide) (by decide) (by decide)]
  norm_num [roundBinary64_zero, roundBinary64_step5, roundBinary64_step43, roundBinary64_step11,
      roundBinary64_step44]

/-- The binary64 number nearest to the Julian Day of 2000-01-01 00:00:04.5. -/
theorem roundBinary64_julianDay_2000_01_01_a :
    roundBinary64 ((47069654401 : ℚ) / 19200) = ((658081465775773 : ℚ) / 268435456) := by
  rw [roundBinary64_of_near ((47069654401 : ℚ) / 19200) (-31) 5264651726206184
    (by norm_num) (by norm_num) (by norm_num) (by norm_num) (by norm_num)]
  norm_num

theorem roundBinary64_step46 :
    roundBinary64 ((1 : ℚ) / 10) = ((3602879701896397 : ℚ) / 36028797018963968) := by
  rw [roundBinary64_of_near ((1 : ℚ) / 10) (-56) 7205759403792794
    (by norm_num) (by norm_num) (by norm_num) (by norm_num) (by norm_num)]
  norm_num

theorem roundBinary64_step47 :
    roundBinary64 ((3 : ℚ) / 10) = ((5404319552844595 : ℚ) / 18014398509481984) := by
  rw [roundBinary64_of_near ((3 : ℚ) / 10) (-54) 5404319552844595
    (by norm_num) (by norm_num) (by norm_num) (by norm_num) (by norm_num)]
  norm_num

theorem roundBinary64_step48 :
    roundBinary64 ((12980742146337070512478121581609 : ℚ) / 1298074214633706907132624082305024) =
        ((1441151880758559 : ℚ) / 144115188075855872) := by
  rw [roundBinary64_of_near ((12980742146337070512478121581609 : ℚ) /
      1298074214633706907132624082305024) (-59) 5764607523034236
    (by norm_num) (by norm_num) (by norm_num) (by norm_num) (by norm_num)]
  norm_num

theorem roundBinary64_step49 :
    roundBinary64 ((1441151880758559 : ℚ) / 144115188075855872) = ((1441151880758559 : ℚ) /
        144115188075855872) := by
  rw [roundBinary64_of_near ((1441151880758559 : ℚ) / 144115188075855872) (-59) 5764607523034236
    (by norm_num) (by norm_num) (by norm_num) (by norm_num) (by norm_num)]
  norm_num

theorem roundBinary64_step50 :
    roundBinary64 ((1441151880758559 : ℚ) / 72057594037927936) = ((1441151880758559 : ℚ) /
        72057594037927936) := by
  rw [roundBinary64_of_near ((1441151880758559 : ℚ) / 72057594037927936) (-58) 5764607523034236
    (by norm_num) (by norm_num) (by norm_num) (by norm_num) (by norm_num)]
  norm_num

theorem roundBinary64_step51 :
    roundBinary64 ((29206669829258403248756220714025 : ℚ) / 324518553658426726783156020576256) =
        ((3242591731706757 : ℚ) / 36028797018963968) := by
  rw [roundBinary64_of_near ((29206669829258403248756220714025 : ℚ) /
      324518553658426726783156020576256) (-56) 6485183463413514
    (by norm_num) (by norm_num) (by norm_num) (by norm_num) (by norm_num)]
  norm_num

theorem roundBinary64_step52 :
    roundBinary64 ((7926335344172073 : ℚ) / 72057594037927936) = ((7926335344172073 : ℚ) /
        72057594037927936) := by
  rw [roundBinary64_of_near ((7926335344172073 : ℚ) / 72057594037927936) (-56) 7926335344172073
    (by norm_num) (by norm_num) (by norm_num) (by norm_num) (by norm_num)]
  norm_num

theorem sqrtBinary64_step0 :
    sqrtBinary64 ((7926335344172073 : ℚ) / 72057594037927936) = ((5974700067988931 : ℚ) /
        18014398509481984) := by
  rw [sqrtBinary64_eval ((7926335344172073 : ℚ) / 72057594037927936) (-54)
      142788163609707760505164589432832 11949400135977862
    (by norm_num) (by norm_num) (by norm_num) (by norm_num) (by norm_num) (by norm_num)]
  norm_num

theorem roundBinary64_step53 :
    roundBinary64 ((3242591731706757 : ℚ) / 36028797018963968) = ((3242591731706757 : ℚ) /
        36028797018963968) := by
  rw [roundBinary64_of_near ((3242591731706757 : ℚ) / 36028797018963968) (-56) 6485183463413514
    (by norm_num) (by norm_num) (by norm_num) (by norm_num) (by norm_num)]
  norm_num

theorem roundBinary64_step54 :
    roundBinary64 ((14411518807585587 : ℚ) / 144115188075855872) = ((3602879701896397 : ℚ) /
        36028797018963968) := by
  rw [roundBinary64_of_tie ((14411518807585587 : ℚ) / 144115188075855872) (-56) 7205759403792794
    (by norm_num) (by norm_num) (by norm_num) (by decide) (Or.inr (by norm_num))]
  norm_num

theorem roundBinary64_step55 :
    roundBinary64 ((15852670688344147 : ℚ) / 144115188075855872) = ((3963167672086037 : ℚ) /
        36028797018963968) := by
  rw [roundBinary64_of_tie ((15852670688344147 : ℚ) / 144115188075855872) (-56) 7926335344172074
    (by norm_num) (by norm_num) (by norm_num) (by decide) (Or.inr (by norm_num))]
  norm_num

theorem sqrtBinary64_step1 :
    sqrtBinary64 ((3963167672086037 : ℚ) / 36028797018963968) = ((1493675016997233 : ℚ) /
        4503599627370496) := by
  rw [sqrtBinary64_eval ((3963167672086037 : ℚ) / 36028797018963968) (-54)
      142788163609707778519563098914816 11949400135977863
    (by norm_num) (by norm_num) (by norm_num) (by norm_num) (by norm_num) (by norm_num)]
  norm_num

/-- The binary64 value of `calc_dist` at the doubles (0.1, 0.1, 0.3). -/
theorem calc_dist_binary64_a :
    (calc_dist Binary64.sqrt
      ![Binary64.ofRat 0.1, Binary64.ofRat 0.1, Binary64.ofRat 0.3]).val
      = ((5974700067988931 : ℚ) / 18014398509481984) := by
  rw [calc_dist, calc_dist_loop_zero]
  simp only [Binary64.sqrt_val, Binary64.add_val, Binary64.mul_val, Binary64.zero_val,
    Binary64.ofRat_val, Matrix.cons_val_zero, Matrix.cons_val_one, Matrix.head_cons,
    Matrix.cons_val_two, Matrix.tail_cons]
  norm_num [roundBinary64_zero, roundBinary64_step46, roundBinary64_step47, roundBinary64_step48,
      roundBinary64_step49, roundBinary64_step50, roundBinary64_step51, roundBinary64_step52,
      sqrtBinary64_step0]

theorem roundBinary64_step56 :
    roundBinary64 (1 : ℚ) = (1 : ℚ) := by
  rw [roundBinary64_of_near (1 : ℚ) (-52) 4503599627370496
    (by norm_num) (by norm_num) (by norm_num) (by norm_num) (by norm_num)]
  norm_num

theorem roundBinary64_step57 :
    roundBinary64 ((3602879701896397 : ℚ) / 36028797018963968) = ((3602879701896397 : ℚ) /
        36028797018963968) := by
  rw [roundBinary64_of_near ((3602879701896397 : ℚ) / 36028797018963968) (-56) 7205759403792794
    (by norm_num) (by norm_num) (by norm_num) (by norm_num) (by norm_num)]
  norm_num

theorem roundBinary64_step58 :
    roundBinary64 ((5404319552844595 : ℚ) / 18014398509481984) = ((5404319552844595 : ℚ) /
        18014398509481984) := by
  rw [roundBinary64_of_near ((5404319552844595 : ℚ) / 18014398509481984) (-54) 5404319552844595
    (by norm_num) (by norm_num) (by norm_num) (by norm_num) (by norm_num)]
  norm_num

/-- The binary64 value of `calc_dist` at the doubles (0.1, 0.1, 0.3) with the first and
the third component exchanged and every component multiplied by 1. -/
theorem calc_dist_binary64_b :
    (calc_dist Binary64.sqrt (fun i =>
      ![Binary64.ofRat 1, Binary64.ofRat 1, Binary64.ofRat 1] i
        * ![Binary64.ofRat 0.1, Binary64.ofRat 0.1, Binary64.ofRat 0.3] (Equiv.swap 0 2 i))).val
      = ((1493675016997233 : ℚ) / 4503599627370496) := by
  rw [calc_dist, calc_dist_loop_zero]
  simp only [Binary64.sqrt_val, Binary64.add_val, Binary64.mul_val, Binary64.zero_val,
    Binary64.ofRat_val, Matrix.cons_val_zero, Matrix.cons_val_one, Matrix.head_cons,
    Matrix.cons_val_two, Matrix.tail_cons, Equiv.swap_apply_left, Equiv.swap_apply_right,
    Equiv.swap_apply_of_ne_of_ne (show (1 : Fin 3) ≠ 0 by decide)
      (show (1 : Fin 3) ≠ 2 by decide)]
  norm_num [roundBinary64_zero, roundBinary64_step46, roundBinary64_step47, roundBinary64_step51,
      roundBinary64_step53, roundBinary64_step48, roundBinary64_step54, roundBinary64_step55,
      sqrtBinary64_step1, roundBinary64_step56, roundBinary64_step57, roundBinary64_step58]

theorem roundBinary64_step59 :
    roundBinary64 ((3602879701896397 : ℚ) / 9007199254740992) = ((3602879701896397 : ℚ) /
        9007199254740992) := by
  rw [roundBinary64_of_near ((3602879701896397 : ℚ) / 9007199254740992) (-54) 7205759403792794
    (by norm_num) (by norm_num) (by norm_num) (by norm_num) (by norm_num)]
  norm_num

theorem roundBinary64_step60 :
    roundBinary64 (4 : ℚ) = (4 : ℚ) := by
  rw [roundBinary64_of_near (4 : ℚ) (-50) 4503599627370496
    (by norm_num) (by norm_num) (by norm_num) (by norm_num) (by norm_num)]
  norm_num

theorem roundBinary64_step61 :
    roundBinary64 ((12980742146337070512478121581609 : ℚ) / 81129638414606681695789005144064) =
        ((1441151880758559 : ℚ) / 9007199254740992) := by
  rw [roundBinary64_of_near ((12980742146337070512478121581609 : ℚ) /
      81129638414606681695789005144064) (-55) 5764607523034236
    (by norm_num) (by norm_num) (by norm_num) (by norm_num) (by norm_num)]
  norm_num

theorem roundBinary64_step62 :
    roundBinary64 ((24499581972895503 : ℚ) / 144115188075855872) = ((1531223873305969 : ℚ) /
        9007199254740992) := by
  rw [roundBinary64_of_near ((24499581972895503 : ℚ) / 144115188075855872) (-55) 6124895493223876
    (by norm_num) (by norm_num) (by norm_num) (by norm_num) (by norm_num)]
  norm_num

theorem roundBinary64_step63 :
    roundBinary64 ((1531223873305969 : ℚ) / 9007199254740992) = ((1531223873305969 : ℚ) /
        9007199254740992) := by
  rw [roundBinary64_of_near ((1531223873305969 : ℚ) / 9007199254740992) (-55) 6124895493223876
    (by norm_num) (by norm_num) (by norm_num) (by norm_num) (by norm_num)]
  norm_num

theorem sqrtBinary64_step2 :
    sqrtBinary64 ((1531223873305969 : ℚ) / 9007199254740992) = ((3713763391828179 : ℚ) /
        9007199254740992) := by
  rw [sqrtBinary64_eval ((1531223873305969 : ℚ) / 9007199254740992) (-54)
      220672616487730226094013801299968 14855053567312715
    (by norm_num) (by norm_num) (by norm_num) (by norm_num) (by norm_num) (by norm_num)]
  norm_num

theorem roundBinary64_step64 :
    roundBinary64 (16 : ℚ) = (16 : ℚ) := by
  rw [roundBinary64_of_near (16 : ℚ) (-48) 4503599627370496
    (by norm_num) (by norm_num) (by norm_num) (by norm_num) (by norm_num)]
  norm_num

theorem roundBinary64_step65 :
    roundBinary64 (17 : ℚ) = (17 : ℚ) := by
  rw [roundBinary64_of_near (17 : ℚ) (-48) 4785074604081152
    (by norm_num) (by norm_num) (by norm_num) (by norm_num) (by norm_num)]
  norm_num

theorem sqrtBinary64_step3 :
    sqrtBinary64 (17 : ℚ) = ((4642204239785223 : ℚ) / 1125899906842624) := by
  rw [sqrtBinary64_eval (17 : ℚ) (-50) 86200240815519599301775817965568 9284408479570445
    (by norm_num) (by norm_num) (by norm_num) (by norm_num) (by norm_num) (by norm_num)]
  norm_num

theorem roundBinary64_step66 :
    roundBinary64 ((16725303427579574500389077541531 : ℚ) / 40564819207303340847894502572032) =
        ((7427526783656357 : ℚ) / 18014398509481984) := by
  rw [roundBinary64_of_near ((16725303427579574500389077541531 : ℚ) /
      40564819207303340847894502572032) (-54) 7427526783656357
    (by norm_num) (by norm_num) (by norm_num) (by norm_num) (by norm_num)]
  norm_num

/-- The binary64 value of `calc_dist` at 0.1 times (1, 4, 0). -/
theorem calc_dist_binary64_c :
    (calc_dist Binary64.sqrt
      (fun i => Binary64.ofRat 0.1 * ![Binary64.ofRat 1, Binary64.ofRat 4, Binary64.ofRat 0] i)).val
      = ((3713763391828179 : ℚ) / 9007199254740992) := by
  rw [calc_dist, calc_dist_loop_zero]
  simp only [Binary64.sqrt_val, Binary64.add_val, Binary64.mul_val, Binary64.zero_val,
    Binary64.ofRat_val, Matrix.cons_val_zero, Matrix.cons_val_one, Matrix.head_cons,
    Matrix.cons_val_two, Matrix.tail_cons]
  norm_num [roundBinary64_zero, roundBinary64_step46, roundBinary64_step47, roundBinary64_step57,
      roundBinary64_step59, roundBinary64_step56, roundBinary64_step60, roundBinary64_step48,
      roundBinary64_step49, roundBinary64_step61, roundBinary64_step62, roundBinary64_step63,
      sqrtBinary64_step2]

/-- The binary64 value of 0.1 times `calc_dist` at (1, 4, 0). -/
theorem calc_dist_binary64_d :
    (Binary64.ofRat 0.1 * calc_dist Binary64.sqrt
      ![Binary64.ofRat 1, Binary64.ofRat 4, Binary64.ofRat 0]).val
      = ((7427526783656357 : ℚ) / 18014398509481984) := by
  rw [calc_dist, calc_dist_loop_zero]
  simp only [Binary64.sqrt_val, Binary64.add_val, Binary64.mul_val, Binary64.zero_val,
    Binary64.ofRat_val, Matrix.cons_val_zero, Matrix.cons_val_one, Matrix.head_cons,
    Matrix.cons_val_two, Matrix.tail_cons]
  norm_num [roundBinary64_zero, roundBinary64_step46, roundBinary64_step47, roundBinary64_step57,
      roundBinary64_step59, roundBinary64_step56, roundBinary64_step60, roundBinary64_step64,
      roundBinary64_step65, sqrtBinary64_step3, roundBinary64_step66]

/-! ## Binary64 arithmetic: what holds in exact arithmetic only -/

/-- The date of `civilOfDays n` is the date of the calendar whose Julian Day
Number is `n + 2440588`. -/
theorem civilOfDays_date (n : Int) (y m d : Nat) (hn : 0 ≤ n + 719162)
    (hc : CalendarDate ⟨y, m, d, 0, 0, 0, 0⟩)
    (hj : (julianDayNumber y m d : Int) = n + 2440588) :
    (civilOfDays n).year = y ∧ (civilOfDays n).month = m ∧ (civilOfDays n).day = d := by
  have hcal : CalendarDate ⟨1, 1, 1, 0, 0, 0, 0⟩ := by
    refine ⟨by decide, by decide, by decide, by decide, by decide⟩
  obtain ⟨⟨c1, c2, c3, c4, c5⟩, i2, _⟩ := iterate_nextDay ⟨1, 1, 1, 0, 0, 0, 0⟩ hcal
    (n + 719162).toNat
  have hj0 : julianDayNumber 1 1 1 = 1721426 := by decide
  simp only [hj0] at i2
  obtain ⟨d1, d2, d3, d4, d5⟩ := hc
  simp only at d1 d2 d3 d4 d5
  unfold civilOfDays
  generalize Nat.iterate nextDay (n + 719162).toNat ⟨1, 1, 1, 0, 0, 0, 0⟩ = c at *
  have k1 : ¬ (c.year < y ∨ (c.year = y ∧ (c.month < m ∨ (c.month = m ∧ c.day < d)))) :=
    fun h => by
      have := julianDayNumber_lt c.year c.month c.day y m d c1 c2 c3 c5 d3 d4 h
      omega
  have k2 : ¬ (y < c.year ∨ (y = c.year ∧ (m < c.month ∨ (m = c.month ∧ d < c.day)))) :=
    fun h => by
      have := julianDayNumber_lt y m d c.year c.month c.day d1 d2 d3 d5 c3 c4 h
      omega
  omega

theorem localtime_fixed_2000_01_01 :
    localtime_fixed 32400 (946684804 - 32400) = Civil.tm ⟨2000, 1, 1, 0, 0, 4, 500000000⟩ := by
  obtain ⟨hy, hm, hd⟩ := civilOfDays_date 10957 2000 1 1 (by decide)
    ⟨by decide, by decide, by decide, by decide, by decide⟩
    (by rw [julianDayNumber_eq_dayCount 2000 1 1 (by decide) (by decide) (by decide)]; decide)
  have e1 : ((946684804 : Int) - 32400 + 32400) / 86400 = 10957 := by decide
  have e2 : ((946684804 : Int) - 32400 + 32400) % 86400 = 4 := by decide
  simp only [localtime_fixed, Civil.tm, e1, e2, hy, hm, hd]
  rfl

/-- C1 fails as stated. At 2000-01-01 00:00:04.5, a valid date and time of
day, `gc2jd` in binary64 arithmetic returns `5264651726206185 / 2 ^ 31`, which
is not the Julian Day of that instant, `47069654401 / 19200`, and not the
binary64 number nearest to it either. -/
theorem gc2jd_binary64_ne_julianDay :
    ValidDate ⟨2000, 1, 1, 0, 0, 4, 500000000⟩ ∧ ValidTime ⟨2000, 1, 1, 0, 0, 4, 500000000⟩ ∧
      gc2jd_binary64 (fun _ => Civil.tm ⟨2000, 1, 1, 0, 0, 4, 500000000⟩)
          ⟨946684804, 500000000⟩
        = some ((5264651726206185 : ℚ) / 2147483648) ∧
      gc2jd_binary64 (fun _ => Civil.tm ⟨2000, 1, 1, 0, 0, 4, 500000000⟩)
          ⟨946684804, 500000000⟩
        ≠ some (julianDay ⟨2000, 1, 1, 0, 0, 4, 500000000⟩) ∧
      gc2jd_binary64 (fun _ => Civil.tm ⟨2000, 1, 1, 0, 0, 4, 500000000⟩)
          ⟨946684804, 500000000⟩
        ≠ some (roundBinary64 (julianDay ⟨2000, 1, 1, 0, 0, 4, 500000000⟩)) := by
  have hv := gc2jd_binary64_2000_01_01_a (fun _ => Civil.tm ⟨2000, 1, 1, 0, 0, 4, 500000000⟩)
    ⟨946684804, 500000000⟩ rfl rfl
  have hj : (julianDay ⟨2000, 1, 1, 0, 0, 4, 500000000⟩ : ℚ) = (47069654401 : ℚ) / 19200 := by
    rw [julianDay, julianDayNumber_eq_dayCount 2000 1 1 (by decide) (by decide) (by decide)]
    norm_num [dayFraction, dayCount]
  refine ⟨by decide, by decide, hv, ?_, ?_⟩
  · rw [hv, hj]
    norm_num
  · rw [hv, hj, roundBinary64_julianDay_2000_01_01_a]
    norm_num

/-- C3 fails as stated. On 7000-06-15 the timestamp 00:00:01.999999999 is
earlier than 00:00:02, both valid, and `gc2jd` in binary64 arithmetic returns
a larger value on the earlier one (larger by `2 ^ (-30)`). -/
theorem gc2jd_binary64_not_mono :
    ValidDate ⟨7000, 6, 15, 0, 0, 1, 999999999⟩ ∧ ValidTime ⟨7000, 6, 15, 0, 0, 1, 999999999⟩ ∧
      ValidDate ⟨7000, 6, 15, 0, 0, 2, 0⟩ ∧ ValidTime ⟨7000, 6, 15, 0, 0, 2, 0⟩ ∧
      Civil.le ⟨7000, 6, 15, 0, 0, 1, 999999999⟩ ⟨7000, 6, 15, 0, 0, 2, 0⟩ ∧
      gc2jd_binary64 (fun s => if s = 0 then Civil.tm ⟨7000, 6, 15, 0, 0, 1, 999999999⟩
          else Civil.tm ⟨7000, 6, 15, 0, 0, 2, 0⟩) ⟨0, 999999999⟩
        = some ((574173038513187 : ℚ) / 134217728) ∧
      gc2jd_binary64 (fun s => if s = 0 then Civil.tm ⟨7000, 6, 15, 0, 0, 1, 999999999⟩
          else Civil.tm ⟨7000, 6, 15, 0, 0, 2, 0⟩) ⟨1, 0⟩
        = some ((4593384308105495 : ℚ) / 1073741824) ∧
      (4593384308105495 : ℚ) / 1073741824 < (574173038513187 : ℚ) / 134217728 :=
  ⟨by decide, by decide, by decide, by decide, by decide,
    gc2jd_binary64_7000_06_15_a _ ⟨0, 999999999⟩ rfl rfl,
    gc2jd_binary64_7000_06_15_b _ ⟨1, 0⟩ rfl rfl, by norm_num⟩

/-- C15 fails as stated. With the local offset +32400 s and the clock reading
`s = 946684804`, `ns = 500000000` (2000-01-01 00:00:04.5 UTC) the Julian Day
that `main` derives in binary64 arithmetic is `5264651726206185 / 2 ^ 31`,
which is not `2440587.5 + (s + ns / 10^9) / 86400` and not the binary64 number
nearest to that value either. -/
theorem main_julian_day_of_clock_binary64 :
    (jst2utc ⟨946684804, 500000000⟩).bind (gc2jd_binary64 (localtime_fixed 32400))
        = some ((5264651726206185 : ℚ) / 2147483648) ∧
      (5264651726206185 : ℚ) / 2147483648
        ≠ 2440587.5 + ((946684804 : ℚ) + (500000000 : ℚ) / 1000000000) / 86400 ∧
      (5264651726206185 : ℚ) / 2147483648
        ≠ roundBinary64
            (2440587.5 + ((946684804 : ℚ) + (500000000 : ℚ) / 1000000000) / 86400) := by
  refine ⟨?_, by norm_num, ?_⟩
  · rw [jst2utc_of_nonneg 946684804 500000000 (by decide) (by decide), Option.some_bind]
    exact gc2jd_binary64_2000_01_01_a (localtime_fixed 32400) ⟨946684804 - 32400, 500000000⟩
      localtime_fixed_2000_01_01 rfl
  · norm_num [roundBinary64_julianDay_2000_01_01_a]

/-- C16 fails as stated. In binary64 arithmetic `gc2jd` at 1999-12-31
23:59:59.999999999 returns `2451544.5`: that is the day-count part of the date
plus 1, not a value below it, and it is also the value of `gc2jd` at
2000-01-01 00:00:00, so that two timestamps on different calendar dates yield
the same Julian Day. -/
theorem gc2jd_binary64_day_interval :
    ValidDate ⟨1999, 12, 31, 23, 59, 59, 999999999⟩ ∧
      ValidTime ⟨1999, 12, 31, 23, 59, 59, 999999999⟩ ∧
      ValidDate ⟨2000, 1, 1, 0, 0, 0, 0⟩ ∧ ValidTime ⟨2000, 1, 1, 0, 0, 0, 0⟩ ∧
      gc2jd_binary64 (fun s => if s = 0 then Civil.tm ⟨1999, 12, 31, 23, 59, 59, 999999999⟩
          else Civil.tm ⟨2000, 1, 1, 0, 0, 0, 0⟩) ⟨0, 999999999⟩
        = some (datePart ⟨1999, 12, 31, 23, 59, 59, 999999999⟩ + 1) ∧
      gc2jd_binary64 (fun s => if s = 0 then Civil.tm ⟨1999, 12, 31, 23, 59, 59, 999999999⟩
          else Civil.tm ⟨2000, 1, 1, 0, 0, 0, 0⟩) ⟨0, 999999999⟩
        = gc2jd_binary64 (fun s => if s = 0 then Civil.tm ⟨1999, 12, 31, 23, 59, 59, 999999999⟩
          else Civil.tm ⟨2000, 1, 1, 0, 0, 0, 0⟩) ⟨1, 0⟩ := by
  have ha := gc2jd_binary64_1999_12_31
    (fun s => if s = 0 then Civil.tm ⟨1999, 12, 31, 23, 59, 59, 999999999⟩
      else Civil.tm ⟨2000, 1, 1, 0, 0, 0, 0⟩) ⟨0, 999999999⟩ rfl rfl
  have hb := gc2jd_binary64_2000_01_01
    (fun s => if s = 0 then Civil.tm ⟨1999, 12, 31, 23, 59, 59, 999999999⟩
      else Civil.tm ⟨2000, 1, 1, 0, 0, 0, 0⟩) ⟨1, 0⟩ rfl rfl
  have hd : (datePart ⟨1999, 12, 31, 23, 59, 59, 999999999⟩ : ℚ) + 1 = (4903089 : ℚ) / 2 := by
    norm_num [datePart, dayCount]
  refine ⟨by decide, by decide, by decide, by decide, ?_, ?_⟩
  · rw [ha, hd]
  · rw [ha, hb]

/-- C7 fails as stated. In binary64 arithmetic `calc_dist` on the vector of
the doubles `(0.1, 0.1, 0.3)` changes when the first and the third component
are exchanged (every sign `+1`): the sum of the squares is rounded after each
addition and depends on the order of the terms. -/
theorem calc_dist_binary64_perm :
    calc_dist Binary64.sqrt (fun i =>
        ![Binary64.ofRat 1, Binary64.ofRat 1, Binary64.ofRat 1] i
          * ![Binary64.ofRat 0.1, Binary64.ofRat 0.1, Binary64.ofRat 0.3] (Equiv.swap 0 2 i))
      ≠ calc_dist Binary64.sqrt ![Binary64.ofRat 0.1, Binary64.ofRat 0.1, Binary64.ofRat 0.3] :=
  fun h => absurd (congrArg Binary64.val h) (by
    rw [calc_dist_binary64_a, calc_dist_binary64_b]
    norm_num)

/-- C17 fails as stated. In binary64 arithmetic, with the scale `s = 0.1` and
the vector `v = (1, 4, 0)`, `calc_dist (s * v)` is not `|s| * calc_dist v`. -/
theorem calc_dist_binary64_not_homogeneous :
    calc_dist Binary64.sqrt (fun i =>
        Binary64.ofRat 0.1 * ![Binary64.ofRat 1, Binary64.ofRat 4, Binary64.ofRat 0] i)
      ≠ Binary64.ofRat 0.1
          * calc_dist Binary64.sqrt ![Binary64.ofRat 1, Binary64.ofRat 4, Binary64.ofRat 0] :=
  fun h => absurd (congrArg Binary64.val h) (by
    rw [calc_dist_binary64_c, calc_dist_binary64_d]
    norm_num)

end dist_jpl
